import Mathlib

/-!
# cw-alert-router: routing and dispatch of CloudWatch alarm events

A shallow embedding of the Go packages `cw`, `pagerduty`, `slack`, `graph` and
`lambda`.  Pure Go functions are Lean functions.  Code that talks to a
collaborator (CloudWatch, SSM, S3, Slack, PagerDuty, the clock) is a function of
the log of collaborator calls made so far and returns the extended log, so that
"which calls were made, in which order" is a statement about a list.
-/

namespace CwAlertRouter

/-! ## Go run-time values -/

/-- A Go error value: its rendered message and, when the value implements
the AWS SDK error interface, its error code. -/
structure GoError where
  msg : String
  awsCode : Option String
deriving DecidableEq, Repr

/-- The value built by `fmt.Errorf`: a plain error carrying only its message. -/
def Errorf (msg : String) : GoError := ⟨msg, none⟩

/-- The three ways a Go call can end: it returns a value, it panics with a
run-time error, or it ends the process (`log.Fatalf`). -/
inductive Outcome (α : Type) where
  | ret (a : α)
  | panic (msg : String)
  | exit (msg : String)
deriving DecidableEq, Repr

/-- A Go `map[string]string`, kept as an association list read at its first
binding of a key. -/
abbrev GoMap := List (String × String)

/-- The two-result map read `val, ok := m[k]`. -/
def GoMap.get (m : GoMap) (k : String) : Option String := List.lookup k m

/-- The one-result map read `m[k]`: the zero value `""` for a missing key. -/
def GoMap.index (m : GoMap) (k : String) : String := (List.lookup k m).getD ""

/-- The map write `m[k] = v`. -/
def GoMap.set (m : GoMap) (k v : String) : GoMap :=
  (k, v) :: m.filter (fun p => p.1 != k)

/-- A `time.Time`, as the number of nanoseconds since the Go zero time
(January 1 of year 1, 00:00:00 UTC). -/
abbrev Time := Int

/-- A `float64` sample, kept as its bit pattern: the router only copies and
prints samples. -/
structure Float64 where
  bits : Nat
deriving DecidableEq, Repr

/-- A byte buffer. -/
abbrev Bytes := List Nat

/-! ## Package `cw`: the event -/

/-- The type `cw.AlarmTags`. -/
abbrev AlarmTags := GoMap

/-- The struct `cw.AlarmState`. -/
structure AlarmState where
  Value : String
  Timestamp : String
  ReasonData : String
  Reason : String
deriving DecidableEq, Repr

/-- The struct `cw.AlarmMetricDetail`. -/
structure AlarmMetricDetail where
  Namespace : String
  Name : String
  Dimensions : GoMap
deriving DecidableEq, Repr

/-- The struct `cw.AlarmMetricStat`; `Period` is an `int64`. -/
structure AlarmMetricStat where
  Stat : String
  Period : Int
  Metric : AlarmMetricDetail
deriving DecidableEq, Repr

/-- The struct `cw.AlarmMetric`. -/
structure AlarmMetric where
  ReturnData : Bool
  ID : String
  MetricStat : AlarmMetricStat
deriving DecidableEq, Repr

/-- The struct `cw.AlarmConfiguration`. -/
structure AlarmConfiguration where
  Metrics : List AlarmMetric
deriving DecidableEq, Repr

/-- The struct `cw.AlarmEventDetail`. -/
structure AlarmEventDetail where
  State : AlarmState
  PreviousState : AlarmState
  Configuration : AlarmConfiguration
  AlarmName : String
  Tags : AlarmTags
deriving DecidableEq, Repr

/-- The struct `cw.Client`: a handle on the CloudWatch API, whose behaviour is
given by the environment. -/
structure CWClient where
deriving DecidableEq, Repr

/-- The struct `cw.EventDetails`; `cwClient` is a pointer that may be nil. -/
structure EventDetails where
  Account : String
  Version : String
  Time : String
  Source : String
  Resources : List String
  Region : String
  ID : String
  DetailType : String
  Detail : AlarmEventDetail
  cwClient : Option CWClient
deriving DecidableEq, Repr

/-! ## Collaborators and the call log -/

/-- The request `cloudwatch.MetricDataQuery` as the router fills it. -/
structure MetricDataQuery where
  Id : String
  ReturnData : Bool
  Period : Int
  Stat : String
  MetricName : String
  Namespace : String
  Dimensions : List (String × String)
deriving DecidableEq, Repr

/-- The request `cloudwatch.GetMetricDataInput` as the router fills it. -/
structure GetMetricDataInput where
  EndTime : Time
  StartTime : Time
  MetricDataQueries : List MetricDataQuery
deriving DecidableEq, Repr

/-- The part of `cloudwatch.MetricDataResult` the router reads. -/
structure MetricDataResult where
  Timestamps : List Time
  Values : List Float64
deriving DecidableEq, Repr

/-- The value `chart.Chart` handed to the renderer. -/
structure Chart where
  Width : Nat
  Height : Nat
  YAxisName : String
  XAxisName : String
  XValues : List Time
  YValues : List Float64
deriving DecidableEq, Repr

/-- A Slack layout block: a section holding one text object, or an image. -/
inductive Block where
  | section (textType text : String)
  | image (imageURL altText blockID titleType title : String)
deriving DecidableEq, Repr

/-- The struct `pdapi.V2Payload`; `Details` is the event itself. -/
structure V2Payload where
  Summary : String
  Source : String
  Severity : String
  Timestamp : String
  Details : EventDetails
deriving DecidableEq, Repr

/-- The struct `pdapi.V2Event`. -/
structure V2Event where
  RoutingKey : String
  Action : String
  DedupKey : String
  Client : String
  Payload : V2Payload
deriving DecidableEq, Repr

/-- One call that leaves the router: a request to a collaborator, or a read of
the clock or of the random source. -/
inductive Call where
  | ListTagsForResource (resourceARN : String)
  | GetParameter (name : String) (withDecryption : Bool)
  | Now
  | GetMetricData (input : GetMetricDataInput)
  | NewUUID
  | PutObject (bucket key acl : String) (body : Bytes)
  | PostMessage (channel : String) (blocks : List Block)
  | ManageEvent (ev : V2Event)
deriving DecidableEq, Repr

/-- The world outside the router.  Each collaborator answers a request as a
function of the calls made before it, which covers every deterministic
collaborator, stateful or not.  The last five fields are pure library
functions: `strings.ToLower`, the verb `%.2f`, the printing of a time, the
calendar date of a time, and the chart renderer. -/
structure Env where
  ListTagsForResource : List Call → String → Except GoError (List (String × String))
  GetParameter : List Call → String → Except GoError String
  Now : List Call → Time
  GetMetricData : List Call → GetMetricDataInput → Except GoError (List MetricDataResult)
  NewUUID : List Call → String
  PutObject : List Call → String → String → Bytes → Option GoError
  PostMessage : List Call → String → List Block → Except GoError (String × String)
  ManageEvent : List Call → V2Event → Option GoError
  ToLower : String → String
  FormatFloat2 : Float64 → String
  FormatTime : Time → String
  Date : Time → Int × Int × Int
  Render : Chart → Except GoError Bytes

/-- A piece of Go code that may call collaborators: from the log so far to
the way it ends and the log then. -/
def Run (α : Type) : Type := List Call → Outcome α × List Call

/-- Sequencing: a panic or an exit of the first part ends the whole. -/
def Run.bind {α β : Type} (m : Run α) (f : α → Run β) : Run β := fun h =>
  match m h with
  | (Outcome.ret a, h1) => f a h1
  | (Outcome.panic s, h1) => (Outcome.panic s, h1)
  | (Outcome.exit s, h1) => (Outcome.exit s, h1)

instance : Monad Run where
  pure a := fun h => (Outcome.ret a, h)
  bind := Run.bind

/-- A run-time panic. -/
def goPanic {α : Type} (msg : String) : Run α := fun h => (Outcome.panic msg, h)

/-- The call `log.Fatalf`: the process exits. -/
def logFatalf {α : Type} (msg : String) : Run α := fun h => (Outcome.exit msg, h)

/-- Perform one call: answer it from the log so far, then record it. -/
def perform {α : Type} (c : Call) (answer : List Call → α) : Run α :=
  fun h => (Outcome.ret (answer h), h ++ [c])

/-! ## Package `cw`: tags and metric data -/

/-- The method `EventDetails.AlarmARN`, returning the pair (string, error). -/
def AlarmARN (d : EventDetails) : String × Option GoError :=
  match d.Resources with
  | [r] => (r, none)
  | rs => ("", some (Errorf ("resources in the cloudwatch alarm details must be exactly 1 (we got "
            ++ toString rs.length ++ ")")))

/-- The method `EventDetails.SetCWClient`. -/
def SetCWClient (d : EventDetails) (c : Option CWClient) : EventDetails :=
  { d with cwClient := c }

/-- The loop of `GetAlarmTags` over the tags of the answer: each is written
into the map, so a later tag overwrites an earlier one with the same key. -/
def tagMap (tagList : List (String × String)) : AlarmTags :=
  tagList.foldl (fun tags tag => GoMap.set tags tag.1 tag.2) []

/-- The method `cw.Client.GetAlarmTags`. -/
def GetAlarmTags (env : Env) (alarmARN : String) : Run (Except GoError AlarmTags) := do
  let resp ← perform (Call.ListTagsForResource alarmARN) (fun h => env.ListTagsForResource h alarmARN)
  match resp with
  | Except.error err => pure (Except.error err)
  | Except.ok tagList => pure (Except.ok (tagMap tagList))

/-- The method `EventDetails.InjectTags`: the event after the call, and the error. -/
def InjectTags (env : Env) (d : EventDetails) : Run (EventDetails × Option GoError) :=
  match d.cwClient with
  | none => pure (d, some (Errorf "cloudwatch client is nil"))
  | some _ =>
    match AlarmARN d with
    | (_, some err) => pure (d, some err)
    | (arn, none) => do
      let r ← GetAlarmTags env arn
      match r with
      | Except.error err => pure (d, some err)
      | Except.ok tags => pure ({ d with Detail := { d.Detail with Tags := tags } }, none)

/-- Two-complement wrap-around of an `int64` result. -/
def wrap64 (x : Int) : Int := (x + 2 ^ 63) % 2 ^ 64 - 2 ^ 63

/-- The constant `time.Minute`, in nanoseconds. -/
def Minute : Int := 60000000000

/-- The constant `time.Hour`, in nanoseconds. -/
def Hour : Int := 3600000000000

/-- The method `time.Time.Truncate`: a duration that is not positive leaves the
time unchanged. -/
def Truncate (t : Time) (dur : Int) : Time :=
  if dur ≤ 0 then t else t - t % dur

/-- The method `AlarmMetricDetail.AWSDimensions` (Go ranges over the map in an
unspecified order; here in the order of the association list). -/
def AWSDimensions (m : AlarmMetricDetail) : List (String × String) :=
  m.Dimensions.map (fun kv => (kv.1, kv.2))

/-- The queries built by the loop of `GetMetricDataRequestForHrs`, the first
of them numbered `idx`. -/
def buildQueries : Nat → List AlarmMetric → List MetricDataQuery
  | _, [] => []
  | idx, m :: rest =>
    { Id := "m" ++ toString idx
      ReturnData := m.ReturnData
      Period := m.MetricStat.Period
      Stat := m.MetricStat.Stat
      MetricName := m.MetricStat.Metric.Name
      Namespace := m.MetricStat.Metric.Namespace
      Dimensions := AWSDimensions m.MetricStat.Metric } :: buildQueries (idx + 1) rest

/-- The method `EventDetails.GetMetricDataRequestForHrs`; `hrs` is the
variadic argument. -/
def GetMetricDataRequestForHrs (env : Env) (d : EventDetails) (hrs : List Int) :
    Run (Except GoError MetricDataResult) :=
  match d.cwClient with
  | none => pure (Except.error (Errorf "cloudwatch client is nil"))
  | some _ =>
    let hours : Int := match hrs with
      | [] => 1
      | x :: _ => x
    do
    let currTime ← perform Call.Now env.Now
    match d.Detail.Configuration.Metrics with
    | [] => goPanic "runtime error: index out of range [0] with length 0"
    | m0 :: _ =>
      let period := m0.MetricStat.Period
      let endTime := Truncate currTime (wrap64 (Int.tdiv period 60 * Minute))
      let startTime := endTime + wrap64 (wrap64 (-hours) * Hour)
      let metrics := buildQueries 0 d.Detail.Configuration.Metrics
      let metricRequest : GetMetricDataInput :=
        { EndTime := endTime, StartTime := startTime, MetricDataQueries := metrics }
      let resp ← perform (Call.GetMetricData metricRequest) (fun h => env.GetMetricData h metricRequest)
      match resp with
      | Except.error err => pure (Except.error err)
      | Except.ok results =>
        match results with
        | [r] => pure (Except.ok r)
        | rs => pure (Except.error (Errorf ("number of metric data results != 1 (got "
                  ++ toString rs.length ++ ")")))

/-- A Go `map[string][]string`, kept as an association list. -/
abbrev StrListMap := List (String × List String)

/-- The map read `m[k]`: the nil slice for a missing key. -/
def StrListMap.index (m : StrListMap) (k : String) : List String := (List.lookup k m).getD []

/-- The map write `m[k] = v`. -/
def StrListMap.set (m : StrListMap) (k : String) (v : List String) : StrListMap :=
  (k, v) :: m.filter (fun p => p.1 != k)

/-- The constant `cw.MetricNamesKey`. -/
def MetricNamesKey : String := "names"

/-- The constant `cw.MetricDimensionsKey`. -/
def MetricDimensionsKey : String := "dimensions"

/-- The constant `cw.MetricNamespacesKey`. -/
def MetricNamespacesKey : String := "namespaces"

/-- The body of the loop of `MetricList` for one metric. -/
def MetricList.step (list : StrListMap) (metric : AlarmMetric) : StrListMap :=
  let m := metric.MetricStat.Metric
  let list := if m.Namespace ≠ "" then
      StrListMap.set list MetricNamespacesKey (StrListMap.index list MetricNamespacesKey ++ [m.Namespace])
    else list
  let list := if m.Name ≠ "" then
      StrListMap.set list MetricNamesKey (StrListMap.index list MetricNamesKey ++ [m.Name])
    else list
  m.Dimensions.foldl (fun list kv =>
    StrListMap.set list MetricDimensionsKey
      (StrListMap.index list MetricDimensionsKey ++ [kv.1 ++ ":" ++ kv.2])) list

/-- The method `EventDetails.MetricList`. -/
def MetricList (d : EventDetails) : StrListMap :=
  let list : StrListMap := []
  let list := StrListMap.set list MetricDimensionsKey []
  let list := StrListMap.set list MetricNamesKey []
  let list := StrListMap.set list MetricNamespacesKey []
  d.Detail.Configuration.Metrics.foldl MetricList.step list

/-- The method `EventDetails.AlarmConsoleLink`. -/
def AlarmConsoleLink (d : EventDetails) : String :=
  let baseURL := "https://console.aws.amazon.com/cloudwatch/home"
  baseURL ++ "?region=" ++ d.Region ++ "#alarmsV2:alarm/" ++ d.Detail.AlarmName

/-! ## Package `graph` -/

/-- The constant `graph.DefaultGraphWidth`. -/
def DefaultGraphWidth : Nat := 512

/-- The constant `graph.DefaultGraphHeight`. -/
def DefaultGraphHeight : Nat := 200

/-- The function `graph.CreateFromCWMetricDataResult`: the copying loop reads
`res.Values[idx]` for every index of `res.Timestamps`. -/
def CreateFromCWMetricDataResult (env : Env) (res : MetricDataResult) :
    Run (Except GoError Bytes) :=
  let dataPoints := res.Timestamps.length
  if res.Values.length < dataPoints then
    goPanic ("runtime error: index out of range [" ++ toString res.Values.length
      ++ "] with length " ++ toString res.Values.length)
  else
    let xvals := res.Timestamps
    let yvals := res.Values.take dataPoints
    let graph : Chart :=
      { Width := DefaultGraphWidth, Height := DefaultGraphHeight,
        YAxisName := "Value", XAxisName := "Time", XValues := xvals, YValues := yvals }
    match env.Render graph with
    | Except.error err => pure (Except.error err)
    | Except.ok buffer => pure (Except.ok buffer)

/-! ## Package `s3` -/

/-- The method `s3.Client.WriteBytes`. -/
def WriteBytes (env : Env) (bucket key : String) (r : Bytes) : Run (Option GoError) := do
  let err ← perform (Call.PutObject bucket key "private" r) (fun h => env.PutObject h bucket key r)
  match err with
  | some e => pure (some e)
  | none => pure none

/-! ## Package `parameterstore` -/

/-- The method `parameterstore.Client.GetParameterValue`, returning the pair
(string, error). -/
def GetParameterValue (env : Env) (key : String) : Run (String × Option GoError) := do
  let resp ← perform (Call.GetParameter key true) (fun h => env.GetParameter h key)
  match resp with
  | Except.error err => pure ("", some err)
  | Except.ok value => pure (value, none)

/-! ## Package `slack` -/

/-- The method `slack.Client.CWAlarmHeaderBlock`. -/
def CWAlarmHeaderBlock (evt : EventDetails) (pfx : String) : Block :=
  Block.section "mrkdwn" ("*" ++ pfx ++ " Cloudwatch Alarm: " ++ evt.Detail.AlarmName ++ "*")

/-- The method `slack.Client.CWAlarmSummary`: with a fetched result it prints
`vals.Values[0]` and `vals.Timestamps[0]`. -/
def CWAlarmSummary (env : Env) (evt : EventDetails) : Run Block :=
  let metricList := MetricList evt
  let metricsStrings : List String := []
  let metricsStrings :=
    if (StrListMap.index metricList MetricNamesKey).length > 0 then
      metricsStrings ++ ["Names: " ++ ",".intercalate (StrListMap.index metricList MetricNamesKey)]
    else metricsStrings
  let metricsStrings :=
    if (StrListMap.index metricList MetricNamespacesKey).length > 0 then
      metricsStrings ++ ["Namespaces: " ++ ",".intercalate (StrListMap.index metricList MetricNamespacesKey)]
    else metricsStrings
  let metricsStrings :=
    if (StrListMap.index metricList MetricDimensionsKey).length > 0 then
      metricsStrings ++ ["Dimensions: " ++ ",".intercalate (StrListMap.index metricList MetricDimensionsKey)]
    else metricsStrings
  do
  let r ← GetMetricDataRequestForHrs env evt []
  let metricDataText ← (match r with
    | Except.error cwerr => (pure ("error fetching metrics: " ++ cwerr.msg) : Run String)
    | Except.ok vals =>
      match vals.Values, vals.Timestamps with
      | v :: _, t :: _ => pure (env.FormatFloat2 v ++ " @ " ++ env.FormatTime t)
      | _, _ => goPanic "runtime error: index out of range [0] with length 0")
  let metricBlock :=
    if metricsStrings.length > 0 then
      Block.section "mrkdwn" ("*Metrics*: `" ++ " - ".intercalate metricsStrings
        ++ "`\nRecent data: `" ++ metricDataText ++ "`")
    else Block.section "mrkdwn" "*Metrics*\n`None found`"
  pure metricBlock

/-- The method `slack.Client.ImageLink`. -/
def ImageLink (url : String) : Block :=
  Block.image url "MetricData" "metricdata" "plain_text" "MetricData"

/-- The method `slack.Client.CWAlarmLink`. -/
def CWAlarmLink (evt : EventDetails) : Block :=
  let link := AlarmConsoleLink evt
  Block.section "mrkdwn" ("Link: <" ++ link ++ "|AWS Console>")

/-- The method `slack.Client.SendMessage`, returning (channel id, timestamp, error). -/
def SendMessage (env : Env) (channel : String) (blocks : List Block) :
    Run (String × String × Option GoError) := do
  let resp ← perform (Call.PostMessage channel blocks) (fun h => env.PostMessage h channel blocks)
  match resp with
  | Except.error err => pure ("", "", some err)
  | Except.ok (channelID, timestamp) => pure (channelID, timestamp, none)

/-- The blocks of a message, shared by the two senders: header, summary, the
image when there is a link, and the console link. -/
def messageBlocks (header info link : Block) (imageLink : String) : List Block :=
  if imageLink ≠ "" then [header, info, ImageLink imageLink, link] else [header, info, link]

/-- The method `slack.Client.SendEventResolved`. -/
def SendEventResolved (env : Env) (slackChannel : String) (evt : EventDetails)
    (imageLink : String) : Run (String × String × Option GoError) := do
  let header := CWAlarmHeaderBlock evt ":white_check_mark: (resolved)"
  let info ← CWAlarmSummary env evt
  let link := CWAlarmLink evt
  SendMessage env slackChannel (messageBlocks header info link imageLink)

/-- The method `slack.Client.SendEventTriggered`. -/
def SendEventTriggered (env : Env) (slackChannel : String) (evt : EventDetails)
    (imageLink : String) : Run (String × String × Option GoError) := do
  let header := CWAlarmHeaderBlock evt ":red_alert_parrot: (triggered)"
  let info ← CWAlarmSummary env evt
  let link := CWAlarmLink evt
  SendMessage env slackChannel (messageBlocks header info link imageLink)

/-! ## Package `pagerduty`: the transition classifier -/

/-- The method `pagerduty.Client.EventAction`. -/
def EventAction (detail : EventDetails) : String :=
  let previousState := detail.Detail.PreviousState.Value
  let currentState := detail.Detail.State.Value
  let suppressPagerduty := GoMap.index detail.Detail.Tags "alerts:suppress_pagerduty"
  if suppressPagerduty = "true" then ""
  else if currentState = "OK" then
    (if previousState = "ALARM" then "resolve" else "")
  else if currentState = "ALARM" then "trigger"
  else ""

/-- The constant `defaultEventSeverity`. -/
def defaultEventSeverity : String := "critical"

/-- The constant `clientName`. -/
def clientName : String := "cw-notify"

/-- The event `pdapi.V2Event` that `SubmitEvent` builds, with its payload. -/
def SubmitEvent.event (routingKey : String) (detail : EventDetails) (alarmARN action : String) :
    V2Event :=
  let severity := defaultEventSeverity
  let timestamp := detail.Detail.State.Timestamp
  let payload : V2Payload :=
    { Summary := detail.Detail.AlarmName, Source := alarmARN, Severity := severity,
      Timestamp := timestamp, Details := detail }
  { RoutingKey := routingKey, Action := action, DedupKey := alarmARN,
    Client := clientName, Payload := payload }

/-- The method `pagerduty.Client.SubmitEvent`. -/
def SubmitEvent (env : Env) (routingKey : String) (detail : EventDetails) : Run (Option GoError) :=
  match AlarmARN detail with
  | (_, some err) => pure (some err)
  | (alarmARN, none) =>
    let suppressalert := GoMap.index detail.Detail.Tags "alerts:suppress_pagerduty"
    let action := EventAction detail
    if action = "" then pure none
    else if suppressalert = "true" then pure none
    else
      let ev := SubmitEvent.event routingKey detail alarmARN action
      perform (Call.ManageEvent ev) (fun h => env.ManageEvent h ev)

/-! ## Package `lambda` -/

/-- The constant `DefaultOwnerTagKey`. -/
def DefaultOwnerTagKey : String := "owner"

/-- The constant `DefaultServiceNameTagKey`. -/
def DefaultServiceNameTagKey : String := "service"

/-- The constant `DefaultSlackChannelOverrideTagKey`. -/
def DefaultSlackChannelOverrideTagKey : String := "alerts:slack_channel"

/-- The constant `DefaultPagerDutySuppressAlarmsTagKey`. -/
def DefaultPagerDutySuppressAlarmsTagKey : String := "alerts:suppress_pagerduty"

/-- The constant `DefaultPagerDutyRoutingKeySSMPattern`, up to its `%s`. -/
def DefaultPagerDutyRoutingKeySSMPattern : String :=
  "/service/cw_alert_router/pagerduty/routing_keys/"

/-- The struct `lambda.Config`.  The parameter-store, S3, PagerDuty and Slack
clients are present (as `NewConfig` leaves them) and act through the
environment; the CloudWatch client is a pointer that may be nil. -/
structure Config where
  DefaultSlackChannel : String
  ServiceNameTagKey : String
  OwnerTagKey : String
  ImageBucket : String
  ImageBucketRegion : String
  ImageBucketRoleArn : String
  ImageBucketPrefix : String
  ImageHost : String
  DefaultPagerDutyRoutingKey : String
  cw : Option CWClient
deriving DecidableEq, Repr

/-- The function `GetOwnerFromTags`. -/
def GetOwnerFromTags (cfg : Config) (tags : AlarmTags) : String :=
  match GoMap.get tags cfg.OwnerTagKey with
  | some val => val
  | none => ""

/-- The function `GetSlackChannelOverrideFromTags`. -/
def GetSlackChannelOverrideFromTags (tags : AlarmTags) : String :=
  match GoMap.get tags DefaultSlackChannelOverrideTagKey with
  | some val => val
  | none => ""

/-- The function `GetServiceNameFromTags`. -/
def GetServiceNameFromTags (cfg : Config) (tags : AlarmTags) : String :=
  match GoMap.get tags cfg.ServiceNameTagKey with
  | some val => val
  | none => ""

/-- The function `GetSlackChannelFromOwner`. -/
def GetSlackChannelFromOwner (env : Env) (cfg : Config) (owner : String) : String :=
  if owner = "" then cfg.DefaultSlackChannel
  else
    let lowerOwner := env.ToLower owner
    lowerOwner ++ "-alarms"

/-- The call `strings.ReplaceAll(s, "-", "_")`: both strings are one character. -/
def ReplaceAllHyphens (s : String) : String :=
  String.mk (s.data.map (fun c => if c = '-' then '_' else c))

/-- The function `GetPagerDutyRoutingKey`. -/
def GetPagerDutyRoutingKey (env : Env) (cfg : Config) (ServiceName : String) : Run String :=
  if ServiceName = "" then pure cfg.DefaultPagerDutyRoutingKey
  else
    let lServiceName := ReplaceAllHyphens (env.ToLower ServiceName)
    let pagerDutyRoutingKeySSMKey := DefaultPagerDutyRoutingKeySSMPattern ++ lServiceName
    do
    let r ← GetParameterValue env pagerDutyRoutingKeySSMKey
    match r with
    | (_, some err) =>
      match err.awsCode with
      | some code =>
        if code = "ParameterNotFound" then pure cfg.DefaultPagerDutyRoutingKey
        else logFatalf ("There was an AWS error retrieving ssm key " ++ pagerDutyRoutingKeySSMKey
          ++ ": " ++ err.msg)
      | none => logFatalf ("There was a generic error retrieving ssm key "
          ++ pagerDutyRoutingKeySSMKey ++ ": " ++ err.msg)
    | (val, none) =>
      if val = "" then pure cfg.DefaultPagerDutyRoutingKey
      else pure val

/-- The function `GetSlackChannel`. -/
def GetSlackChannel (env : Env) (cfg : Config) (tags : AlarmTags) : String :=
  let slackChannelOverride := GetSlackChannelOverrideFromTags tags
  if slackChannelOverride ≠ "" then slackChannelOverride
  else
    let alertOwner := GetOwnerFromTags cfg tags
    GetSlackChannelFromOwner env cfg alertOwner

/-- The function `GenerateMetricsGraphAndLink`, returning the pair (string, error). -/
def GenerateMetricsGraphAndLink (env : Env) (detail : EventDetails) (cfg : Config) :
    Run (String × Option GoError) := do
  let r ← GetMetricDataRequestForHrs env detail []
  match r with
  | Except.error err => pure ("", some err)
  | Except.ok res => do
    let g ← CreateFromCWMetricDataResult env res
    match g with
    | Except.error err => pure ("", some err)
    | Except.ok imgBuf => do
      let t ← perform Call.Now env.Now
      let id ← perform Call.NewUUID env.NewUUID
      let objectKey := "/" ++ cfg.ImageBucketPrefix ++ "/" ++ toString (env.Date t).1 ++ "/"
        ++ toString (env.Date t).2.1 ++ "/" ++ toString (env.Date t).2.2 ++ "/" ++ id ++ ".png"
      let bucket := cfg.ImageBucket
      let err ← WriteBytes env bucket objectKey imgBuf
      match err with
      | some e => pure ("", some e)
      | none => pure (cfg.ImageHost ++ objectKey, none)

/-- The statement `switch pdAction` of `ProcessSQSEvent`: the chat message of
the action, and no message for any other action. -/
def sendForAction (env : Env) (pdAction slackChannel : String) (d : EventDetails)
    (imgURL : String) : Run (String × String × Option GoError) :=
  if pdAction = "resolve" then SendEventResolved env slackChannel d imgURL
  else if pdAction = "trigger" then SendEventTriggered env slackChannel d imgURL
  else pure ("", "", none)

/-- The end of `ProcessSQSEvent`, from the comment "now send to slack/pagerduty"
on: the action, the evidence link, the chat message, the page. -/
def ProcessSQSEvent.dispatch (env : Env) (cfg : Config) (d : EventDetails)
    (pagerDutyRoutingKey slackChannel : String) : Run (Option GoError) := do
  let pdAction := EventAction d
  let g ← GenerateMetricsGraphAndLink env d cfg
  let imgURL := if g.2 ≠ none then "" else g.1
  let sent ← sendForAction env pdAction slackChannel d imgURL
  match sent with
  | (_, _, some slackError) => pure (some slackError)
  | (_, _, none) => SubmitEvent env pagerDutyRoutingKey d

/-- The middle of `ProcessSQSEvent`, once the tags are injected: the service
name, the routing key, the channel. -/
def ProcessSQSEvent.route (env : Env) (cfg : Config) (d : EventDetails) : Run (Option GoError) := do
  let ServiceName := GetServiceNameFromTags cfg d.Detail.Tags
  let pagerDutyRoutingKey ← GetPagerDutyRoutingKey env cfg ServiceName
  if pagerDutyRoutingKey = "" then
    pure (some (Errorf "failed fetching the pager duty routing key"))
  else
    let slackChannel := GetSlackChannel env cfg d.Detail.Tags
    ProcessSQSEvent.dispatch env cfg d pagerDutyRoutingKey slackChannel

/-- The function `ProcessSQSEvent`; the argument is a pointer that may be nil. -/
def ProcessSQSEvent (env : Env) (cfg : Config) (d : Option EventDetails) : Run (Option GoError) :=
  match d with
  | none => pure (some (Errorf "passed event details are nil"))
  | some d => do
    let r ← InjectTags env (SetCWClient d cfg.cw)
    match r with
    | (_, some err) =>
      pure (some (Errorf ("error injecting tags for cloudwatch event: " ++ err.msg)))
    | (d, none) => ProcessSQSEvent.route env cfg d

/-! ## Reading the call log -/

/-- A call to the chat collaborator. -/
def Call.isChat : Call → Bool
  | Call.PostMessage _ _ => true
  | _ => false

/-- A call to the paging collaborator. -/
def Call.isPage : Call → Bool
  | Call.ManageEvent _ => true
  | _ => false

/-- The chat messages of a log, in order. -/
def chatCalls (h : List Call) : List Call := h.filter Call.isChat

/-- The paging submissions of a log, in order. -/
def pageCalls (h : List Call) : List Call := h.filter Call.isPage

/-- The chat messages and paging submissions of a log, in order. -/
def dispatchCalls (h : List Call) : List Call := h.filter (fun c => c.isChat || c.isPage)

/-- The event as `ProcessSQSEvent` holds it once `InjectTags` has succeeded:
the configured CloudWatch client set, the fetched tags stored. -/
def injected (cfg : Config) (d : EventDetails) (tags : AlarmTags) : EventDetails :=
  { SetCWClient d cfg.cw with Detail := { d.Detail with Tags := tags } }

/-- A piece of code that leaves the calls selected by `p` as they were. -/
def Quiet {α : Type} (p : Call → Bool) (m : Run α) : Prop :=
  ∀ h, (m h).2.filter p = h.filter p

/-- A selection of calls that holds only chat messages and paging submissions. -/
def OnlyDispatch (p : Call → Bool) : Prop :=
  ∀ c, p c = true → (c.isChat || c.isPage) = true

/-! ## A sample world, after the test doubles of the repository -/

/-- Lower-casing of the ASCII letters, standing in for `strings.ToLower` in the
sample world. -/
def asciiToLower (s : String) : String := String.mk (s.data.map Char.toLower)

/-- The alarm of the test events. -/
def sampleARN : String :=
  "arn:aws:cloudwatch:us-east-1:1234567890123:alarm:test-service-alarm-abcd"

/-- The tags the mocked CloudWatch returns. -/
def sampleTagList : List (String × String) :=
  [("Env", "test"), ("service", "test-service"), ("owner", "test")]

/-- The tags of the test alarm `SuppressPagerDutyTrue`. -/
def suppressedTagList : List (String × String) :=
  [("Env", "test"), ("alerts:suppress_pagerduty", "true"), ("service", "test-service"),
   ("owner", "test")]

/-- A world in which every collaborator succeeds; the tag lookup answers `tagList`. -/
def sampleEnv (tagList : List (String × String)) : Env :=
  { ListTagsForResource := fun _ _ => Except.ok tagList
    GetParameter := fun _ _ => Except.ok "pagerduty-key-1"
    Now := fun h => 63731746565000000000 + h.length
    GetMetricData := fun _ _ => Except.ok [⟨[63731746200000000000, 63731746500000000000], [⟨1⟩, ⟨2⟩]⟩]
    NewUUID := fun _ => "0e4b7a52-6f0c-4d5e-9a53-2f5a3c1d7b90"
    PutObject := fun _ _ _ _ => none
    PostMessage := fun _ _ _ => Except.ok ("XVB123123123", "123123123123123")
    ManageEvent := fun _ _ => none
    ToLower := asciiToLower
    FormatFloat2 := fun v => toString v.bits ++ ".00"
    FormatTime := fun t => toString t
    Date := fun _ => (2020, 7, 31)
    Render := fun _ => Except.ok [137, 80, 78, 71] }

/-- The sample world with a chat service that refuses every message. -/
def chatDownEnv : Env :=
  { sampleEnv sampleTagList with
    PostMessage := fun _ _ _ => Except.error ⟨"channel_not_found", none⟩ }

/-- The configuration of the integration test. -/
def sampleCfg : Config :=
  { DefaultSlackChannel := "test-alarms"
    ServiceNameTagKey := "service"
    OwnerTagKey := "owner"
    ImageBucket := "test-bucket-123"
    ImageBucketRegion := "eu-west-1"
    ImageBucketRoleArn := ""
    ImageBucketPrefix := "graphs"
    ImageHost := "https://test.image.host.com"
    DefaultPagerDutyRoutingKey := "pagerduty-key-default"
    cw := some {} }

/-- The metric query of the test event. -/
def sampleMetric : AlarmMetric :=
  { ReturnData := true
    ID := "beb9cf5d-585d-3d43-179b-1e0898d8e237"
    MetricStat :=
      { Stat := "Average"
        Period := 60
        Metric :=
          { Namespace := "AWS/EC2"
            Name := "CPUUtilization"
            Dimensions := [("AutoScalingGroupName", "test-service")] } } }

/-- The test event, as decoded from the queue (no tags yet), with the given
previous state, current state and metric queries. -/
def sampleEvent (prev cur : String) (metrics : List AlarmMetric) : EventDetails :=
  { Account := "1234567890123"
    Version := "0"
    Time := "2020-07-31T06:56:05Z"
    Source := "aws.cloudwatch"
    Resources := [sampleARN]
    Region := "us-east-1"
    ID := "1ebd31a7-11e5-b52a-03e4-be4110b0f1e0"
    DetailType := "CloudWatch Alarm State Change"
    Detail :=
      { State := ⟨cur, "2020-07-31T06:56:05.606+0000", "", "Threshold Crossed"⟩
        PreviousState := ⟨prev, "2020-07-31T06:52:05.601+0000", "", "Insufficient Data"⟩
        Configuration := ⟨metrics⟩
        AlarmName := "test-service-alarm-abcd"
        Tags := [] }
    cwClient := none }

/-- The metric-data request the sample event leads to at the sample clock. -/
def sampleRequest : GetMetricDataInput :=
  { EndTime := 63731746560000000000
    StartTime := 63731742960000000000
    MetricDataQueries :=
      [{ Id := "m0", ReturnData := true, Period := 60, Stat := "Average",
         MetricName := "CPUUtilization", Namespace := "AWS/EC2",
         Dimensions := [("AutoScalingGroupName", "test-service")] }] }

/-- The object key of the chart in the sample world. -/
def sampleObjectKey : String := "/graphs/2020/7/31/0e4b7a52-6f0c-4d5e-9a53-2f5a3c1d7b90.png"

/-- The calls of the sample run up to the routing key. -/
def sampleLogRouted : List Call :=
  [Call.ListTagsForResource sampleARN,
   Call.GetParameter "/service/cw_alert_router/pagerduty/routing_keys/test_service" true]

/-- The calls of the sample run up to the end of the evidence step. -/
def sampleLogEvidence : List Call :=
  sampleLogRouted ++
  [Call.Now, Call.GetMetricData sampleRequest, Call.Now, Call.NewUUID,
   Call.PutObject "test-bucket-123" sampleObjectKey "private" [137, 80, 78, 71]]

/-- The calls of the sample run up to the chat message: the summary block
fetches the metric data once more. -/
def sampleLogSummary : List Call :=
  sampleLogEvidence ++ [Call.Now, Call.GetMetricData sampleRequest]

/-- The summary block of the sample message. -/
def sampleSummary : Block :=
  Block.section "mrkdwn"
    ("*Metrics*: `Names: CPUUtilization - Namespaces: AWS/EC2 - "
      ++ "Dimensions: AutoScalingGroupName:test-service`\nRecent data: `1.00 @ 63731746200000000000`")

/-- The blocks of the sample message under the given header text. -/
def sampleBlocks (header : String) : List Block :=
  [Block.section "mrkdwn" header,
   sampleSummary,
   Block.image ("https://test.image.host.com" ++ sampleObjectKey) "MetricData" "metricdata"
     "plain_text" "MetricData",
   Block.section "mrkdwn"
     ("Link: <https://console.aws.amazon.com/cloudwatch/home?region=us-east-1"
       ++ "#alarmsV2:alarm/test-service-alarm-abcd|AWS Console>")]

/-- The sample world with a parameter store that has no parameter at all. -/
def notFoundEnv : Env :=
  { sampleEnv sampleTagList with
    GetParameter := fun _ _ =>
      Except.error ⟨"ParameterNotFound: parameter not found", some "ParameterNotFound"⟩ }

/-- The sample world with a parameter store that holds empty values. -/
def emptyValueEnv : Env :=
  { sampleEnv sampleTagList with GetParameter := fun _ _ => Except.ok "" }

/-- The sample world with a parameter store that denies access. -/
def deniedEnv : Env :=
  { sampleEnv sampleTagList with
    GetParameter := fun _ _ =>
      Except.error ⟨"AccessDeniedException: not authorized", some "AccessDeniedException"⟩ }

/-- Whether a call returned to its caller (it neither panicked nor ended the
process). -/
def Outcome.returned {α : Type} : Outcome α → Bool
  | Outcome.ret _ => true
  | _ => false

/-- A configuration whose default routing key is empty. -/
def noDefaultKeyCfg : Config := { sampleCfg with DefaultPagerDutyRoutingKey := "" }

/-- The first optional argument of `GetMetricDataRequestForHrs`, and 1 when
none is given. -/
def windowHours (hrs : List Int) : Int :=
  match hrs with
  | [] => 1
  | x :: _ => x

/-- The request that `GetMetricDataRequestForHrs` assembles when the clock
reads `currTime`, for an event whose metric queries are `m0 :: rest`. -/
def metricRequest (currTime : Time) (m0 : AlarmMetric) (rest : List AlarmMetric)
    (hrs : List Int) : GetMetricDataInput :=
  let period := m0.MetricStat.Period
  let endTime := Truncate currTime (wrap64 (Int.tdiv period 60 * Minute))
  let startTime := endTime + wrap64 (wrap64 (-(windowHours hrs)) * Hour)
  { EndTime := endTime, StartTime := startTime, MetricDataQueries := buildQueries 0 (m0 :: rest) }

/-- The strings of the pattern `^[a-z][a-zA-Z0-9_]*$`, which the comment in
`GetMetricDataRequestForHrs` quotes as the rule for a metric-data query id. -/
def matchesQueryIdPattern (s : String) : Bool :=
  match s.data with
  | [] => false
  | c :: cs => c.isLower && cs.all (fun x => x.isAlphanum || x == '_')

/-- The test event with the CloudWatch client set, as `ProcessSQSEvent` holds
it when it fetches metric data. -/
def sampleClientEvent (metrics : List AlarmMetric) : EventDetails :=
  SetCWClient (sampleEvent "OK" "ALARM" metrics) (some {})

/-- A second metric query, with the id and the metric of the test event that
comes from the queue. -/
def secondMetric : AlarmMetric :=
  { ReturnData := false
    ID := "62ba7bc1-7c4c-3747-4ab5-3a3dc4e40530"
    MetricStat :=
      { Stat := "Average"
        Period := 300
        Metric :=
          { Namespace := "AWS/RDS"
            Name := "CPUUtilization"
            Dimensions := [("DBClusterIdentifier", "testdb")] } } }

/-- The metric query of the test event with a high-resolution period of 30
seconds. -/
def subMinuteMetric : AlarmMetric :=
  { sampleMetric with MetricStat := { sampleMetric.MetricStat with Period := 30 } }

/-- The two queries that the test event with the two metrics leads to. -/
def sampleTwoQueries : List MetricDataQuery :=
  [{ Id := "m0", ReturnData := true, Period := 60, Stat := "Average",
     MetricName := "CPUUtilization", Namespace := "AWS/EC2",
     Dimensions := [("AutoScalingGroupName", "test-service")] },
   { Id := "m1", ReturnData := false, Period := 300, Stat := "Average",
     MetricName := "CPUUtilization", Namespace := "AWS/RDS",
     Dimensions := [("DBClusterIdentifier", "testdb")] }]

/-! ## Package `pagerduty`: the mask of the routing key -/

/-- The function `maskKey`: the loop writes `'X'` at the indices below
`len(rs) - 4`, none when the string has four runes or fewer. -/
def maskKey (s : String) : String :=
  let rs := s.data
  String.mk ((List.range (rs.length - 4)).foldl (fun rs i => rs.set i 'X') rs)

/-! ## Package `lambda`: the tag keys of the configuration -/

/-- The constant `DefaultSlackChannelEnv`. -/
def DefaultSlackChannelEnv : String := "DEFAULT_SLACK_CHANNEL"

/-- The constant `DefaultPagerDutyRoutingKeyEnv`. -/
def DefaultPagerDutyRoutingKeyEnv : String := "PAGERDUTY_DEFAULT_ROUTING_KEY"

/-- The constant `ImageBucketEnv`. -/
def ImageBucketEnv : String := "IMAGE_BUCKET"

/-- The constant `ImageBucketRegionEnv`. -/
def ImageBucketRegionEnv : String := "IMAGE_BUCKET_REGION"

/-- The constant `ImageBucketRoleArnEnv`. -/
def ImageBucketRoleArnEnv : String := "IMAGE_BUCKET_ROLE_ARN"

/-- The constant `ImageBucketPrefixEnv`. -/
def ImageBucketPrefixEnv : String := "IMAGE_BUCKET_PREFIX"

/-- The constant `ImageHostEnv`. -/
def ImageHostEnv : String := "IMAGE_HOST"

/-- The constant `OwnerTagKeyEnv`. -/
def OwnerTagKeyEnv : String := "OWNER_TAG_KEY"

/-- The constant `ServiceNameTagKeyEnv`. -/
def ServiceNameTagKeyEnv : String := "SERVICE_NAME_TAG_KEY"

/-- The method `Config.fetchEnv` on the fields of the embedded `Config`, field
by field: each of the first seven is read from its environment variable when
it is still empty; the two tag keys are always read from theirs, and get
their default when the variable is empty.  `getenv` is `os.Getenv`, which
gives `""` for a variable that is not set.  The private fields (the key of the
Slack token, the log level) are not part of the embedding; the method always
returns a nil error. -/
def fetchEnv (getenv : String → String) (c : Config) : Config :=
  { DefaultSlackChannel :=
      if c.DefaultSlackChannel = "" then getenv DefaultSlackChannelEnv
      else c.DefaultSlackChannel
    DefaultPagerDutyRoutingKey :=
      if c.DefaultPagerDutyRoutingKey = "" then getenv DefaultPagerDutyRoutingKeyEnv
      else c.DefaultPagerDutyRoutingKey
    ImageBucket := if c.ImageBucket = "" then getenv ImageBucketEnv else c.ImageBucket
    ImageBucketRegion :=
      if c.ImageBucketRegion = "" then getenv ImageBucketRegionEnv else c.ImageBucketRegion
    ImageBucketRoleArn :=
      if c.ImageBucketRoleArn = "" then getenv ImageBucketRoleArnEnv else c.ImageBucketRoleArn
    ImageBucketPrefix :=
      if c.ImageBucketPrefix = "" then getenv ImageBucketPrefixEnv else c.ImageBucketPrefix
    ImageHost := if c.ImageHost = "" then getenv ImageHostEnv else c.ImageHost
    ServiceNameTagKey :=
      if getenv ServiceNameTagKeyEnv = "" then DefaultServiceNameTagKey
      else getenv ServiceNameTagKeyEnv
    OwnerTagKey :=
      if getenv OwnerTagKeyEnv = "" then DefaultOwnerTagKey else getenv OwnerTagKeyEnv
    cw := c.cw }

/-- The environment of `TestGetOwner` and `TestGetServiceName`, second case. -/
def sampleGetenv (name : String) : String :=
  if name = "OWNER_TAG_KEY" then "some_owner"
  else if name = "SERVICE_NAME_TAG_KEY" then "some_service"
  else ""

/-- The sample world in which the metric has no recent datapoint: the answer
holds one result without timestamps and values. -/
def emptyDataEnv : Env :=
  { sampleEnv sampleTagList with GetMetricData := fun _ _ => Except.ok [⟨[], []⟩] }

/-- The metric query of the test event with a period of minus 153722868
minutes, for which the duration in nanoseconds leaves the range of `int64`. -/
def wrappingMetric : AlarmMetric :=
  { sampleMetric with MetricStat := { sampleMetric.MetricStat with Period := -9223372080 } }

/-- The suppressed test alarm with its tags injected and no resource. -/
def suppressedNoResource : EventDetails :=
  { injected sampleCfg (sampleEvent "OK" "ALARM" [sampleMetric]) (tagMap suppressedTagList) with
    Resources := [] }

/-! ## Package `lambda`: the object key of the chart -/

/-- The object key that `GenerateMetricsGraphAndLink` builds when the clock
reads `t` and the fresh identifier is `id`: the `Sprintf` of the format
`"/%s/%d/%d/%d/%s.png"` on the prefix, the year, the month, the day and the
identifier. -/
def objectKeyAt (env : Env) (cfg : Config) (t : Time) (id : String) : String :=
  "/" ++ cfg.ImageBucketPrefix ++ "/" ++ toString (env.Date t).1 ++ "/"
    ++ toString (env.Date t).2.1 ++ "/" ++ toString (env.Date t).2.2 ++ "/" ++ id ++ ".png"

/-- The bucket and the key of the last call of a log, when that call writes
an object. -/
def lastWrite (h : List Call) : Option (String × String) :=
  match h.getLast? with
  | some (Call.PutObject bucket key _ _) => some (bucket, key)
  | _ => none

/-! ## Package `graph`: the formatter of the X axis -/

/-- A `time.Time`: an instant, and the offset of its location in seconds east
of UTC. -/
structure ZonedTime where
  instant : Time
  offset : Int
deriving DecidableEq, Repr

/-- The method `time.Time.UTC`: the same instant, with the location UTC. -/
def ZonedTime.UTC (t : ZonedTime) : ZonedTime := { t with offset := 0 }

/-- The seconds elapsed since midnight on the clock of the location of `t`. -/
def ZonedTime.secondsOfDay (t : ZonedTime) : Int :=
  (t.instant / 1000000000 + t.offset) % 86400

/-- The method `time.Time.Hour`. -/
def ZonedTime.Hour (t : ZonedTime) : Int := t.secondsOfDay / 3600

/-- The method `time.Time.Minute`. -/
def ZonedTime.Minute (t : ZonedTime) : Int := t.secondsOfDay % 3600 / 60

/-- The method `time.Time.Second`. -/
def ZonedTime.Second (t : ZonedTime) : Int := t.secondsOfDay % 60

/-- The constant `unixToInternal` of package `time`: the seconds from the Go
zero time to the Unix epoch. -/
def unixToInternal : Int := 62135596800

/-- The function `time.Unix`: the instant `sec` seconds and `nsec` nanoseconds
after the Unix epoch, in the local location, whose offset is `loc`. -/
def Unix (loc : Int) (sec nsec : Int) : ZonedTime :=
  { instant := (sec + unixToInternal) * 1000000000 + nsec, offset := loc }

/-- An argument of static type `interface{}`, by its dynamic type: a
`time.Time`, an `int64`, a `float64`, or a value of another type. -/
inductive GoValue where
  | time (t : ZonedTime)
  | int64 (n : Int)
  | float64 (f : Float64)
  | other (typeName : String)
deriving DecidableEq, Repr

/-- The verb `%02d`: the decimal numeral, with a zero before it when it is
shorter than two characters. -/
def pad2 (n : Int) : String :=
  if (toString n).length < 2 then "0" ++ toString n else toString n

/-- The function `timeFormat`.  `toInt64` is the conversion `int64(typed)` of a
`float64`, and `loc` the offset of the local location. -/
def timeFormat (toInt64 : Float64 → Int) (loc : Int) (v : GoValue) : String :=
  let r : ZonedTime × Bool := match v with
    | GoValue.time t => (t, true)
    | _ => (⟨0, 0⟩, false)
  let r : ZonedTime × Bool := if !r.2 then
      match v with
      | GoValue.int64 typed => (Unix loc 0 typed, true)
      | _ => r
    else r
  let r : ZonedTime × Bool := if !r.2 then
      match v with
      | GoValue.float64 typed => (Unix loc 0 (toInt64 typed), true)
      | _ => r
    else r
  if r.2 then
    let t := r.1.UTC
    pad2 t.Hour ++ ":" ++ pad2 t.Minute ++ ":" ++ pad2 t.Second
  else ""

/-! ## Package `lambda`: the handler -/

/-- The part of `awsevents.SQSMessage` that `HandleRequest` reads. -/
structure SQSMessage where
  MessageId : String
  Body : String
  EventSource : String
deriving DecidableEq, Repr

/-- The loop of `HandleRequest` over the records.  `unmarshal` gives the value
that `json.Unmarshal` leaves in the fresh `EventDetails` for a body; its error
is only logged. -/
def HandleRequest.loop (env : Env) (cfg : Config) (unmarshal : String → EventDetails) :
    List SQSMessage → Run (String × Option GoError)
  | [] => pure ("", none)
  | msg :: rest => do
    let detail := unmarshal msg.Body
    let err ← ProcessSQSEvent env cfg (some detail)
    match err with
    | some e => pure ("", some e)
    | none => HandleRequest.loop env cfg unmarshal rest

/-- The function `HandleRequest`, returning the pair (string, error); `cfg` is
the package variable, a pointer that may be nil, and `records` the field
`sqsEvent.Records`. -/
def HandleRequest (env : Env) (cfg : Option Config) (unmarshal : String → EventDetails)
    (records : List SQSMessage) : Run (String × Option GoError) :=
  match cfg with
  | none => pure ("", some (Errorf "lambda Config not initialized"))
  | some cfg =>
    if records.length ≤ 0 then pure ("", some (Errorf "no events to process"))
    else HandleRequest.loop env cfg unmarshal records

/-- The log after every record of `records` has been processed from the log
`h` on, one after the other in the order of the list, each with a nil error;
`none` when some record is not processed, or not with a nil error. -/
def processedInOrder (env : Env) (cfg : Config) (unmarshal : String → EventDetails) :
    List SQSMessage → List Call → Option (List Call)
  | [], h => some h
  | msg :: rest, h =>
    match ProcessSQSEvent env cfg (some (unmarshal msg.Body)) h with
    | (Outcome.ret none, h1) => processedInOrder env cfg unmarshal rest h1
    | _ => none

/-- The bodies of the sample batch decoded: the body `"alarm"` is the test
event going to ALARM, the body `"recovery"` the test event going back to OK,
and any other body leaves the fresh event as it is. -/
def sampleUnmarshal (body : String) : EventDetails :=
  if body = "alarm" then sampleEvent "OK" "ALARM" [sampleMetric]
  else if body = "recovery" then sampleEvent "ALARM" "OK" [sampleMetric]
  else ⟨"", "", "", "", [], "", "", "", ⟨⟨"", "", "", ""⟩, ⟨"", "", "", ""⟩, ⟨[]⟩, "", []⟩, none⟩

/-- A record of the queue with the given body. -/
def sampleRecord (body : String) : SQSMessage :=
  { MessageId := "blahblahblah1234567", Body := body, EventSource := "aws:sqs" }

/-! ## Package `cw`: reading the metric lists -/

/-- A map that has exactly the three keys of `MetricList`, each once, and holds
the given slices under them. -/
def HoldsMetricLists (m : StrListMap) (names namespaces dimensions : List String) : Prop :=
  (m.map Prod.fst).Nodup ∧
    (∀ k, k ∈ m.map Prod.fst ↔
      k = MetricNamesKey ∨ k = MetricNamespacesKey ∨ k = MetricDimensionsKey) ∧
    StrListMap.index m MetricNamesKey = names ∧
    StrListMap.index m MetricNamespacesKey = namespaces ∧
    StrListMap.index m MetricDimensionsKey = dimensions

/-! ## Package `encoding/json`, at the types of the event

A Go `string` is a sequence of bytes, which need not be UTF-8.  The router
compares and joins strings, and the structs above hold them as text.  The
codec is where the bytes matter: the encoder writes the rune U+FFFD for every
byte at which no well-formed rune starts.  So the structs of package `cw` are
given here once more, with their strings as bytes, and the encoder and the
decoder of the library are instantiated at them through the field tags.  A
document is taken as a value: white space and escapes are the library's own
matter.  The model does not tell a nil slice or map from an empty one: both
are the empty list, written as `null`. -/

/-- A Go `string`: its bytes. -/
abbrev GoString := List Nat

/-- The function `utf8.EncodeRune` on a Unicode scalar value. -/
def encodeRune (c : Char) : GoString :=
  if c.toNat < 0x80 then [c.toNat]
  else if c.toNat < 0x800 then [0xC0 + c.toNat / 64, 0x80 + c.toNat % 64]
  else if c.toNat < 0x10000 then
    [0xE0 + c.toNat / 4096, 0x80 + c.toNat / 64 % 64, 0x80 + c.toNat % 64]
  else
    [0xF0 + c.toNat / 262144, 0x80 + c.toNat / 4096 % 64, 0x80 + c.toNat / 64 % 64,
      0x80 + c.toNat % 64]

/-- The Go string of a text: its UTF-8 encoding. -/
def utf8 (s : String) : GoString := (s.data.map encodeRune).flatten

/-- The function `utf8.DecodeRune`, as far as the codec looks at it: the number
of bytes of the rune that starts `p`, and 0 when no well-formed rune starts
`p`, where the function answers `RuneError` with the size 1, or with the size
0 for the empty `p`. -/
def runeLen : GoString → Nat
  | [] => 0
  | p0 :: rest =>
    if p0 < 0x80 then 1
    else if 0xC2 ≤ p0 ∧ p0 ≤ 0xDF then
      match rest with
      | b1 :: _ => if 0x80 ≤ b1 ∧ b1 ≤ 0xBF then 2 else 0
      | _ => 0
    else if 0xE0 ≤ p0 ∧ p0 ≤ 0xEF then
      match rest with
      | b1 :: b2 :: _ =>
        if (if p0 = 0xE0 then 0xA0 else 0x80) ≤ b1 ∧ b1 ≤ (if p0 = 0xED then 0x9F else 0xBF) ∧
            0x80 ≤ b2 ∧ b2 ≤ 0xBF then 3
        else 0
      | _ => 0
    else if 0xF0 ≤ p0 ∧ p0 ≤ 0xF4 then
      match rest with
      | b1 :: b2 :: b3 :: _ =>
        if (if p0 = 0xF0 then 0x90 else 0x80) ≤ b1 ∧ b1 ≤ (if p0 = 0xF4 then 0x8F else 0xBF) ∧
            0x80 ≤ b2 ∧ b2 ≤ 0xBF ∧ 0x80 ≤ b3 ∧ b3 ≤ 0xBF then 4
        else 0
      | _ => 0
    else 0

/-- The loop of `utf8.ValidString`, with `skip` bytes still to pass of the rune
under way. -/
def validFrom (skip : Nat) : GoString → Bool
  | [] => true
  | b :: rest =>
    match skip with
    | k + 1 => validFrom k rest
    | 0 =>
      match runeLen (b :: rest) with
      | 0 => false
      | n + 1 => validFrom n rest

/-- The function `utf8.ValidString`. -/
def ValidString (s : GoString) : Bool := validFrom 0 s

/-- The loop over a string in the encoder (`encodeState.string`) and in the
decoder (`unquote`): a rune is copied, and a byte at which no well-formed rune
starts becomes the rune U+FFFD, the bytes EF BF BD.  `skip` counts the bytes
still to copy of the rune under way. -/
def coerceFrom (skip : Nat) : GoString → GoString
  | [] => []
  | b :: rest =>
    match skip with
    | k + 1 => b :: coerceFrom k rest
    | 0 =>
      match runeLen (b :: rest) with
      | 0 => 0xEF :: 0xBF :: 0xBD :: coerceFrom 0 rest
      | n + 1 => b :: coerceFrom n rest

/-- The string that the encoder writes for the Go string `s`, and that the
decoder reads from a literal that spells `s`. -/
def coerceString (s : GoString) : GoString := coerceFrom 0 s

/-- A Go `map[string]string` with its strings as bytes, kept as an association
list read at its first binding of a key. -/
abbrev RawMap := List (GoString × GoString)

/-- The two-result map read `val, ok := m[k]`. -/
def RawMap.get (m : RawMap) (k : GoString) : Option GoString := List.lookup k m

/-- The map write `m[k] = v`. -/
def RawMap.set (m : RawMap) (k v : GoString) : RawMap :=
  (k, v) :: m.filter (fun p => p.1 != k)

/-- The entries of a map, one for each key, with the value read under it. -/
def RawMap.entries : RawMap → List (GoString × GoString)
  | [] => []
  | kv :: rest => kv :: (RawMap.entries rest).filter (fun p => p.1 != kv.1)

/-- The struct `cw.AlarmState`, its strings as bytes. -/
structure RawAlarmState where
  Value : GoString
  Timestamp : GoString
  ReasonData : GoString
  Reason : GoString
deriving DecidableEq, Repr

/-- The struct `cw.AlarmMetricDetail`, its strings as bytes. -/
structure RawAlarmMetricDetail where
  Namespace : GoString
  Name : GoString
  Dimensions : RawMap
deriving DecidableEq, Repr

/-- The struct `cw.AlarmMetricStat`, its strings as bytes; `Period` is an
`int64`. -/
structure RawAlarmMetricStat where
  Stat : GoString
  Period : Int
  Metric : RawAlarmMetricDetail
deriving DecidableEq, Repr

/-- The struct `cw.AlarmMetric`, its strings as bytes. -/
structure RawAlarmMetric where
  ReturnData : Bool
  ID : GoString
  MetricStat : RawAlarmMetricStat
deriving DecidableEq, Repr

/-- The struct `cw.AlarmConfiguration`, its strings as bytes. -/
structure RawAlarmConfiguration where
  Metrics : List RawAlarmMetric
deriving DecidableEq, Repr

/-- The struct `cw.AlarmEventDetail`, its strings as bytes. -/
structure RawAlarmEventDetail where
  State : RawAlarmState
  PreviousState : RawAlarmState
  Configuration : RawAlarmConfiguration
  AlarmName : GoString
  Tags : RawMap
deriving DecidableEq, Repr

/-- The struct `cw.EventDetails`, its strings as bytes; `cwClient` is a pointer
that may be nil. -/
structure RawEventDetails where
  Account : GoString
  Version : GoString
  Time : GoString
  Source : GoString
  Resources : List GoString
  Region : GoString
  ID : GoString
  DetailType : GoString
  Detail : RawAlarmEventDetail
  cwClient : Option CWClient
deriving DecidableEq, Repr

/-- A map of text as Go holds it. -/
def GoMap.raw (m : GoMap) : RawMap := m.map (fun kv => (utf8 kv.1, utf8 kv.2))

/-- An `AlarmState` of text as Go holds it. -/
def AlarmState.raw (s : AlarmState) : RawAlarmState :=
  ⟨utf8 s.Value, utf8 s.Timestamp, utf8 s.ReasonData, utf8 s.Reason⟩

/-- An `AlarmMetric` of text as Go holds it. -/
def AlarmMetric.raw (m : AlarmMetric) : RawAlarmMetric :=
  ⟨m.ReturnData, utf8 m.ID, utf8 m.MetricStat.Stat, m.MetricStat.Period,
    utf8 m.MetricStat.Metric.Namespace, utf8 m.MetricStat.Metric.Name,
    GoMap.raw m.MetricStat.Metric.Dimensions⟩

/-- An event of text as Go holds it. -/
def EventDetails.raw (e : EventDetails) : RawEventDetails :=
  { Account := utf8 e.Account, Version := utf8 e.Version, Time := utf8 e.Time,
    Source := utf8 e.Source, Resources := e.Resources.map utf8, Region := utf8 e.Region,
    ID := utf8 e.ID, DetailType := utf8 e.DetailType,
    Detail :=
      { State := e.Detail.State.raw
        PreviousState := e.Detail.PreviousState.raw
        Configuration := ⟨e.Detail.Configuration.Metrics.map AlarmMetric.raw⟩
        AlarmName := utf8 e.Detail.AlarmName
        Tags := GoMap.raw e.Detail.Tags },
    cwClient := e.cwClient }

/-- A JSON document as a value.  A number is `int` when its literal is an
integer literal, and `real` with its literal otherwise.  A string literal and
a member name are given by the bytes that they spell; the members of an object
are in the order of the text. -/
inductive Json where
  | null
  | bool (b : Bool)
  | int (n : Int)
  | real (literal : String)
  | str (s : GoString)
  | arr (items : List Json)
  | obj (members : List (GoString × Json))

/-- The folding of a member name, for the match that ignores case: the letters
of ASCII in lower case, and the two runes outside ASCII that fold to letters of
ASCII, the Kelvin sign (E2 84 AA) and the long s (C5 BF). -/
def foldName : GoString → GoString
  | [] => []
  | 0xE2 :: 0x84 :: 0xAA :: rest => 0x6B :: foldName rest
  | 0xC5 :: 0xBF :: rest => 0x73 :: foldName rest
  | b :: rest => (if 0x41 ≤ b ∧ b ≤ 0x5A then b + 32 else b) :: foldName rest

/-- The field that the decoder selects for a member name, among the fields
with the given names in the order of the struct: the field of exactly that
name, or else the first field whose name is equal to it under folding. -/
def fieldFor (names : List String) (key : GoString) : Option String :=
  match names.find? (fun n => utf8 n == key) with
  | some n => some n
  | none => names.find? (fun n => foldName (utf8 n) == foldName key)

/-- The zero value of `cw.AlarmState`. -/
def RawAlarmState.zero : RawAlarmState := ⟨[], [], [], []⟩

/-- The zero value of `cw.AlarmMetricDetail`. -/
def RawAlarmMetricDetail.zero : RawAlarmMetricDetail := ⟨[], [], []⟩

/-- The zero value of `cw.AlarmMetricStat`. -/
def RawAlarmMetricStat.zero : RawAlarmMetricStat := ⟨[], 0, RawAlarmMetricDetail.zero⟩

/-- The zero value of `cw.AlarmMetric`. -/
def RawAlarmMetric.zero : RawAlarmMetric := ⟨false, [], RawAlarmMetricStat.zero⟩

/-- The zero value of `cw.AlarmEventDetail`. -/
def RawAlarmEventDetail.zero : RawAlarmEventDetail :=
  ⟨RawAlarmState.zero, RawAlarmState.zero, ⟨[]⟩, [], []⟩

/-- The zero value of `cw.EventDetails`, as in `&cw.EventDetails{}`. -/
def RawEventDetails.zero : RawEventDetails :=
  ⟨[], [], [], [], [], [], [], [], RawAlarmEventDetail.zero, none⟩

/-- The encoding of a `string`: a literal that spells the string, with the
rune U+FFFD for every byte at which no well-formed rune starts. -/
def MarshalString (s : GoString) : Json := Json.str (coerceString s)

/-- The encoding of a `map[string]string`: `null` for the nil map, and else an
object with one member for each key, sorted by key; the keys are written as
strings are. -/
def MarshalMap (m : RawMap) : Json :=
  match m with
  | [] => Json.null
  | _ => Json.obj ((List.insertionSort (fun a b : GoString × GoString => a.1 ≤ b.1)
      (RawMap.entries m)).map (fun kv => (coerceString kv.1, MarshalString kv.2)))

/-- The encoding of a `[]string`. -/
def MarshalStrings (xs : List GoString) : Json :=
  match xs with
  | [] => Json.null
  | _ => Json.arr (xs.map MarshalString)

/-- The encoding of a `cw.AlarmState`. -/
def MarshalAlarmState (s : RawAlarmState) : Json :=
  Json.obj [(utf8 "value", MarshalString s.Value), (utf8 "timestamp", MarshalString s.Timestamp),
    (utf8 "reasonData", MarshalString s.ReasonData), (utf8 "reason", MarshalString s.Reason)]

/-- The encoding of a `cw.AlarmMetricDetail`. -/
def MarshalAlarmMetricDetail (m : RawAlarmMetricDetail) : Json :=
  Json.obj [(utf8 "namespace", MarshalString m.Namespace), (utf8 "name", MarshalString m.Name),
    (utf8 "dimensions", MarshalMap m.Dimensions)]

/-- The encoding of a `cw.AlarmMetricStat`. -/
def MarshalAlarmMetricStat (m : RawAlarmMetricStat) : Json :=
  Json.obj [(utf8 "stat", MarshalString m.Stat), (utf8 "period", Json.int m.Period),
    (utf8 "metric", MarshalAlarmMetricDetail m.Metric)]

/-- The encoding of a `cw.AlarmMetric`. -/
def MarshalAlarmMetric (m : RawAlarmMetric) : Json :=
  Json.obj [(utf8 "returnData", Json.bool m.ReturnData), (utf8 "id", MarshalString m.ID),
    (utf8 "metricStat", MarshalAlarmMetricStat m.MetricStat)]

/-- The encoding of a `cw.AlarmConfiguration`. -/
def MarshalAlarmConfiguration (c : RawAlarmConfiguration) : Json :=
  Json.obj [(utf8 "metrics", match c.Metrics with
    | [] => Json.null
    | ms => Json.arr (ms.map MarshalAlarmMetric))]

/-- The encoding of a `cw.AlarmEventDetail`. -/
def MarshalAlarmEventDetail (d : RawAlarmEventDetail) : Json :=
  Json.obj [(utf8 "state", MarshalAlarmState d.State),
    (utf8 "previousState", MarshalAlarmState d.PreviousState),
    (utf8 "configuration", MarshalAlarmConfiguration d.Configuration),
    (utf8 "alarmName", MarshalString d.AlarmName), (utf8 "tags", MarshalMap d.Tags)]

/-- The encoding of a `cw.EventDetails`, the value of `json.Marshal`: the
exported fields under their tags, in the order of the struct; the field
`cwClient` is not exported and is left out. -/
def MarshalEventDetails (e : RawEventDetails) : Json :=
  Json.obj [(utf8 "account", MarshalString e.Account), (utf8 "version", MarshalString e.Version),
    (utf8 "time", MarshalString e.Time), (utf8 "source", MarshalString e.Source),
    (utf8 "resources", MarshalStrings e.Resources), (utf8 "region", MarshalString e.Region),
    (utf8 "id", MarshalString e.ID), (utf8 "detail-type", MarshalString e.DetailType),
    (utf8 "detail", MarshalAlarmEventDetail e.Detail)]

/-- Decoding into a `string`: the string that the literal spells, read as the
decoder reads it; `null` and a value of another kind leave the target as it
was. -/
def UnmarshalString (j : Json) (old : GoString) : GoString :=
  match j with
  | Json.str s => coerceString s
  | _ => old

/-- Decoding into a `bool`. -/
def UnmarshalBool (j : Json) (old : Bool) : Bool :=
  match j with
  | Json.bool b => b
  | _ => old

/-- Decoding into an `int64`: an integer literal within the range. -/
def UnmarshalInt64 (j : Json) (old : Int) : Int :=
  match j with
  | Json.int n => if -9223372036854775808 ≤ n ∧ n ≤ 9223372036854775807 then n else old
  | _ => old

/-- Decoding the items of an array into the elements of a slice, one by one:
into the element that is there, and into a zero value past the old length. -/
def UnmarshalElements {α : Type} (elem : Json → α → α) (zero : α) :
    List Json → List α → List α
  | [], _ => []
  | x :: xs, old => elem x (old.headD zero) :: UnmarshalElements elem zero xs old.tail

/-- Decoding into a `[]string`: `null` gives the nil slice, an array its
items, a value of another kind leaves the slice as it was. -/
def UnmarshalStrings (j : Json) (old : List GoString) : List GoString :=
  match j with
  | Json.null => []
  | Json.arr items => UnmarshalElements UnmarshalString [] items old
  | _ => old

/-- Decoding into a `map[string]string`: `null` gives the nil map; an object
writes each member into the map, in order, a member that is not a string as
the empty string. -/
def UnmarshalMap (j : Json) (old : RawMap) : RawMap :=
  match j with
  | Json.null => []
  | Json.obj members =>
    members.foldl (fun m kv => RawMap.set m (coerceString kv.1) (UnmarshalString kv.2 [])) old
  | _ => old

/-- The decoding of one member of an object into a `cw.AlarmState`: into the
field that `fieldFor` selects; a member without field is skipped. -/
def UnmarshalAlarmState.member (s : RawAlarmState) (kv : GoString × Json) : RawAlarmState :=
  match fieldFor ["value", "timestamp", "reasonData", "reason"] (coerceString kv.1) with
  | some "value" => { s with Value := UnmarshalString kv.2 s.Value }
  | some "timestamp" => { s with Timestamp := UnmarshalString kv.2 s.Timestamp }
  | some "reasonData" => { s with ReasonData := UnmarshalString kv.2 s.ReasonData }
  | some "reason" => { s with Reason := UnmarshalString kv.2 s.Reason }
  | _ => s

/-- Decoding into a `cw.AlarmState`: the members of an object in order; a
value of another kind leaves the struct as it was. -/
def UnmarshalAlarmState (j : Json) (old : RawAlarmState) : RawAlarmState :=
  match j with
  | Json.obj members => members.foldl UnmarshalAlarmState.member old
  | _ => old

/-- The decoding of one member of an object into a `cw.AlarmMetricDetail`. -/
def UnmarshalAlarmMetricDetail.member (m : RawAlarmMetricDetail) (kv : GoString × Json) :
    RawAlarmMetricDetail :=
  match fieldFor ["namespace", "name", "dimensions"] (coerceString kv.1) with
  | some "namespace" => { m with Namespace := UnmarshalString kv.2 m.Namespace }
  | some "name" => { m with Name := UnmarshalString kv.2 m.Name }
  | some "dimensions" => { m with Dimensions := UnmarshalMap kv.2 m.Dimensions }
  | _ => m

/-- Decoding into a `cw.AlarmMetricDetail`. -/
def UnmarshalAlarmMetricDetail (j : Json) (old : RawAlarmMetricDetail) :
    RawAlarmMetricDetail :=
  match j with
  | Json.obj members => members.foldl UnmarshalAlarmMetricDetail.member old
  | _ => old

/-- The decoding of one member of an object into a `cw.AlarmMetricStat`. -/
def UnmarshalAlarmMetricStat.member (m : RawAlarmMetricStat) (kv : GoString × Json) :
    RawAlarmMetricStat :=
  match fieldFor ["stat", "period", "metric"] (coerceString kv.1) with
  | some "stat" => { m with Stat := UnmarshalString kv.2 m.Stat }
  | some "period" => { m with Period := UnmarshalInt64 kv.2 m.Period }
  | some "metric" => { m with Metric := UnmarshalAlarmMetricDetail kv.2 m.Metric }
  | _ => m

/-- Decoding into a `cw.AlarmMetricStat`. -/
def UnmarshalAlarmMetricStat (j : Json) (old : RawAlarmMetricStat) : RawAlarmMetricStat :=
  match j with
  | Json.obj members => members.foldl UnmarshalAlarmMetricStat.member old
  | _ => old

/-- The decoding of one member of an object into a `cw.AlarmMetric`. -/
def UnmarshalAlarmMetric.member (m : RawAlarmMetric) (kv : GoString × Json) : RawAlarmMetric :=
  match fieldFor ["returnData", "id", "metricStat"] (coerceString kv.1) with
  | some "returnData" => { m with ReturnData := UnmarshalBool kv.2 m.ReturnData }
  | some "id" => { m with ID := UnmarshalString kv.2 m.ID }
  | some "metricStat" => { m with MetricStat := UnmarshalAlarmMetricStat kv.2 m.MetricStat }
  | _ => m

/-- Decoding into a `cw.AlarmMetric`. -/
def UnmarshalAlarmMetric (j : Json) (old : RawAlarmMetric) : RawAlarmMetric :=
  match j with
  | Json.obj members => members.foldl UnmarshalAlarmMetric.member old
  | _ => old

/-- Decoding into a `[]cw.AlarmMetric`. -/
def UnmarshalMetrics (j : Json) (old : List RawAlarmMetric) : List RawAlarmMetric :=
  match j with
  | Json.null => []
  | Json.arr items => UnmarshalElements UnmarshalAlarmMetric RawAlarmMetric.zero items old
  | _ => old

/-- The decoding of one member of an object into a `cw.AlarmConfiguration`. -/
def UnmarshalAlarmConfiguration.member (c : RawAlarmConfiguration) (kv : GoString × Json) :
    RawAlarmConfiguration :=
  match fieldFor ["metrics"] (coerceString kv.1) with
  | some "metrics" => { c with Metrics := UnmarshalMetrics kv.2 c.Metrics }
  | _ => c

/-- Decoding into a `cw.AlarmConfiguration`. -/
def UnmarshalAlarmConfiguration (j : Json) (old : RawAlarmConfiguration) :
    RawAlarmConfiguration :=
  match j with
  | Json.obj members => members.foldl UnmarshalAlarmConfiguration.member old
  | _ => old

/-- The decoding of one member of an object into a `cw.AlarmEventDetail`. -/
def UnmarshalAlarmEventDetail.member (d : RawAlarmEventDetail) (kv : GoString × Json) :
    RawAlarmEventDetail :=
  match fieldFor ["state", "previousState", "configuration", "alarmName", "tags"]
      (coerceString kv.1) with
  | some "state" => { d with State := UnmarshalAlarmState kv.2 d.State }
  | some "previousState" =>
    { d with PreviousState := UnmarshalAlarmState kv.2 d.PreviousState }
  | some "configuration" =>
    { d with Configuration := UnmarshalAlarmConfiguration kv.2 d.Configuration }
  | some "alarmName" => { d with AlarmName := UnmarshalString kv.2 d.AlarmName }
  | some "tags" => { d with Tags := UnmarshalMap kv.2 d.Tags }
  | _ => d

/-- Decoding into a `cw.AlarmEventDetail`. -/
def UnmarshalAlarmEventDetail (j : Json) (old : RawAlarmEventDetail) : RawAlarmEventDetail :=
  match j with
  | Json.obj members => members.foldl UnmarshalAlarmEventDetail.member old
  | _ => old

/-- The decoding of one member of an object into a `cw.EventDetails`.  The
field `cwClient` is not exported: no member reaches it. -/
def UnmarshalEventDetails.member (e : RawEventDetails) (kv : GoString × Json) :
    RawEventDetails :=
  match fieldFor ["account", "version", "time", "source", "resources", "region", "id",
      "detail-type", "detail"] (coerceString kv.1) with
  | some "account" => { e with Account := UnmarshalString kv.2 e.Account }
  | some "version" => { e with Version := UnmarshalString kv.2 e.Version }
  | some "time" => { e with Time := UnmarshalString kv.2 e.Time }
  | some "source" => { e with Source := UnmarshalString kv.2 e.Source }
  | some "resources" => { e with Resources := UnmarshalStrings kv.2 e.Resources }
  | some "region" => { e with Region := UnmarshalString kv.2 e.Region }
  | some "id" => { e with ID := UnmarshalString kv.2 e.ID }
  | some "detail-type" => { e with DetailType := UnmarshalString kv.2 e.DetailType }
  | some "detail" => { e with Detail := UnmarshalAlarmEventDetail kv.2 e.Detail }
  | _ => e

/-- Decoding into a `cw.EventDetails`, the value that `json.Unmarshal` leaves
in its target. -/
def UnmarshalEventDetails (j : Json) (old : RawEventDetails) : RawEventDetails :=
  match j with
  | Json.obj members => members.foldl UnmarshalEventDetails.member old
  | _ => old

/-- Two maps with the same value, or none, under every key. -/
def RawMap.same (a b : RawMap) : Prop := ∀ k, RawMap.get a k = RawMap.get b k

/-- Two metric queries equal field for field, the dimensions as maps. -/
def RawAlarmMetric.same (a b : RawAlarmMetric) : Prop :=
  a.ReturnData = b.ReturnData ∧ a.ID = b.ID ∧ a.MetricStat.Stat = b.MetricStat.Stat ∧
    a.MetricStat.Period = b.MetricStat.Period ∧
    a.MetricStat.Metric.Namespace = b.MetricStat.Metric.Namespace ∧
    a.MetricStat.Metric.Name = b.MetricStat.Metric.Name ∧
    RawMap.same a.MetricStat.Metric.Dimensions b.MetricStat.Metric.Dimensions

/-- A map whose keys and values are valid UTF-8. -/
def RawMap.validUTF8 (m : RawMap) : Bool :=
  m.all (fun kv => ValidString kv.1 && ValidString kv.2)

/-- A state whose strings are valid UTF-8. -/
def RawAlarmState.validUTF8 (s : RawAlarmState) : Bool :=
  ValidString s.Value && ValidString s.Timestamp && ValidString s.ReasonData &&
    ValidString s.Reason

/-- A metric query whose strings are valid UTF-8, the keys and values of its
dimensions among them. -/
def RawAlarmMetric.validUTF8 (m : RawAlarmMetric) : Bool :=
  ValidString m.ID && ValidString m.MetricStat.Stat &&
    ValidString m.MetricStat.Metric.Namespace && ValidString m.MetricStat.Metric.Name &&
    RawMap.validUTF8 m.MetricStat.Metric.Dimensions

/-- An event whose strings are valid UTF-8, those of the tags apart: the
string fields, the resources, and the strings of the states and of the metric
queries. -/
def RawEventDetails.validUTF8 (e : RawEventDetails) : Bool :=
  ValidString e.Account && ValidString e.Version && ValidString e.Time &&
    ValidString e.Source && e.Resources.all ValidString && ValidString e.Region &&
    ValidString e.ID && ValidString e.DetailType && ValidString e.Detail.AlarmName &&
    e.Detail.State.validUTF8 && e.Detail.PreviousState.validUTF8 &&
    e.Detail.Configuration.Metrics.all RawAlarmMetric.validUTF8

/-- The test event as a document, with the members in the order of
`TestEventJSON`: no member `tags`, and the alarm description that the events
from the queue carry, for which the struct has no field. -/
def sampleEventJSON : Json :=
  Json.obj [(utf8 "version", Json.str (utf8 "0")),
    (utf8 "time", Json.str (utf8 "2020-07-31T06:56:05Z")),
    (utf8 "source", Json.str (utf8 "aws.cloudwatch")),
    (utf8 "resources", Json.arr [Json.str (utf8 sampleARN)]),
    (utf8 "region", Json.str (utf8 "us-east-1")),
    (utf8 "id", Json.str (utf8 "1ebd31a7-11e5-b52a-03e4-be4110b0f1e0")),
    (utf8 "detail-type", Json.str (utf8 "CloudWatch Alarm State Change")),
    (utf8 "detail", Json.obj [
      (utf8 "state", Json.obj [(utf8 "value", Json.str (utf8 "OK")),
        (utf8 "timestamp", Json.str (utf8 "2020-07-31T06:56:05.606+0000")),
        (utf8 "reasonData", Json.str (utf8 "")),
        (utf8 "reason", Json.str (utf8 "Threshold Crossed"))]),
      (utf8 "previousState", Json.obj [(utf8 "value", Json.str (utf8 "INSUFFICIENT_DATA")),
        (utf8 "timestamp", Json.str (utf8 "2020-07-31T06:52:05.601+0000")),
        (utf8 "reasonData", Json.str (utf8 "")),
        (utf8 "reason", Json.str (utf8 "Insufficient Data"))]),
      (utf8 "configuration", Json.obj [
        (utf8 "description", Json.str (utf8 "High CPU Utilization")),
        (utf8 "metrics", Json.arr [Json.obj [(utf8 "returnData", Json.bool true),
          (utf8 "metricStat", Json.obj [(utf8 "stat", Json.str (utf8 "Average")),
            (utf8 "period", Json.int 60),
            (utf8 "metric", Json.obj [(utf8 "namespace", Json.str (utf8 "AWS/EC2")),
              (utf8 "name", Json.str (utf8 "CPUUtilization")),
              (utf8 "dimensions", Json.obj [
                (utf8 "AutoScalingGroupName", Json.str (utf8 "test-service"))])])]),
          (utf8 "id", Json.str (utf8 "beb9cf5d-585d-3d43-179b-1e0898d8e237"))]])]),
      (utf8 "alarmName", Json.str (utf8 "test-service-alarm-abcd"))]),
    (utf8 "account", Json.str (utf8 "1234567890123"))]

/-- The test event, as Go holds it, with an account that is the one byte FF:
not UTF-8. -/
def sampleInvalidEvent : RawEventDetails :=
  { (sampleEvent "OK" "ALARM" [sampleMetric]).raw with Account := [0xFF] }

/-! ## Lemmas on sequencing and on the call log -/

@[simp] theorem Run.pure_apply {α : Type} (a : α) (h : List Call) :
    (pure a : Run α) h = (Outcome.ret a, h) := rfl

@[simp] theorem Run.bind_apply {α β : Type} (m : Run α) (f : α → Run β) (h : List Call) :
    (m >>= f) h = Run.bind m f h := rfl

theorem Run.bind_ret {α β : Type} {m : Run α} {f : α → Run β} {h h1 : List Call} {a : α}
    (hm : m h = (Outcome.ret a, h1)) : Run.bind m f h = f a h1 := by
  simp [Run.bind, hm]

theorem quiet_pure {α : Type} (p : Call → Bool) (a : α) : Quiet p (pure a : Run α) := fun _ => rfl

theorem quiet_goPanic {α : Type} (p : Call → Bool) (s : String) : Quiet p (goPanic s : Run α) :=
  fun _ => rfl

theorem quiet_logFatalf {α : Type} (p : Call → Bool) (s : String) :
    Quiet p (logFatalf s : Run α) := fun _ => rfl

theorem quiet_bind {α β : Type} {p : Call → Bool} {m : Run α} {f : α → Run β}
    (hm : Quiet p m) (hf : ∀ a, Quiet p (f a)) : Quiet p (m >>= f) := by
  intro h
  have h1 := hm h
  simp only [Run.bind_apply, Run.bind]
  rcases hmh : m h with ⟨o, h'⟩
  rw [hmh] at h1
  cases o with
  | ret a => simpa [h1] using hf a h'
  | panic s => simpa using h1
  | exit s => simpa using h1

theorem quiet_perform {α : Type} {p : Call → Bool} (c : Call) (answer : List Call → α)
    (hc : p c = false) : Quiet p (perform c answer) := by
  intro h
  simp [perform, List.filter_append, hc]

theorem quiet_GetMetricDataRequestForHrs (p : Call → Bool) (env : Env) (d : EventDetails)
    (hrs : List Int) (hnow : p Call.Now = false) (hget : ∀ i, p (Call.GetMetricData i) = false) :
    Quiet p (GetMetricDataRequestForHrs env d hrs) := by
  unfold GetMetricDataRequestForHrs
  split
  · exact quiet_pure _ _
  · refine quiet_bind (quiet_perform _ _ hnow) (fun t => ?_)
    split
    · exact quiet_goPanic _ _
    · refine quiet_bind (quiet_perform _ _ (hget _)) (fun r => ?_)
      split
      · exact quiet_pure _ _
      · split <;> exact quiet_pure _ _

theorem OnlyDispatch.off {p : Call → Bool} (hp : OnlyDispatch p) {c : Call}
    (hc : (c.isChat || c.isPage) = false) : p c = false := by
  cases hpc : p c with
  | false => rfl
  | true => rw [hp c hpc] at hc; cases hc

theorem quiet_GetMetricData {p : Call → Bool} (hp : OnlyDispatch p) (env : Env) (d : EventDetails)
    (hrs : List Int) : Quiet p (GetMetricDataRequestForHrs env d hrs) :=
  quiet_GetMetricDataRequestForHrs p env d hrs (hp.off rfl) (fun _ => hp.off rfl)

theorem quiet_InjectTags {p : Call → Bool} (hp : OnlyDispatch p) (env : Env) (d : EventDetails) :
    Quiet p (InjectTags env d) := by
  unfold InjectTags
  split
  · exact quiet_pure _ _
  · split
    · exact quiet_pure _ _
    · refine quiet_bind ?_ (fun r => ?_)
      · unfold GetAlarmTags
        refine quiet_bind (quiet_perform _ _ (hp.off rfl)) (fun r => ?_)
        split <;> exact quiet_pure _ _
      · split <;> exact quiet_pure _ _

theorem quiet_GetPagerDutyRoutingKey {p : Call → Bool} (hp : OnlyDispatch p) (env : Env)
    (cfg : Config) (s : String) : Quiet p (GetPagerDutyRoutingKey env cfg s) := by
  unfold GetPagerDutyRoutingKey
  split
  · exact quiet_pure _ _
  · refine quiet_bind ?_ (fun r => ?_)
    · unfold GetParameterValue
      refine quiet_bind (quiet_perform _ _ (hp.off rfl)) (fun r => ?_)
      split <;> exact quiet_pure _ _
    · split
      · split
        · split
          · exact quiet_pure _ _
          · exact quiet_logFatalf _ _
        · exact quiet_logFatalf _ _
      · split <;> exact quiet_pure _ _

theorem quiet_GenerateMetricsGraphAndLink {p : Call → Bool} (hp : OnlyDispatch p) (env : Env)
    (d : EventDetails) (cfg : Config) : Quiet p (GenerateMetricsGraphAndLink env d cfg) := by
  unfold GenerateMetricsGraphAndLink
  refine quiet_bind (quiet_GetMetricData hp env d []) (fun r => ?_)
  split
  · exact quiet_pure _ _
  · refine quiet_bind ?_ (fun g => ?_)
    · unfold CreateFromCWMetricDataResult
      dsimp only
      split
      · exact quiet_goPanic _ _
      · split <;> exact quiet_pure _ _
    · split
      · exact quiet_pure _ _
      · refine quiet_bind (quiet_perform _ _ (hp.off rfl)) (fun t => ?_)
        refine quiet_bind (quiet_perform _ _ (hp.off rfl)) (fun u => ?_)
        refine quiet_bind ?_ (fun e => ?_)
        · unfold WriteBytes
          refine quiet_bind (quiet_perform _ _ (hp.off rfl)) (fun r => ?_)
          split <;> exact quiet_pure _ _
        · split <;> exact quiet_pure _ _

theorem quiet_CWAlarmSummary {p : Call → Bool} (hp : OnlyDispatch p) (env : Env)
    (d : EventDetails) : Quiet p (CWAlarmSummary env d) := by
  unfold CWAlarmSummary
  dsimp only
  refine quiet_bind (quiet_GetMetricData hp env d []) (fun r => ?_)
  refine quiet_bind ?_ (fun t => quiet_pure _ _)
  split
  · exact quiet_pure _ _
  · split
    · exact quiet_pure _ _
    · exact quiet_goPanic _ _


theorem Quiet.at {α : Type} {p : Call → Bool} {m : Run α} (hq : Quiet p m) {h h1 : List Call}
    {o : Outcome α} (hm : m h = (o, h1)) : h1.filter p = h.filter p := by
  have := hq h
  rw [hm] at this
  exact this

theorem onlyDispatch_dispatch : OnlyDispatch (fun c => c.isChat || c.isPage) := fun _ h => h

theorem onlyDispatch_chat : OnlyDispatch Call.isChat := fun c h => by simp [h]

theorem onlyDispatch_page : OnlyDispatch Call.isPage := fun c h => by simp [h]

/-! ## Lemmas on maps, tags and the single resource -/

theorem GoMap.index_ne_true {m : GoMap} {k : String} (h : GoMap.get m k ≠ some "true") :
    GoMap.index m k ≠ "true" := by
  unfold GoMap.get at h
  unfold GoMap.index
  cases hl : List.lookup k m with
  | none => simp
  | some v =>
    rw [hl] at h
    simpa using h

theorem GoMap.index_eq_of_get {m : GoMap} {k v : String} (h : GoMap.get m k = some v) :
    GoMap.index m k = v := by
  unfold GoMap.get at h
  simp [GoMap.index, h]

theorem AlarmARN_single {d : EventDetails} {arn : String} (h : d.Resources = [arn]) :
    AlarmARN d = (arn, none) := by
  simp [AlarmARN, h]

theorem AlarmARN_bad {d : EventDetails} (h : d.Resources.length ≠ 1) :
    AlarmARN d = ("", some (Errorf
      ("resources in the cloudwatch alarm details must be exactly 1 (we got "
        ++ toString d.Resources.length ++ ")"))) := by
  unfold AlarmARN
  split
  · rename_i r hr
    simp [hr] at h
  · rfl

theorem injected_Tags (cfg : Config) (d : EventDetails) (tags : AlarmTags) :
    (injected cfg d tags).Detail.Tags = tags := rfl

theorem InjectTags_ok (env : Env) (cfg : Config) (d : EventDetails) (h0 : List Call)
    (arn : String) (tagList : List (String × String))
    (hres : d.Resources = [arn]) (hcw : cfg.cw ≠ none)
    (hfetch : env.ListTagsForResource h0 arn = Except.ok tagList) :
    InjectTags env (SetCWClient d cfg.cw) h0 =
      (Outcome.ret (injected cfg d (tagMap tagList), none),
        h0 ++ [Call.ListTagsForResource arn]) := by
  cases hc : cfg.cw with
  | none => exact absurd hc hcw
  | some c =>
    have harn : AlarmARN { d with cwClient := some c } = (arn, none) := AlarmARN_single hres
    simp [InjectTags, SetCWClient, hc, harn, GetAlarmTags, perform, Run.bind, hfetch, injected]

theorem ProcessSQSEvent_of_injected (env : Env) (cfg : Config) (d : EventDetails)
    (h0 : List Call) (arn : String) (tagList : List (String × String))
    (hres : d.Resources = [arn]) (hcw : cfg.cw ≠ none)
    (hfetch : env.ListTagsForResource h0 arn = Except.ok tagList) :
    ProcessSQSEvent env cfg (some d) h0 =
      ProcessSQSEvent.route env cfg (injected cfg d (tagMap tagList))
        (h0 ++ [Call.ListTagsForResource arn]) := by
  unfold ProcessSQSEvent
  simp only [Run.bind_apply]
  rw [Run.bind_ret (InjectTags_ok env cfg d h0 arn tagList hres hcw hfetch)]

/-! ## Lemmas on the dispatch -/

theorem EventAction_index_ne {d : EventDetails} (h : EventAction d ≠ "") :
    GoMap.index d.Detail.Tags "alerts:suppress_pagerduty" ≠ "true" := by
  intro hi
  apply h
  simp [EventAction, hi]

theorem SubmitEvent_of_action (env : Env) (key arn : String) (d : EventDetails) (h : List Call)
    (hres : d.Resources = [arn]) (hact : EventAction d ≠ "") :
    SubmitEvent env key d h =
      (Outcome.ret (env.ManageEvent h (SubmitEvent.event key d arn (EventAction d))),
        h ++ [Call.ManageEvent (SubmitEvent.event key d arn (EventAction d))]) := by
  unfold SubmitEvent
  rw [AlarmARN_single hres]
  simp only [hact, EventAction_index_ne hact, if_false]
  rfl

theorem quiet_SubmitEvent_ignore (p : Call → Bool) (env : Env) (key : String) (d : EventDetails)
    (hact : EventAction d = "") : Quiet p (SubmitEvent env key d) := by
  unfold SubmitEvent
  split
  · exact quiet_pure _ _
  · simp only [hact, if_true]
    exact quiet_pure _ _

theorem sendForAction_ignore (env : Env) (ch : String) (d : EventDetails) (img : String) :
    sendForAction env "" ch d img = pure ("", "", none) := by
  simp [sendForAction]

theorem sendForAction_kind (env : Env) (ch img pfx : String) (d : EventDetails)
    (hkind : (EventAction d = "trigger" ∧ pfx = ":red_alert_parrot: (triggered)") ∨
      (EventAction d = "resolve" ∧ pfx = ":white_check_mark: (resolved)")) :
    sendForAction env (EventAction d) ch d img =
      (CWAlarmSummary env d >>= fun info =>
        SendMessage env ch (messageBlocks (CWAlarmHeaderBlock d pfx) info (CWAlarmLink d) img)) := by
  rcases hkind with ⟨ha, hp⟩ | ⟨ha, hp⟩
  · rw [ha, hp]
    simp only [sendForAction, show ("trigger" : String) = "resolve" ↔ False by decide, if_false,
      if_true]
    rfl
  · rw [ha, hp]
    simp only [sendForAction, if_true]
    rfl

theorem EventAction_ne_of_kind {d : EventDetails} {pfx : String}
    (hkind : (EventAction d = "trigger" ∧ pfx = ":red_alert_parrot: (triggered)") ∨
      (EventAction d = "resolve" ∧ pfx = ":white_check_mark: (resolved)")) :
    EventAction d ≠ "" := by
  rcases hkind with ⟨ha, _⟩ | ⟨ha, _⟩ <;> rw [ha] <;> decide

theorem quiet_dispatch_ignore {p : Call → Bool} (hp : OnlyDispatch p) (env : Env) (cfg : Config)
    (d : EventDetails) (key ch : String) (hact : EventAction d = "") :
    Quiet p (ProcessSQSEvent.dispatch env cfg d key ch) := by
  unfold ProcessSQSEvent.dispatch
  refine quiet_bind (quiet_GenerateMetricsGraphAndLink hp env d cfg) (fun g => ?_)
  rw [hact]
  dsimp only
  rw [sendForAction_ignore]
  refine quiet_bind (quiet_pure _ _) (fun sent => ?_)
  split
  · exact quiet_pure _ _
  · exact quiet_SubmitEvent_ignore _ env key d hact

theorem quiet_route_ignore {p : Call → Bool} (hp : OnlyDispatch p) (env : Env) (cfg : Config)
    (d : EventDetails) (hact : EventAction d = "") : Quiet p (ProcessSQSEvent.route env cfg d) := by
  unfold ProcessSQSEvent.route
  refine quiet_bind (quiet_GetPagerDutyRoutingKey hp env cfg _) (fun key => ?_)
  split
  · exact quiet_pure _ _
  · exact quiet_dispatch_ignore hp env cfg d key _ hact

/-- Once the tags are fetched, the routing key is resolved, the evidence step
and the summary block return, the rest of `ProcessSQSEvent` is the chat message
followed, when the chat service accepts it, by the page. -/
theorem ProcessSQSEvent_to_chat (env : Env) (cfg : Config) (d : EventDetails)
    (h0 h2 h3 h4 : List Call) (arn key pfx : String)
    (tagList : List (String × String)) (g : String × Option GoError) (info : Block)
    (hres : d.Resources = [arn]) (hcw : cfg.cw ≠ none)
    (hfetch : env.ListTagsForResource h0 arn = Except.ok tagList)
    (hkey : GetPagerDutyRoutingKey env cfg (GetServiceNameFromTags cfg (tagMap tagList))
      (h0 ++ [Call.ListTagsForResource arn]) = (Outcome.ret key, h2))
    (hne : key ≠ "")
    (hkind : (EventAction (injected cfg d (tagMap tagList)) = "trigger" ∧
        pfx = ":red_alert_parrot: (triggered)") ∨
      (EventAction (injected cfg d (tagMap tagList)) = "resolve" ∧
        pfx = ":white_check_mark: (resolved)"))
    (hev : GenerateMetricsGraphAndLink env (injected cfg d (tagMap tagList)) cfg h2 =
      (Outcome.ret g, h3))
    (hsum : CWAlarmSummary env (injected cfg d (tagMap tagList)) h3 = (Outcome.ret info, h4)) :
    ProcessSQSEvent env cfg (some d) h0 =
      Run.bind
        (SendMessage env (GetSlackChannel env cfg (tagMap tagList))
          (messageBlocks (CWAlarmHeaderBlock (injected cfg d (tagMap tagList)) pfx) info
            (CWAlarmLink (injected cfg d (tagMap tagList))) (if g.2 ≠ none then "" else g.1)))
        (fun sent =>
          match sent with
          | (_, _, some slackError) => pure (some slackError)
          | (_, _, none) => SubmitEvent env key (injected cfg d (tagMap tagList)))
        h4 := by
  rw [ProcessSQSEvent_of_injected env cfg d h0 arn tagList hres hcw hfetch]
  unfold ProcessSQSEvent.route
  simp only [Run.bind_apply, injected_Tags]
  rw [Run.bind_ret hkey]
  simp only [hne, if_false]
  unfold ProcessSQSEvent.dispatch
  simp only [Run.bind_apply]
  rw [Run.bind_ret hev, sendForAction_kind env _ _ pfx _ hkind]
  simp only [Run.bind_apply, Run.bind, hsum]

/-- The calls up to the chat message hold no chat message and no page. -/
theorem quiet_to_chat {p : Call → Bool} (hp : OnlyDispatch p) (env : Env) (cfg : Config)
    (d1 : EventDetails) (h1 h2 h3 h4 : List Call) (s key : String)
    (g : String × Option GoError) (info : Block)
    (hkey : GetPagerDutyRoutingKey env cfg s h1 = (Outcome.ret key, h2))
    (hev : GenerateMetricsGraphAndLink env d1 cfg h2 = (Outcome.ret g, h3))
    (hsum : CWAlarmSummary env d1 h3 = (Outcome.ret info, h4)) :
    h4.filter p = h1.filter p := by
  rw [(quiet_CWAlarmSummary hp env d1).at hsum,
    (quiet_GenerateMetricsGraphAndLink hp env d1 cfg).at hev,
    (quiet_GetPagerDutyRoutingKey hp env cfg s).at hkey]

/-! ## The transition classifier (C1, C2) -/

/-- C1: for every event whose tag `alerts:suppress_pagerduty` is absent or
differs from `"true"`, `EventAction` is `"trigger"` when the current state is
`"ALARM"` (whatever the previous state), `"resolve"` when the current state is
`"OK"` and the previous state is `"ALARM"`, and the empty action `""` for every
other pair of state strings. -/
theorem EventAction_not_suppressed (d : EventDetails)
    (hsup : GoMap.get d.Detail.Tags "alerts:suppress_pagerduty" ≠ some "true") :
    (d.Detail.State.Value = "ALARM" → EventAction d = "trigger") ∧
    (d.Detail.State.Value = "OK" → d.Detail.PreviousState.Value = "ALARM" →
      EventAction d = "resolve") ∧
    (d.Detail.State.Value ≠ "ALARM" →
      ¬ (d.Detail.State.Value = "OK" ∧ d.Detail.PreviousState.Value = "ALARM") →
      EventAction d = "") := by
  have hne := GoMap.index_ne_true hsup
  refine ⟨fun hc => ?_, fun hc hp => ?_, fun hc hn => ?_⟩
  · simp [EventAction, hne, hc]
  · simp [EventAction, hne, hc, hp]
  · by_cases hok : d.Detail.State.Value = "OK"
    · have hp : d.Detail.PreviousState.Value ≠ "ALARM" := fun hp => hn ⟨hok, hp⟩
      simp [EventAction, hne, hok, hp]
    · simp [EventAction, hne, hok, hc]

/-- C1 at the test event: without the suppression tag, OK to ALARM triggers,
ALARM to OK resolves, INSUFFICIENT_DATA to OK is ignored. -/
theorem EventAction_not_suppressed_witness :
    GoMap.get (sampleEvent "INSUFFICIENT_DATA" "OK" [sampleMetric]).Detail.Tags
        "alerts:suppress_pagerduty" ≠ some "true" ∧
      EventAction (sampleEvent "OK" "ALARM" [sampleMetric]) = "trigger" ∧
      EventAction (sampleEvent "ALARM" "OK" [sampleMetric]) = "resolve" ∧
      EventAction (sampleEvent "INSUFFICIENT_DATA" "OK" [sampleMetric]) = "" :=
  ⟨by decide,
   (EventAction_not_suppressed (sampleEvent "OK" "ALARM" [sampleMetric]) (by decide)).1 rfl,
   (EventAction_not_suppressed (sampleEvent "ALARM" "OK" [sampleMetric]) (by decide)).2.1 rfl rfl,
   (EventAction_not_suppressed (sampleEvent "INSUFFICIENT_DATA" "OK" [sampleMetric])
      (by decide)).2.2 (by decide) (by decide)⟩

/-- C2: for every event whose tags map `alerts:suppress_pagerduty` to `"true"`,
`EventAction` is the empty action, whatever the two states. -/
theorem EventAction_suppressed (d : EventDetails)
    (hsup : GoMap.get d.Detail.Tags "alerts:suppress_pagerduty" = some "true") :
    EventAction d = "" := by
  simp [EventAction, GoMap.index_eq_of_get hsup]

/-- C2 at the test alarm `SuppressPagerDutyTrue`: current state ALARM, tag set. -/
theorem EventAction_suppressed_witness :
    GoMap.get (injected sampleCfg (sampleEvent "OK" "ALARM" [sampleMetric])
        (tagMap suppressedTagList)).Detail.Tags "alerts:suppress_pagerduty" = some "true" ∧
      EventAction (injected sampleCfg (sampleEvent "OK" "ALARM" [sampleMetric])
        (tagMap suppressedTagList)) = "" :=
  ⟨by decide,
   EventAction_suppressed (injected sampleCfg (sampleEvent "OK" "ALARM" [sampleMetric])
     (tagMap suppressedTagList)) (by decide)⟩

/-! ## The dispatch (C3 to C8) -/

/-- C3, as the code runs it: the test alarm going from OK to ALARM with the
tag `alerts:suppress_pagerduty` set to `"true"`, every collaborator succeeding.
The tag is to hold back the page only, but `ProcessSQSEvent` switches the chat
message on the paging action, which the tag has emptied: it returns nil, and
its log holds no chat message (and no page). -/
theorem ProcessSQSEvent_suppressed_alarm_no_chat :
    (sampleEvent "OK" "ALARM" [sampleMetric]).Detail.State.Value = "ALARM" ∧
      GoMap.get (tagMap suppressedTagList) "alerts:suppress_pagerduty" = some "true" ∧
      ProcessSQSEvent (sampleEnv suppressedTagList) sampleCfg
        (some (sampleEvent "OK" "ALARM" [sampleMetric])) [] =
        (Outcome.ret none, sampleLogEvidence) ∧
      chatCalls sampleLogEvidence = [] ∧ pageCalls sampleLogEvidence = [] := by
  refine ⟨rfl, by decide, ?_, by decide, by decide⟩
  decide

/-- The suppressed events in general: for every event whose fetched tags map
`alerts:suppress_pagerduty` to `"true"`, whatever its states and whatever the
other collaborators do, `ProcessSQSEvent` submits no page, and sends no chat
message either: the chat messages and pages of the log are those it started
with. -/
theorem ProcessSQSEvent_suppressed_silent (env : Env) (cfg : Config) (d : EventDetails)
    (h0 : List Call) (arn : String) (tagList : List (String × String))
    (hres : d.Resources = [arn]) (hcw : cfg.cw ≠ none)
    (hfetch : env.ListTagsForResource h0 arn = Except.ok tagList)
    (hsup : GoMap.get (tagMap tagList) "alerts:suppress_pagerduty" = some "true") :
    dispatchCalls (ProcessSQSEvent env cfg (some d) h0).2 = dispatchCalls h0 := by
  have hact : EventAction (injected cfg d (tagMap tagList)) = "" := by
    have hi : GoMap.index (injected cfg d (tagMap tagList)).Detail.Tags
        "alerts:suppress_pagerduty" = "true" := GoMap.index_eq_of_get hsup
    simp [EventAction, hi]
  rw [ProcessSQSEvent_of_injected env cfg d h0 arn tagList hres hcw hfetch]
  have hq := quiet_route_ignore onlyDispatch_dispatch env cfg _ hact
    (h0 ++ [Call.ListTagsForResource arn])
  unfold dispatchCalls
  rw [hq]
  simp [List.filter_append, Call.isChat, Call.isPage]

/-- The suppressed test alarm in state ALARM: neither chat message nor page. -/
theorem ProcessSQSEvent_suppressed_silent_witness :
    dispatchCalls (ProcessSQSEvent (sampleEnv suppressedTagList) sampleCfg
      (some (sampleEvent "OK" "ALARM" [sampleMetric])) []).2 = dispatchCalls [] :=
  ProcessSQSEvent_suppressed_silent (sampleEnv suppressedTagList) sampleCfg
    (sampleEvent "OK" "ALARM" [sampleMetric]) [] sampleARN suppressedTagList
    rfl (by decide) rfl (by decide)

/-- C4: an event with the single resource `arn`; the tag fetch answers
`tagList`, the routing-key resolution returns the non-empty `key`, the
classified action is `"trigger"` or `"resolve"` (`pfx` is the header text of
`SendEventTriggered`, respectively `SendEventResolved`), the evidence step and
the summary block return, and the chat service accepts the message.  Then
`ProcessSQSEvent` posts that one message, of the matching kind, to the channel
`GetSlackChannel tags`, then submits one page `ev` whose action is the
classified action, whose routing key is `key` and whose dedup key is `arn`,
and returns what the paging service answers; the log gains no other chat
message or page. -/
theorem ProcessSQSEvent_sends_then_pages (env : Env) (cfg : Config) (d d1 : EventDetails)
    (h0 h2 h3 h4 : List Call) (arn key pfx img ch cid ts : String)
    (tagList : List (String × String)) (tags : AlarmTags) (g : String × Option GoError)
    (info : Block) (blocks : List Block) (ev : V2Event)
    (hres : d.Resources = [arn]) (hcw : cfg.cw ≠ none)
    (hfetch : env.ListTagsForResource h0 arn = Except.ok tagList)
    (htags : tags = tagMap tagList) (hd1 : d1 = injected cfg d tags)
    (hkey : GetPagerDutyRoutingKey env cfg (GetServiceNameFromTags cfg tags)
      (h0 ++ [Call.ListTagsForResource arn]) = (Outcome.ret key, h2))
    (hne : key ≠ "")
    (hkind : (EventAction d1 = "trigger" ∧ pfx = ":red_alert_parrot: (triggered)") ∨
      (EventAction d1 = "resolve" ∧ pfx = ":white_check_mark: (resolved)"))
    (hev : GenerateMetricsGraphAndLink env d1 cfg h2 = (Outcome.ret g, h3))
    (himg : img = if g.2 ≠ none then "" else g.1)
    (hsum : CWAlarmSummary env d1 h3 = (Outcome.ret info, h4))
    (hch : ch = GetSlackChannel env cfg tags)
    (hblocks : blocks = messageBlocks (CWAlarmHeaderBlock d1 pfx) info (CWAlarmLink d1) img)
    (hpost : env.PostMessage h4 ch blocks = Except.ok (cid, ts))
    (hevent : ev = SubmitEvent.event key d1 arn (EventAction d1)) :
    ev.Action = EventAction d1 ∧ ev.RoutingKey = key ∧ ev.DedupKey = arn ∧
      ProcessSQSEvent env cfg (some d) h0 =
        (Outcome.ret (env.ManageEvent (h4 ++ [Call.PostMessage ch blocks]) ev),
          h4 ++ [Call.PostMessage ch blocks, Call.ManageEvent ev]) ∧
      dispatchCalls (h4 ++ [Call.PostMessage ch blocks, Call.ManageEvent ev]) =
        dispatchCalls h0 ++ [Call.PostMessage ch blocks, Call.ManageEvent ev] := by
  subst htags hd1 himg hch hblocks hevent
  have hres1 : (injected cfg d (tagMap tagList)).Resources = [arn] := hres
  refine ⟨rfl, rfl, rfl, ?_, ?_⟩
  · rw [ProcessSQSEvent_to_chat env cfg d h0 h2 h3 h4 arn key pfx tagList g info hres hcw hfetch
      hkey hne hkind hev hsum]
    simp only [SendMessage, Run.bind_apply, Run.bind, perform, hpost, Run.pure_apply]
    rw [SubmitEvent_of_action env key arn _ _ hres1 (EventAction_ne_of_kind hkind)]
    simp
  · unfold dispatchCalls
    rw [List.filter_append, quiet_to_chat onlyDispatch_dispatch env cfg _ _ h2 h3 h4 _ key g info
      hkey hev hsum]
    simp [List.filter_append, Call.isChat, Call.isPage]

/-- C4 at the test alarm going from OK to ALARM in the sample world: one
"triggered" message to `test-alarms`, then one page with action `trigger`,
the looked-up routing key and the alarm ARN as dedup key; the result is nil. -/
theorem ProcessSQSEvent_sends_then_pages_witness :
    (SubmitEvent.event "pagerduty-key-1"
        (injected sampleCfg (sampleEvent "OK" "ALARM" [sampleMetric]) (tagMap sampleTagList))
        sampleARN "trigger").Action = "trigger" ∧
      (SubmitEvent.event "pagerduty-key-1"
        (injected sampleCfg (sampleEvent "OK" "ALARM" [sampleMetric]) (tagMap sampleTagList))
        sampleARN "trigger").RoutingKey = "pagerduty-key-1" ∧
      (SubmitEvent.event "pagerduty-key-1"
        (injected sampleCfg (sampleEvent "OK" "ALARM" [sampleMetric]) (tagMap sampleTagList))
        sampleARN "trigger").DedupKey = sampleARN ∧
      ProcessSQSEvent (sampleEnv sampleTagList) sampleCfg
          (some (sampleEvent "OK" "ALARM" [sampleMetric])) [] =
        (Outcome.ret none,
          sampleLogSummary ++
            [Call.PostMessage "test-alarms" (sampleBlocks
                "*:red_alert_parrot: (triggered) Cloudwatch Alarm: test-service-alarm-abcd*"),
             Call.ManageEvent (SubmitEvent.event "pagerduty-key-1"
                (injected sampleCfg (sampleEvent "OK" "ALARM" [sampleMetric])
                  (tagMap sampleTagList)) sampleARN "trigger")]) ∧
      dispatchCalls (sampleLogSummary ++
            [Call.PostMessage "test-alarms" (sampleBlocks
                "*:red_alert_parrot: (triggered) Cloudwatch Alarm: test-service-alarm-abcd*"),
             Call.ManageEvent (SubmitEvent.event "pagerduty-key-1"
                (injected sampleCfg (sampleEvent "OK" "ALARM" [sampleMetric])
                  (tagMap sampleTagList)) sampleARN "trigger")]) =
        dispatchCalls [] ++
            [Call.PostMessage "test-alarms" (sampleBlocks
                "*:red_alert_parrot: (triggered) Cloudwatch Alarm: test-service-alarm-abcd*"),
             Call.ManageEvent (SubmitEvent.event "pagerduty-key-1"
                (injected sampleCfg (sampleEvent "OK" "ALARM" [sampleMetric])
                  (tagMap sampleTagList)) sampleARN "trigger")] :=
  ProcessSQSEvent_sends_then_pages (sampleEnv sampleTagList) sampleCfg
    (sampleEvent "OK" "ALARM" [sampleMetric])
    (injected sampleCfg (sampleEvent "OK" "ALARM" [sampleMetric]) (tagMap sampleTagList))
    [] sampleLogRouted sampleLogEvidence sampleLogSummary sampleARN "pagerduty-key-1"
    ":red_alert_parrot: (triggered)" ("https://test.image.host.com" ++ sampleObjectKey)
    "test-alarms" "XVB123123123" "123123123123123" sampleTagList (tagMap sampleTagList)
    ("https://test.image.host.com" ++ sampleObjectKey, none) sampleSummary
    (sampleBlocks "*:red_alert_parrot: (triggered) Cloudwatch Alarm: test-service-alarm-abcd*")
    (SubmitEvent.event "pagerduty-key-1"
      (injected sampleCfg (sampleEvent "OK" "ALARM" [sampleMetric]) (tagMap sampleTagList))
      sampleARN "trigger")
    rfl (by decide) rfl rfl rfl (by decide) (by decide) (Or.inl ⟨by decide, rfl⟩) (by decide)
    (by decide) (by decide) (by decide) (by decide) rfl rfl

/-- C5, as the code runs it: the test alarm staying in OK (classified action
`""`) with no metric query, tag fetch and routing-key resolution succeeding.
The evidence step reads `Metrics[0]` of an empty slice: `ProcessSQSEvent`
panics after reading the clock and returns nothing. -/
theorem ProcessSQSEvent_ignored_without_metrics_panics :
    EventAction (injected sampleCfg (sampleEvent "OK" "OK" []) (tagMap sampleTagList)) = "" ∧
      ProcessSQSEvent (sampleEnv sampleTagList) sampleCfg (some (sampleEvent "OK" "OK" [])) [] =
        (Outcome.panic "runtime error: index out of range [0] with length 0",
          sampleLogRouted ++ [Call.Now]) := by
  decide

/-- The ignored transitions when the evidence step returns: with the
classified action `""`, `ProcessSQSEvent` returns nil, and the log gains no
chat message and no page. -/
theorem ProcessSQSEvent_ignored_of_evidence (env : Env) (cfg : Config) (d : EventDetails)
    (h0 h2 h3 : List Call) (arn key : String) (tagList : List (String × String))
    (g : String × Option GoError)
    (hres : d.Resources = [arn]) (hcw : cfg.cw ≠ none)
    (hfetch : env.ListTagsForResource h0 arn = Except.ok tagList)
    (hkey : GetPagerDutyRoutingKey env cfg (GetServiceNameFromTags cfg (tagMap tagList))
      (h0 ++ [Call.ListTagsForResource arn]) = (Outcome.ret key, h2))
    (hne : key ≠ "")
    (hact : EventAction (injected cfg d (tagMap tagList)) = "")
    (hev : GenerateMetricsGraphAndLink env (injected cfg d (tagMap tagList)) cfg h2 =
      (Outcome.ret g, h3)) :
    ProcessSQSEvent env cfg (some d) h0 = (Outcome.ret none, h3) ∧
      dispatchCalls h3 = dispatchCalls h0 := by
  have hres1 : (injected cfg d (tagMap tagList)).Resources = [arn] := hres
  constructor
  · rw [ProcessSQSEvent_of_injected env cfg d h0 arn tagList hres hcw hfetch]
    unfold ProcessSQSEvent.route
    simp only [Run.bind_apply, injected_Tags]
    rw [Run.bind_ret hkey]
    simp only [hne, if_false]
    unfold ProcessSQSEvent.dispatch
    simp only [Run.bind_apply]
    rw [Run.bind_ret hev, hact, sendForAction_ignore]
    simp only [SubmitEvent, AlarmARN_single hres1, hact, if_true]
    rfl
  · unfold dispatchCalls
    rw [(quiet_GenerateMetricsGraphAndLink onlyDispatch_dispatch env _ cfg).at hev,
      (quiet_GetPagerDutyRoutingKey onlyDispatch_dispatch env cfg _).at hkey]
    simp [List.filter_append, Call.isChat, Call.isPage]

/-- C6: an event with the single resource `arn` whose classified action is
`"trigger"` or `"resolve"`; tags and routing key are resolved, the evidence
step and the summary block return, and the chat service answers the message
with the error `e`.  Then `ProcessSQSEvent` returns exactly `e`, and the log
gains no page. -/
theorem ProcessSQSEvent_chat_error (env : Env) (cfg : Config) (d d1 : EventDetails)
    (h0 h2 h3 h4 : List Call) (arn key pfx img ch : String)
    (tagList : List (String × String)) (tags : AlarmTags) (g : String × Option GoError)
    (info : Block) (blocks : List Block) (e : GoError)
    (hres : d.Resources = [arn]) (hcw : cfg.cw ≠ none)
    (hfetch : env.ListTagsForResource h0 arn = Except.ok tagList)
    (htags : tags = tagMap tagList) (hd1 : d1 = injected cfg d tags)
    (hkey : GetPagerDutyRoutingKey env cfg (GetServiceNameFromTags cfg tags)
      (h0 ++ [Call.ListTagsForResource arn]) = (Outcome.ret key, h2))
    (hne : key ≠ "")
    (hkind : (EventAction d1 = "trigger" ∧ pfx = ":red_alert_parrot: (triggered)") ∨
      (EventAction d1 = "resolve" ∧ pfx = ":white_check_mark: (resolved)"))
    (hev : GenerateMetricsGraphAndLink env d1 cfg h2 = (Outcome.ret g, h3))
    (himg : img = if g.2 ≠ none then "" else g.1)
    (hsum : CWAlarmSummary env d1 h3 = (Outcome.ret info, h4))
    (hch : ch = GetSlackChannel env cfg tags)
    (hblocks : blocks = messageBlocks (CWAlarmHeaderBlock d1 pfx) info (CWAlarmLink d1) img)
    (hpost : env.PostMessage h4 ch blocks = Except.error e) :
    ProcessSQSEvent env cfg (some d) h0 =
        (Outcome.ret (some e), h4 ++ [Call.PostMessage ch blocks]) ∧
      pageCalls (h4 ++ [Call.PostMessage ch blocks]) = pageCalls h0 := by
  subst htags hd1 himg hch hblocks
  constructor
  · rw [ProcessSQSEvent_to_chat env cfg d h0 h2 h3 h4 arn key pfx tagList g info hres hcw hfetch
      hkey hne hkind hev hsum]
    simp only [SendMessage, Run.bind_apply, Run.bind, perform, hpost, Run.pure_apply]
  · unfold pageCalls
    rw [List.filter_append, quiet_to_chat onlyDispatch_page env cfg _ _ h2 h3 h4 _ key g info
      hkey hev hsum]
    simp [List.filter_append, Call.isPage]

/-- C6 at the test alarm going from ALARM to OK, with a chat service that
answers `channel_not_found`: that error is the result, and no page is sent. -/
theorem ProcessSQSEvent_chat_error_witness :
    ProcessSQSEvent chatDownEnv sampleCfg (some (sampleEvent "ALARM" "OK" [sampleMetric])) [] =
        (Outcome.ret (some ⟨"channel_not_found", none⟩),
          sampleLogSummary ++ [Call.PostMessage "test-alarms" (sampleBlocks
            "*:white_check_mark: (resolved) Cloudwatch Alarm: test-service-alarm-abcd*")]) ∧
      pageCalls (sampleLogSummary ++ [Call.PostMessage "test-alarms" (sampleBlocks
        "*:white_check_mark: (resolved) Cloudwatch Alarm: test-service-alarm-abcd*")]) =
        pageCalls [] :=
  ProcessSQSEvent_chat_error chatDownEnv sampleCfg (sampleEvent "ALARM" "OK" [sampleMetric])
    (injected sampleCfg (sampleEvent "ALARM" "OK" [sampleMetric]) (tagMap sampleTagList))
    [] sampleLogRouted sampleLogEvidence sampleLogSummary sampleARN "pagerduty-key-1"
    ":white_check_mark: (resolved)" ("https://test.image.host.com" ++ sampleObjectKey)
    "test-alarms" sampleTagList (tagMap sampleTagList)
    ("https://test.image.host.com" ++ sampleObjectKey, none) sampleSummary
    (sampleBlocks "*:white_check_mark: (resolved) Cloudwatch Alarm: test-service-alarm-abcd*")
    ⟨"channel_not_found", none⟩
    rfl (by decide) rfl rfl rfl (by decide) (by decide) (Or.inr ⟨by decide, rfl⟩) (by decide)
    (by decide) (by decide) (by decide) (by decide) rfl

/-- C7: when tag injection fails, `ProcessSQSEvent` returns a non-nil error
and calls nothing but, at most, the tag lookup.  With a nil CloudWatch client
or a resource count other than one the log is unchanged; when the tag lookup
for the single resource answers the error `e`, the log gains that lookup only.
No parameter is read, no metric data fetched, no object written, no chat
message posted and no page submitted. -/
theorem ProcessSQSEvent_tag_injection_fails (env : Env) (cfg : Config) (d : EventDetails)
    (h0 : List Call) :
    (cfg.cw = none →
      ProcessSQSEvent env cfg (some d) h0 =
        (Outcome.ret (some (Errorf ("error injecting tags for cloudwatch event: "
          ++ "cloudwatch client is nil"))), h0)) ∧
    (cfg.cw ≠ none → d.Resources.length ≠ 1 →
      ProcessSQSEvent env cfg (some d) h0 =
        (Outcome.ret (some (Errorf ("error injecting tags for cloudwatch event: "
          ++ ("resources in the cloudwatch alarm details must be exactly 1 (we got "
            ++ toString d.Resources.length ++ ")")))), h0)) ∧
    (∀ arn e, cfg.cw ≠ none → d.Resources = [arn] →
      env.ListTagsForResource h0 arn = Except.error e →
      ProcessSQSEvent env cfg (some d) h0 =
        (Outcome.ret (some (Errorf ("error injecting tags for cloudwatch event: " ++ e.msg))),
          h0 ++ [Call.ListTagsForResource arn])) := by
  refine ⟨fun hc => ?_, fun hcw hlen => ?_, fun arn e hcw hres hfetch => ?_⟩
  · simp [ProcessSQSEvent, InjectTags, SetCWClient, hc, Run.bind, Errorf]
  · cases hc : cfg.cw with
    | none => exact absurd hc hcw
    | some c =>
      have hbad : AlarmARN { d with cwClient := some c } = _ :=
        AlarmARN_bad (d := { d with cwClient := some c }) hlen
      simp [ProcessSQSEvent, InjectTags, SetCWClient, hc, Run.bind, hbad, Errorf]
  · cases hc : cfg.cw with
    | none => exact absurd hc hcw
    | some c =>
      have harn : AlarmARN { d with cwClient := some c } = (arn, none) := AlarmARN_single hres
      simp [ProcessSQSEvent, InjectTags, SetCWClient, hc, Run.bind, harn, GetAlarmTags,
        perform, hfetch]

/-- C7 in the sample world: a configuration without CloudWatch client, an
event with two resources, and a tag lookup that is denied. -/
theorem ProcessSQSEvent_tag_injection_fails_witness :
    ProcessSQSEvent (sampleEnv sampleTagList) { sampleCfg with cw := none }
        (some (sampleEvent "OK" "ALARM" [sampleMetric])) [] =
      (Outcome.ret (some (Errorf ("error injecting tags for cloudwatch event: "
        ++ "cloudwatch client is nil"))), []) ∧
    ProcessSQSEvent (sampleEnv sampleTagList) sampleCfg
        (some { sampleEvent "OK" "ALARM" [sampleMetric] with Resources := ["a", "b"] }) [] =
      (Outcome.ret (some (Errorf ("error injecting tags for cloudwatch event: "
        ++ ("resources in the cloudwatch alarm details must be exactly 1 (we got "
          ++ toString 2 ++ ")")))), []) ∧
    ProcessSQSEvent
        { sampleEnv sampleTagList with
          ListTagsForResource := fun _ _ => Except.error ⟨"AccessDenied", some "AccessDenied"⟩ }
        sampleCfg (some (sampleEvent "OK" "ALARM" [sampleMetric])) [] =
      (Outcome.ret (some (Errorf ("error injecting tags for cloudwatch event: "
        ++ "AccessDenied"))), [] ++ [Call.ListTagsForResource sampleARN]) :=
  ⟨(ProcessSQSEvent_tag_injection_fails (sampleEnv sampleTagList) { sampleCfg with cw := none }
      (sampleEvent "OK" "ALARM" [sampleMetric]) []).1 rfl,
   (ProcessSQSEvent_tag_injection_fails (sampleEnv sampleTagList) sampleCfg
      { sampleEvent "OK" "ALARM" [sampleMetric] with Resources := ["a", "b"] } []).2.1
      (by decide) (by decide),
   (ProcessSQSEvent_tag_injection_fails
      { sampleEnv sampleTagList with
        ListTagsForResource := fun _ _ => Except.error ⟨"AccessDenied", some "AccessDenied"⟩ }
      sampleCfg (sampleEvent "OK" "ALARM" [sampleMetric]) []).2.2 sampleARN
      ⟨"AccessDenied", some "AccessDenied"⟩ (by decide) rfl rfl⟩

/-- C8, as the code runs it: the test alarm going from OK to ALARM with no
metric query, every collaborator succeeding.  The evidence step panics on
`Metrics[0]`; the panic is not an error value, so nothing absorbs it:
`ProcessSQSEvent` stops there, with no chat message and no page. -/
theorem ProcessSQSEvent_evidence_panic_escapes :
    ProcessSQSEvent (sampleEnv sampleTagList) sampleCfg (some (sampleEvent "OK" "ALARM" [])) [] =
        (Outcome.panic "runtime error: index out of range [0] with length 0",
          sampleLogRouted ++ [Call.Now]) ∧
      dispatchCalls (sampleLogRouted ++ [Call.Now]) = [] := by
  decide

/-! ## The channel resolver (C9, C10) -/

/-- C9: for every tag map in which `alerts:slack_channel` has a non-empty
value `X`, `GetSlackChannel` returns `X` itself, whatever the owner tag and the
configuration. -/
theorem GetSlackChannel_override (env : Env) (cfg : Config) (tags : AlarmTags) (X : String)
    (hget : GoMap.get tags "alerts:slack_channel" = some X) (hX : X ≠ "") :
    GetSlackChannel env cfg tags = X := by
  simp [GetSlackChannel, GetSlackChannelOverrideFromTags, DefaultSlackChannelOverrideTagKey,
    hget, hX]

/-- C9 at the tags of `TestSlackChannelOverrideFromTags`, with an override in
mixed case: it is returned as it is. -/
theorem GetSlackChannel_override_witness :
    GoMap.get [("owner", "plateng"), ("service", "test-service"),
        ("alerts:slack_channel", "PlatEng-Alarms")] "alerts:slack_channel"
        = some "PlatEng-Alarms" ∧
      GetSlackChannel (sampleEnv sampleTagList) sampleCfg
        [("owner", "plateng"), ("service", "test-service"),
          ("alerts:slack_channel", "PlatEng-Alarms")] = "PlatEng-Alarms" :=
  ⟨by decide,
   GetSlackChannel_override (sampleEnv sampleTagList) sampleCfg
     [("owner", "plateng"), ("service", "test-service"),
       ("alerts:slack_channel", "PlatEng-Alarms")] "PlatEng-Alarms" (by decide) (by decide)⟩

/-- C10: for every tag map whose `alerts:slack_channel` tag is absent or empty
and whose owner tag (under the configured key) has a non-empty value `o`,
`GetSlackChannel` returns `o` lower-cased, followed by `-alarms`. -/
theorem GetSlackChannel_owner (env : Env) (cfg : Config) (tags : AlarmTags) (o : String)
    (hover : GoMap.get tags "alerts:slack_channel" = none ∨
      GoMap.get tags "alerts:slack_channel" = some "")
    (hown : GoMap.get tags cfg.OwnerTagKey = some o) (ho : o ≠ "") :
    GetSlackChannel env cfg tags = env.ToLower o ++ "-alarms" := by
  rcases hover with h | h <;>
    simp [GetSlackChannel, GetSlackChannelOverrideFromTags, DefaultSlackChannelOverrideTagKey,
      GetOwnerFromTags, GetSlackChannelFromOwner, h, hown, ho]

/-- C10 at the owner `Foo`: the channel is `foo-alarms`. -/
theorem GetSlackChannel_owner_witness :
    GetSlackChannel (sampleEnv sampleTagList) sampleCfg
        [("owner", "Foo"), ("service", "test-service")] = asciiToLower "Foo" ++ "-alarms" ∧
      asciiToLower "Foo" ++ "-alarms" = "foo-alarms" :=
  ⟨GetSlackChannel_owner (sampleEnv sampleTagList) sampleCfg
     [("owner", "Foo"), ("service", "test-service")] "Foo" (Or.inl (by decide)) (by decide)
     (by decide), by decide⟩


/-! ## Lemmas on the routing key -/

/-- The calls of `GetPagerDutyRoutingKey`: none for the empty service name,
else the one parameter read, whatever its answer. -/
theorem GetPagerDutyRoutingKey_log (env : Env) (cfg : Config) (s : String) (h : List Call) :
    (GetPagerDutyRoutingKey env cfg s h).2 =
      h ++ (if s = "" then [] else
        [Call.GetParameter ("/service/cw_alert_router/pagerduty/routing_keys/"
          ++ ReplaceAllHyphens (env.ToLower s)) true]) := by
  by_cases hs : s = ""
  · simp [GetPagerDutyRoutingKey, hs]
  · simp only [GetPagerDutyRoutingKey, hs, if_false, GetParameterValue, perform, Run.bind_apply,
      Run.bind, DefaultPagerDutyRoutingKeySSMPattern]
    cases env.GetParameter h ("/service/cw_alert_router/pagerduty/routing_keys/"
        ++ ReplaceAllHyphens (env.ToLower s)) with
    | error e =>
      simp only [Run.pure_apply]
      cases e.awsCode with
      | none => rfl
      | some code =>
        dsimp only
        split <;> rfl
    | ok v =>
      simp only [Run.pure_apply]
      split <;> rfl

/-! ## Lemmas on decimal numerals -/

theorem toDigitsCore_eq_digits (fuel : Nat) : ∀ (n : Nat) (ds : List Char), n < fuel → 0 < n →
    Nat.toDigitsCore 10 fuel n ds = ((Nat.digits 10 n).reverse.map Nat.digitChar) ++ ds := by
  induction fuel with
  | zero => intro n ds h; omega
  | succ fuel ih =>
    intro n ds hlt hpos
    have hd : Nat.digits 10 n = (n % 10) :: Nat.digits 10 (n / 10) :=
      Nat.digits_def' (by norm_num) hpos
    rw [hd]
    simp only [Nat.toDigitsCore]
    by_cases h0 : n / 10 = 0
    · simp [h0]
    · have hlt2 : n / 10 < fuel := by omega
      have hpos2 : 0 < n / 10 := Nat.pos_of_ne_zero h0
      simp only [h0, if_false]
      rw [ih (n / 10) _ hlt2 hpos2]
      simp

theorem toDigits_eq_digits (n : Nat) (hpos : 0 < n) :
    Nat.toDigits 10 n = (Nat.digits 10 n).reverse.map Nat.digitChar := by
  unfold Nat.toDigits
  rw [toDigitsCore_eq_digits (n + 1) n [] (by omega) hpos]
  simp

theorem toDigits_zero : Nat.toDigits 10 0 = ['0'] := by decide

theorem digitChar_isDigit (d : Nat) (h : d < 10) : (Nat.digitChar d).isDigit = true := by
  interval_cases d <;> decide

theorem digitChar_inj (a b : Nat) (ha : a < 10) (hb : b < 10)
    (h : Nat.digitChar a = Nat.digitChar b) : a = b := by
  interval_cases a <;> interval_cases b <;> first | rfl | (exact absurd h (by decide))

theorem toDigits_all_isDigit (n : Nat) : ∀ c ∈ Nat.toDigits 10 n, c.isDigit = true := by
  intro c hc
  rcases Nat.eq_zero_or_pos n with h0 | hpos
  · subst h0
    rw [toDigits_zero] at hc
    simp at hc
    subst hc
    decide
  · rw [toDigits_eq_digits n hpos] at hc
    simp only [List.mem_map, List.mem_reverse] at hc
    obtain ⟨d, hd, rfl⟩ := hc
    exact digitChar_isDigit d (Nat.digits_lt_base (by norm_num) hd)

theorem digitChar_toNat (d : Nat) (h : d < 10) : (Nat.digitChar d).toNat - 48 = d := by
  interval_cases d <;> decide

theorem decode_toDigits (n : Nat) :
    Nat.ofDigits 10 (((Nat.toDigits 10 n).map (fun c => c.toNat - 48)).reverse) = n := by
  rcases Nat.eq_zero_or_pos n with h0 | hpos
  · subst h0
    rw [toDigits_zero]
    decide
  · rw [toDigits_eq_digits n hpos]
    have hmap : (Nat.digits 10 n).map (fun d => (Nat.digitChar d).toNat - 48) = Nat.digits 10 n := by
      conv_rhs => rw [← List.map_id (Nat.digits 10 n)]
      apply List.map_congr_left
      intro d hd
      exact digitChar_toNat d (Nat.digits_lt_base (by norm_num) hd)
    rw [List.map_map, ← List.map_reverse, List.reverse_reverse]
    simp only [Function.comp_def]
    rw [hmap, Nat.ofDigits_digits]

theorem toDigits_injective : Function.Injective (Nat.toDigits 10) := by
  intro a b h
  rw [← decode_toDigits a, ← decode_toDigits b, h]

theorem Nat_repr_injective : Function.Injective (fun n : Nat => toString n) := by
  intro a b h
  have h2 : (Nat.toDigits 10 a).asString = (Nat.toDigits 10 b).asString := h
  exact toDigits_injective (congrArg String.data h2)

theorem matchesQueryIdPattern_m (i : Nat) :
    matchesQueryIdPattern ("m" ++ toString i) = true := by
  have hdata : ("m" ++ toString i).data = 'm' :: Nat.toDigits 10 i := rfl
  unfold matchesQueryIdPattern
  rw [hdata]
  simp only [Bool.and_eq_true, List.all_eq_true, Bool.or_eq_true]
  refine ⟨by decide, fun c hc => Or.inl ?_⟩
  simp [Char.isAlphanum, toDigits_all_isDigit i c hc]


/-! ## Lemmas on the metric-data request -/

theorem GetMetricDataRequestForHrs_unfold (env : Env) (d : EventDetails) (hrs : List Int)
    (h : List Call) (c : CWClient) (m0 : AlarmMetric) (rest : List AlarmMetric)
    (hc : d.cwClient = some c) (hm : d.Detail.Configuration.Metrics = m0 :: rest) :
    GetMetricDataRequestForHrs env d hrs h =
      Run.bind
        (perform (Call.GetMetricData (metricRequest (env.Now h) m0 rest hrs))
          (fun h1 => env.GetMetricData h1 (metricRequest (env.Now h) m0 rest hrs)))
        (fun resp =>
          match resp with
          | Except.error err => pure (Except.error err)
          | Except.ok results =>
            match results with
            | [r] => pure (Except.ok r)
            | rs => pure (Except.error (Errorf ("number of metric data results != 1 (got "
                      ++ toString rs.length ++ ")"))))
        (h ++ [Call.Now]) := by
  unfold GetMetricDataRequestForHrs
  cases hrs <;> simp only [hc, hm, Run.bind_apply, Run.bind, perform, metricRequest, windowHours]

theorem GetMetricDataRequestForHrs_log (env : Env) (d : EventDetails) (hrs : List Int)
    (h : List Call) (c : CWClient) (m0 : AlarmMetric) (rest : List AlarmMetric)
    (hc : d.cwClient = some c) (hm : d.Detail.Configuration.Metrics = m0 :: rest) :
    (GetMetricDataRequestForHrs env d hrs h).2 =
      h ++ [Call.Now, Call.GetMetricData (metricRequest (env.Now h) m0 rest hrs)] := by
  rw [GetMetricDataRequestForHrs_unfold env d hrs h c m0 rest hc hm]
  simp only [Run.bind, perform]
  cases env.GetMetricData (h ++ [Call.Now]) (metricRequest (env.Now h) m0 rest hrs) with
  | error e => simp
  | ok rs =>
    dsimp only
    split <;> simp


theorem buildQueries_length (ms : List AlarmMetric) : ∀ k, (buildQueries k ms).length = ms.length := by
  induction ms with
  | nil => intro k; rfl
  | cons m rest ih => intro k; simp [buildQueries, ih]

theorem buildQueries_ids (ms : List AlarmMetric) : ∀ k,
    (buildQueries k ms).map (fun q => q.Id) =
      (List.range' k ms.length).map (fun i => "m" ++ toString i) := by
  induction ms with
  | nil => intro k; rfl
  | cons m rest ih =>
    intro k
    simp [buildQueries, ih, List.range'_succ]

theorem buildQueries_fields (ms : List AlarmMetric) : ∀ k,
    (buildQueries k ms).map (fun q =>
        (q.ReturnData, q.Period, q.Stat, q.MetricName, q.Namespace, q.Dimensions)) =
      ms.map (fun m => (m.ReturnData, m.MetricStat.Period, m.MetricStat.Stat,
        m.MetricStat.Metric.Name, m.MetricStat.Metric.Namespace,
        AWSDimensions m.MetricStat.Metric)) := by
  induction ms with
  | nil => intro k; rfl
  | cons m rest ih => intro k; simp [buildQueries, ih]

theorem wrap64_of_range (x : Int) (hlo : -9223372036854775808 ≤ x)
    (hhi : x < 9223372036854775808) : wrap64 x = x := by
  unfold wrap64
  norm_num
  omega

/-- The window of the request for a period of whole minutes: when the period
of the first metric query is `60 * k` seconds (within the range of a
duration) the end time is the clock reading rounded down to a multiple of the
period, and for a window of at most 2562047 hours the start time lies that
many hours before it. -/
theorem metricRequest_aligned (now : Int) (m0 : AlarmMetric) (rest : List AlarmMetric)
    (hrs : List Int) (k : Int) (hP : m0.MetricStat.Period = 60 * k) (hk : 0 < k)
    (hk2 : k ≤ 153722867)
    (hh : -2562047 ≤ windowHours hrs ∧ windowHours hrs ≤ 2562047) :
    (metricRequest now m0 rest hrs).EndTime ≤ now ∧
      now < (metricRequest now m0 rest hrs).EndTime + m0.MetricStat.Period * 1000000000 ∧
      (metricRequest now m0 rest hrs).EndTime % (m0.MetricStat.Period * 1000000000) = 0 ∧
      (metricRequest now m0 rest hrs).StartTime =
        (metricRequest now m0 rest hrs).EndTime - windowHours hrs * Hour := by
  have hdiv : Int.tdiv m0.MetricStat.Period 60 = k := by
    rw [hP]
    exact Int.mul_tdiv_cancel_left k (by norm_num)
  have hMin : k * Minute = k * 60000000000 := rfl
  have hdur : wrap64 (k * Minute) = k * Minute :=
    wrap64_of_range _ (by rw [hMin]; omega) (by rw [hMin]; omega)
  have hpos : (0 : Int) < k * Minute := by rw [hMin]; omega
  have hper : m0.MetricStat.Period * 1000000000 = k * Minute := by
    rw [hP, hMin]; ring
  have hend : (metricRequest now m0 rest hrs).EndTime = now - now % (k * Minute) := by
    simp only [metricRequest, hdiv, hdur, Truncate, not_le.mpr hpos, if_false]
  have hneg : wrap64 (-(windowHours hrs)) = -(windowHours hrs) :=
    wrap64_of_range _ (by omega) (by omega)
  have hHour : -(windowHours hrs) * Hour = -(windowHours hrs) * 3600000000000 := rfl
  have hstart : wrap64 (-(windowHours hrs) * Hour) = -(windowHours hrs) * Hour :=
    wrap64_of_range _ (by rw [hHour]; omega) (by rw [hHour]; omega)
  have hmod_nonneg : (0 : Int) ≤ now % (k * Minute) := Int.emod_nonneg now (ne_of_gt hpos)
  have hmod_lt : now % (k * Minute) < k * Minute := Int.emod_lt_of_pos now hpos
  have hle : (now - now % (k * Minute) : Int) ≤ now := by
    generalize now % (k * Minute) = r at hmod_nonneg hmod_lt
    omega
  have hlt : (now : Int) < now - now % (k * Minute) + k * Minute := by
    generalize now % (k * Minute) = r at hmod_nonneg hmod_lt
    generalize k * Minute = D at hmod_lt
    omega
  have hzero : (now - now % (k * Minute) : Int) % (k * Minute) = 0 := by
    have hsplit : (now - now % (k * Minute) : Int) = (k * Minute) * (now / (k * Minute)) := by
      have := Int.emod_add_ediv now (k * Minute)
      linarith
    rw [hsplit]
    exact Int.mul_emod_right _ _
  refine ⟨?_, ?_, ?_, ?_⟩
  · rw [hend]; exact hle
  · rw [hend, hper]; exact hlt
  · rw [hend, hper]; exact hzero
  · simp only [metricRequest, hneg, hstart]
    ring

/-! ## The channel default and the routing key (C11 to C16) -/

/-- C11: for every tag map in which `alerts:slack_channel` is absent or empty
and the tag under the configured owner key is absent or empty,
`GetSlackChannel` returns the configured `DefaultSlackChannel`. -/
theorem GetSlackChannel_default (env : Env) (cfg : Config) (tags : AlarmTags)
    (hover : GoMap.get tags "alerts:slack_channel" = none ∨
      GoMap.get tags "alerts:slack_channel" = some "")
    (hown : GoMap.get tags cfg.OwnerTagKey = none ∨ GoMap.get tags cfg.OwnerTagKey = some "") :
    GetSlackChannel env cfg tags = cfg.DefaultSlackChannel := by
  rcases hover with h | h <;> rcases hown with ho | ho <;>
    simp [GetSlackChannel, GetSlackChannelOverrideFromTags, DefaultSlackChannelOverrideTagKey,
      GetOwnerFromTags, GetSlackChannelFromOwner, h, ho]

/-- C11 at the tags of `TestSlackChannelWithNoTags` (a service tag only), and at
tags whose override and owner are both empty. -/
theorem GetSlackChannel_default_witness :
    GetSlackChannel (sampleEnv sampleTagList) sampleCfg [("service", "test-service")]
        = "test-alarms" ∧
      GetSlackChannel (sampleEnv sampleTagList) sampleCfg
        [("alerts:slack_channel", ""), ("owner", "")] = "test-alarms" :=
  ⟨GetSlackChannel_default (sampleEnv sampleTagList) sampleCfg [("service", "test-service")]
     (Or.inl (by decide)) (Or.inl (by decide)),
   GetSlackChannel_default (sampleEnv sampleTagList) sampleCfg
     [("alerts:slack_channel", ""), ("owner", "")] (Or.inr (by decide)) (Or.inr (by decide))⟩

/-- C12: for every configuration (and every world and log), the call
`GetPagerDutyRoutingKey("")` returns `cfg.DefaultPagerDutyRoutingKey` and leaves
the log as it was: no call is made, to the parameter store or elsewhere. -/
theorem GetPagerDutyRoutingKey_empty (env : Env) (cfg : Config) (h : List Call) :
    GetPagerDutyRoutingKey env cfg "" h = (Outcome.ret cfg.DefaultPagerDutyRoutingKey, h) := by
  simp [GetPagerDutyRoutingKey]

/-- C13: for every non-empty service name `s`, `GetPagerDutyRoutingKey` makes
one call, the read of the parameter whose key is the pattern followed by `s`
lower-cased with every hyphen replaced by an underscore, whatever the answer;
and when the answer is a non-empty value `v`, it returns `v`. -/
theorem GetPagerDutyRoutingKey_lookup (env : Env) (cfg : Config) (s : String) (h : List Call)
    (hs : s ≠ "") :
    (GetPagerDutyRoutingKey env cfg s h).2 =
        h ++ [Call.GetParameter ("/service/cw_alert_router/pagerduty/routing_keys/"
          ++ ReplaceAllHyphens (env.ToLower s)) true] ∧
      (ReplaceAllHyphens (env.ToLower s)).data =
        (env.ToLower s).data.map (fun c => if c = '-' then '_' else c) ∧
      ∀ v, env.GetParameter h ("/service/cw_alert_router/pagerduty/routing_keys/"
          ++ ReplaceAllHyphens (env.ToLower s)) = Except.ok v → v ≠ "" →
        (GetPagerDutyRoutingKey env cfg s h).1 = Outcome.ret v := by
  refine ⟨?_, rfl, fun v hv hne => ?_⟩
  · simpa [hs] using GetPagerDutyRoutingKey_log env cfg s h
  · simp [GetPagerDutyRoutingKey, hs, GetParameterValue, perform, Run.bind,
      DefaultPagerDutyRoutingKeySSMPattern, hv, hne]

/-- C13 at the service name of the tests: `test-service` reads the key ending
in `test_service` and returns `pagerduty-key-1`. -/
theorem GetPagerDutyRoutingKey_lookup_witness :
    GetPagerDutyRoutingKey (sampleEnv sampleTagList) sampleCfg "test-service" [] =
      (Outcome.ret "pagerduty-key-1",
        [Call.GetParameter "/service/cw_alert_router/pagerduty/routing_keys/test_service" true]) :=
  Prod.ext
    ((GetPagerDutyRoutingKey_lookup (sampleEnv sampleTagList) sampleCfg "test-service" []
      (by decide)).2.2 "pagerduty-key-1" rfl (by decide))
    (GetPagerDutyRoutingKey_lookup (sampleEnv sampleTagList) sampleCfg "test-service" []
      (by decide)).1

/-- C14: for every non-empty service name, when the parameter read answers
with the AWS error code `ParameterNotFound`, or with the empty value,
`GetPagerDutyRoutingKey` returns `cfg.DefaultPagerDutyRoutingKey`: it returns
(the process does not exit), and the only call is that read. -/
theorem GetPagerDutyRoutingKey_fallback (env : Env) (cfg : Config) (s : String) (h : List Call)
    (e : GoError) (hs : s ≠ "")
    (hmiss : (env.GetParameter h ("/service/cw_alert_router/pagerduty/routing_keys/"
          ++ ReplaceAllHyphens (env.ToLower s)) = Except.error e ∧
        e.awsCode = some "ParameterNotFound") ∨
      env.GetParameter h ("/service/cw_alert_router/pagerduty/routing_keys/"
          ++ ReplaceAllHyphens (env.ToLower s)) = Except.ok "") :
    GetPagerDutyRoutingKey env cfg s h =
      (Outcome.ret cfg.DefaultPagerDutyRoutingKey,
        h ++ [Call.GetParameter ("/service/cw_alert_router/pagerduty/routing_keys/"
          ++ ReplaceAllHyphens (env.ToLower s)) true]) := by
  rcases hmiss with ⟨hv, hcode⟩ | hv
  · simp [GetPagerDutyRoutingKey, hs, GetParameterValue, perform, Run.bind,
      DefaultPagerDutyRoutingKeySSMPattern, hv, hcode]
  · simp [GetPagerDutyRoutingKey, hs, GetParameterValue, perform, Run.bind,
      DefaultPagerDutyRoutingKeySSMPattern, hv]

/-- C14 in the sample world with a parameter store that has no such parameter,
and with one that holds the empty value. -/
theorem GetPagerDutyRoutingKey_fallback_witness :
    GetPagerDutyRoutingKey notFoundEnv sampleCfg "test-service" [] =
        (Outcome.ret "pagerduty-key-default",
          [] ++ [Call.GetParameter ("/service/cw_alert_router/pagerduty/routing_keys/"
            ++ ReplaceAllHyphens (notFoundEnv.ToLower "test-service")) true]) ∧
      GetPagerDutyRoutingKey emptyValueEnv sampleCfg "test-service" [] =
        (Outcome.ret "pagerduty-key-default",
          [] ++ [Call.GetParameter ("/service/cw_alert_router/pagerduty/routing_keys/"
            ++ ReplaceAllHyphens (emptyValueEnv.ToLower "test-service")) true]) :=
  ⟨GetPagerDutyRoutingKey_fallback notFoundEnv sampleCfg "test-service" []
     ⟨"ParameterNotFound: parameter not found", some "ParameterNotFound"⟩ (by decide)
     (Or.inl ⟨rfl, rfl⟩),
   GetPagerDutyRoutingKey_fallback emptyValueEnv sampleCfg "test-service" []
     ⟨"", none⟩ (by decide) (Or.inr rfl)⟩

/-- C15, as the code runs it: the test alarm going from OK to ALARM, its
service tag `test-service`, and a parameter store that answers
`AccessDeniedException`.  `ProcessSQSEvent` does not return an error: the
process exits inside `GetPagerDutyRoutingKey`. -/
theorem ProcessSQSEvent_lookup_denied_exits :
    ProcessSQSEvent deniedEnv sampleCfg (some (sampleEvent "OK" "ALARM" [sampleMetric])) [] =
        (Outcome.exit ("There was an AWS error retrieving ssm key "
            ++ "/service/cw_alert_router/pagerduty/routing_keys/test_service"
            ++ ": AccessDeniedException: not authorized"),
          sampleLogRouted) ∧
      (ProcessSQSEvent deniedEnv sampleCfg
        (some (sampleEvent "OK" "ALARM" [sampleMetric])) []).1.returned = false := by
  decide

/-- C15, amended: an event with the single resource `arn` whose fetched tags
give the non-empty service name `s`; the parameter read fails with an error
`e` other than parameter-not-found.  Then `GetPagerDutyRoutingKey` ends the
process with `log.Fatalf`: `ProcessSQSEvent` does not return, the log holds
the tag lookup and the parameter read only, so no chat message is sent and no
page is submitted. -/
theorem ProcessSQSEvent_lookup_failure_exits (env : Env) (cfg : Config) (d : EventDetails)
    (h0 : List Call) (arn s key : String) (tagList : List (String × String)) (e : GoError)
    (hres : d.Resources = [arn]) (hcw : cfg.cw ≠ none)
    (hfetch : env.ListTagsForResource h0 arn = Except.ok tagList)
    (hname : GetServiceNameFromTags cfg (tagMap tagList) = s) (hs : s ≠ "")
    (hk : key = "/service/cw_alert_router/pagerduty/routing_keys/"
      ++ ReplaceAllHyphens (env.ToLower s))
    (hfail : env.GetParameter (h0 ++ [Call.ListTagsForResource arn]) key = Except.error e)
    (hcode : e.awsCode ≠ some "ParameterNotFound") :
    ProcessSQSEvent env cfg (some d) h0 =
        (Outcome.exit ((if e.awsCode = none then "There was a generic error retrieving ssm key "
            else "There was an AWS error retrieving ssm key ") ++ key ++ ": " ++ e.msg),
          h0 ++ [Call.ListTagsForResource arn, Call.GetParameter key true]) ∧
      (ProcessSQSEvent env cfg (some d) h0).1.returned = false ∧
      dispatchCalls (h0 ++ [Call.ListTagsForResource arn, Call.GetParameter key true]) =
        dispatchCalls h0 := by
  subst hk
  have hrun : ProcessSQSEvent env cfg (some d) h0 =
      (Outcome.exit ((if e.awsCode = none then "There was a generic error retrieving ssm key "
          else "There was an AWS error retrieving ssm key ")
          ++ ("/service/cw_alert_router/pagerduty/routing_keys/"
            ++ ReplaceAllHyphens (env.ToLower s)) ++ ": " ++ e.msg),
        h0 ++ [Call.ListTagsForResource arn,
          Call.GetParameter ("/service/cw_alert_router/pagerduty/routing_keys/"
            ++ ReplaceAllHyphens (env.ToLower s)) true]) := by
    rw [ProcessSQSEvent_of_injected env cfg d h0 arn tagList hres hcw hfetch]
    unfold ProcessSQSEvent.route
    simp only [Run.bind_apply, injected_Tags, hname]
    cases hc : e.awsCode with
    | none =>
      simp [GetPagerDutyRoutingKey, hs, GetParameterValue, perform, Run.bind,
        DefaultPagerDutyRoutingKeySSMPattern, hfail, hc, logFatalf]
    | some code =>
      have hne : code ≠ "ParameterNotFound" := fun h => hcode (by rw [hc, h])
      simp [GetPagerDutyRoutingKey, hs, GetParameterValue, perform, Run.bind,
        DefaultPagerDutyRoutingKeySSMPattern, hfail, hc, logFatalf, hne]
  refine ⟨hrun, ?_, ?_⟩
  · rw [hrun]
    rfl
  · simp [dispatchCalls, List.filter_append, Call.isChat, Call.isPage]

/-- C15, amended, in the sample world with the parameter store denying access. -/
theorem ProcessSQSEvent_lookup_failure_exits_witness :
    ProcessSQSEvent deniedEnv sampleCfg (some (sampleEvent "OK" "ALARM" [sampleMetric])) [] =
        (Outcome.exit ((if (⟨"AccessDeniedException: not authorized",
              some "AccessDeniedException"⟩ : GoError).awsCode = none
            then "There was a generic error retrieving ssm key "
            else "There was an AWS error retrieving ssm key ")
            ++ "/service/cw_alert_router/pagerduty/routing_keys/test_service" ++ ": "
            ++ (⟨"AccessDeniedException: not authorized",
              some "AccessDeniedException"⟩ : GoError).msg),
          [] ++ [Call.ListTagsForResource sampleARN,
            Call.GetParameter "/service/cw_alert_router/pagerduty/routing_keys/test_service"
              true]) ∧
      (ProcessSQSEvent deniedEnv sampleCfg
        (some (sampleEvent "OK" "ALARM" [sampleMetric])) []).1.returned = false ∧
      dispatchCalls ([] ++ [Call.ListTagsForResource sampleARN,
        Call.GetParameter "/service/cw_alert_router/pagerduty/routing_keys/test_service" true]) =
        dispatchCalls [] :=
  ProcessSQSEvent_lookup_failure_exits deniedEnv sampleCfg
    (sampleEvent "OK" "ALARM" [sampleMetric]) [] sampleARN "test-service"
    "/service/cw_alert_router/pagerduty/routing_keys/test_service" sampleTagList
    ⟨"AccessDeniedException: not authorized", some "AccessDeniedException"⟩
    rfl (by decide) rfl (by decide) (by decide) (by decide) rfl (by decide)

/-- C16: an event with the single resource `arn` whose tags are fetched and
whose routing key resolves to the empty string.  Then `ProcessSQSEvent`
returns a non-nil error, and the log stays where the routing-key resolution
left it: after the tag lookup and, for a non-empty service name, the one
parameter read.  No evidence is generated, no chat message sent, no page
submitted. -/
theorem ProcessSQSEvent_empty_routing_key (env : Env) (cfg : Config) (d : EventDetails)
    (h0 h2 : List Call) (arn s : String) (tagList : List (String × String))
    (hres : d.Resources = [arn]) (hcw : cfg.cw ≠ none)
    (hfetch : env.ListTagsForResource h0 arn = Except.ok tagList)
    (hname : GetServiceNameFromTags cfg (tagMap tagList) = s)
    (hkey : GetPagerDutyRoutingKey env cfg s (h0 ++ [Call.ListTagsForResource arn]) =
      (Outcome.ret "", h2)) :
    ProcessSQSEvent env cfg (some d) h0 =
        (Outcome.ret (some (Errorf "failed fetching the pager duty routing key")), h2) ∧
      h2 = h0 ++ [Call.ListTagsForResource arn] ++
        (if s = "" then [] else
          [Call.GetParameter ("/service/cw_alert_router/pagerduty/routing_keys/"
            ++ ReplaceAllHyphens (env.ToLower s)) true]) := by
  constructor
  · rw [ProcessSQSEvent_of_injected env cfg d h0 arn tagList hres hcw hfetch]
    unfold ProcessSQSEvent.route
    simp only [Run.bind_apply, injected_Tags, hname]
    rw [Run.bind_ret hkey]
    simp
  · have hlog := GetPagerDutyRoutingKey_log env cfg s (h0 ++ [Call.ListTagsForResource arn])
    rw [hkey] at hlog
    exact hlog

/-- C16 in the sample world with an empty default routing key, for an alarm
without service tag (no parameter read) and for one whose parameter is empty. -/
theorem ProcessSQSEvent_empty_routing_key_witness :
    (ProcessSQSEvent (sampleEnv [("owner", "test")]) noDefaultKeyCfg
        (some (sampleEvent "OK" "ALARM" [sampleMetric])) [] =
      (Outcome.ret (some (Errorf "failed fetching the pager duty routing key")),
        [Call.ListTagsForResource sampleARN]) ∧
      [Call.ListTagsForResource sampleARN] = [] ++ [Call.ListTagsForResource sampleARN] ++
        (if "" = "" then [] else
          [Call.GetParameter ("/service/cw_alert_router/pagerduty/routing_keys/"
            ++ ReplaceAllHyphens ((sampleEnv [("owner", "test")]).ToLower "")) true])) ∧
    (ProcessSQSEvent emptyValueEnv noDefaultKeyCfg
        (some (sampleEvent "OK" "ALARM" [sampleMetric])) [] =
      (Outcome.ret (some (Errorf "failed fetching the pager duty routing key")),
        sampleLogRouted) ∧
      sampleLogRouted = [] ++ [Call.ListTagsForResource sampleARN] ++
        (if "test-service" = "" then [] else
          [Call.GetParameter ("/service/cw_alert_router/pagerduty/routing_keys/"
            ++ ReplaceAllHyphens (emptyValueEnv.ToLower "test-service")) true])) :=
  ⟨ProcessSQSEvent_empty_routing_key (sampleEnv [("owner", "test")]) noDefaultKeyCfg
     (sampleEvent "OK" "ALARM" [sampleMetric]) [] [Call.ListTagsForResource sampleARN]
     sampleARN "" [("owner", "test")] rfl (by decide) rfl (by decide) (by decide),
   ProcessSQSEvent_empty_routing_key emptyValueEnv noDefaultKeyCfg
     (sampleEvent "OK" "ALARM" [sampleMetric]) [] sampleLogRouted
     sampleARN "test-service" sampleTagList rfl (by decide) rfl (by decide) (by decide)⟩

/-! ## The single resource (C17) -/

/-- C17: `AlarmARN` returns no error exactly when `Resources` has one element,
and then it returns that element; with zero or with two or more resources it
returns the empty string and an error. -/
theorem AlarmARN_iff_single (d : EventDetails) :
    ((AlarmARN d).2 = none ↔ d.Resources.length = 1) ∧
    (∀ r, d.Resources = [r] → AlarmARN d = (r, none)) ∧
    (d.Resources.length ≠ 1 → (AlarmARN d).1 = "" ∧ (AlarmARN d).2 ≠ none) := by
  refine ⟨⟨fun h => ?_, fun h => ?_⟩, fun r hr => AlarmARN_single hr, fun h => ?_⟩
  · by_contra hlen
    rw [AlarmARN_bad hlen] at h
    cases h
  · obtain ⟨r, hr⟩ := List.length_eq_one.mp h
    rw [AlarmARN_single hr]
  · rw [AlarmARN_bad h]
    exact ⟨rfl, by simp⟩

/-- C17 at the test event (one resource), at an event without resource and at
one with two. -/
theorem AlarmARN_iff_single_witness :
    AlarmARN (sampleEvent "OK" "ALARM" [sampleMetric]) = (sampleARN, none) ∧
      (AlarmARN { sampleEvent "OK" "ALARM" [sampleMetric] with Resources := [] }).1 = "" ∧
      (AlarmARN { sampleEvent "OK" "ALARM" [sampleMetric] with Resources := [] }).2 ≠ none ∧
      (AlarmARN { sampleEvent "OK" "ALARM" [sampleMetric] with Resources := ["a", "b"] }).1
        = "" ∧
      (AlarmARN { sampleEvent "OK" "ALARM" [sampleMetric] with Resources := ["a", "b"] }).2
        ≠ none :=
  ⟨(AlarmARN_iff_single (sampleEvent "OK" "ALARM" [sampleMetric])).2.1 sampleARN rfl,
   ((AlarmARN_iff_single { sampleEvent "OK" "ALARM" [sampleMetric] with Resources := [] }).2.2
      (by decide)).1,
   ((AlarmARN_iff_single { sampleEvent "OK" "ALARM" [sampleMetric] with Resources := [] }).2.2
      (by decide)).2,
   ((AlarmARN_iff_single
      { sampleEvent "OK" "ALARM" [sampleMetric] with Resources := ["a", "b"] }).2.2
      (by decide)).1,
   ((AlarmARN_iff_single
      { sampleEvent "OK" "ALARM" [sampleMetric] with Resources := ["a", "b"] }).2.2
      (by decide)).2⟩

/-! ## The metric-data request (C18 to C20) -/

/-- C18: for every event with a CloudWatch client and its metric queries
`m0 :: rest`, `GetMetricDataRequestForHrs` reads the clock and sends one
request; that request holds one query per metric, in order, each carrying the
data of its metric; the ids are `m0`, `m1`, ... by position, whatever ids the
event carries; so every id matches `^[a-z][a-zA-Z0-9_]*$` and no two ids are
equal. -/
theorem GetMetricDataRequestForHrs_query_ids (env : Env) (d : EventDetails) (hrs : List Int)
    (h : List Call) (c : CWClient) (m0 : AlarmMetric) (rest : List AlarmMetric)
    (req : GetMetricDataInput)
    (hc : d.cwClient = some c) (hm : d.Detail.Configuration.Metrics = m0 :: rest)
    (hreq : req = metricRequest (env.Now h) m0 rest hrs) :
    (GetMetricDataRequestForHrs env d hrs h).2 = h ++ [Call.Now, Call.GetMetricData req] ∧
      req.MetricDataQueries.length = d.Detail.Configuration.Metrics.length ∧
      req.MetricDataQueries.map (fun q => q.Id) =
        (List.range d.Detail.Configuration.Metrics.length).map (fun i => "m" ++ toString i) ∧
      req.MetricDataQueries.map (fun q =>
          (q.ReturnData, q.Period, q.Stat, q.MetricName, q.Namespace, q.Dimensions)) =
        d.Detail.Configuration.Metrics.map (fun m =>
          (m.ReturnData, m.MetricStat.Period, m.MetricStat.Stat, m.MetricStat.Metric.Name,
            m.MetricStat.Metric.Namespace, AWSDimensions m.MetricStat.Metric)) ∧
      (∀ q ∈ req.MetricDataQueries, matchesQueryIdPattern q.Id = true) ∧
      (req.MetricDataQueries.map (fun q => q.Id)).Nodup := by
  subst hreq
  have hq : (metricRequest (env.Now h) m0 rest hrs).MetricDataQueries =
      buildQueries 0 d.Detail.Configuration.Metrics := by rw [hm]; rfl
  have hids := buildQueries_ids d.Detail.Configuration.Metrics 0
  rw [← List.range_eq_range'] at hids
  refine ⟨GetMetricDataRequestForHrs_log env d hrs h c m0 rest hc hm, ?_, ?_, ?_, ?_, ?_⟩
  · rw [hq, buildQueries_length]
  · rw [hq, hids]
  · rw [hq, buildQueries_fields]
  · intro q hqm
    have hmem : q.Id ∈ (metricRequest (env.Now h) m0 rest hrs).MetricDataQueries.map
        (fun q => q.Id) := List.mem_map_of_mem _ hqm
    rw [hq, hids] at hmem
    obtain ⟨i, _, hi⟩ := List.mem_map.mp hmem
    rw [← hi]
    exact matchesQueryIdPattern_m i
  · rw [hq, hids]
    refine List.Nodup.map ?_ (List.nodup_range _)
    intro a b hab
    exact Nat_repr_injective (congrArg (fun s : String => String.mk (s.data.drop 1)) hab)

/-- C18 at the test event with two metric queries whose ids are UUIDs: the
queries sent are `m0` and `m1`. -/
theorem GetMetricDataRequestForHrs_query_ids_witness :
    (GetMetricDataRequestForHrs (sampleEnv sampleTagList)
        (sampleClientEvent [sampleMetric, secondMetric]) [] []).2 =
        [] ++ [Call.Now, Call.GetMetricData
          ⟨63731746560000000000, 63731742960000000000, sampleTwoQueries⟩] ∧
      sampleTwoQueries.map (fun q => q.Id) =
        (List.range [sampleMetric, secondMetric].length).map (fun i => "m" ++ toString i) ∧
      (sampleTwoQueries.map (fun q => q.Id)).Nodup :=
  ⟨(GetMetricDataRequestForHrs_query_ids (sampleEnv sampleTagList)
      (sampleClientEvent [sampleMetric, secondMetric]) [] [] {} sampleMetric [secondMetric]
      ⟨63731746560000000000, 63731742960000000000, sampleTwoQueries⟩ rfl rfl (by decide)).1,
   (GetMetricDataRequestForHrs_query_ids (sampleEnv sampleTagList)
      (sampleClientEvent [sampleMetric, secondMetric]) [] [] {} sampleMetric [secondMetric]
      ⟨63731746560000000000, 63731742960000000000, sampleTwoQueries⟩ rfl rfl
      (by decide)).2.2.1,
   (GetMetricDataRequestForHrs_query_ids (sampleEnv sampleTagList)
      (sampleClientEvent [sampleMetric, secondMetric]) [] [] {} sampleMetric [secondMetric]
      ⟨63731746560000000000, 63731742960000000000, sampleTwoQueries⟩ rfl rfl
      (by decide)).2.2.2.2.2⟩

/-- C19, as the code runs it: the test event with a period of 30 seconds, the
clock five seconds past a half minute.  The period is divided by 60 in whole
numbers, the duration is zero, and `Truncate` leaves the time as it is: the
end time of the request is the clock reading, which is no multiple of 30
seconds. -/
theorem GetMetricDataRequestForHrs_sub_minute_unaligned :
    subMinuteMetric.MetricStat.Period = 30 ∧
      (sampleEnv sampleTagList).Now [] = 63731746565000000000 ∧
      (GetMetricDataRequestForHrs (sampleEnv sampleTagList)
          (sampleClientEvent [subMinuteMetric]) [] []).2 =
        [Call.Now, Call.GetMetricData (metricRequest 63731746565000000000 subMinuteMetric [] [])] ∧
      (metricRequest 63731746565000000000 subMinuteMetric [] []).EndTime
        = 63731746565000000000 ∧
      (metricRequest 63731746565000000000 subMinuteMetric [] []).EndTime
        % (30 * 1000000000) = 5000000000 := by
  decide

/-- C20, as the code runs it: the test event with two metric queries, in a
world whose answer to the request holds one result.
`GetMetricDataRequestForHrs` sends both queries and returns that result; it
reports no error. -/
theorem GetMetricDataRequestForHrs_two_queries_accepted :
    (sampleClientEvent [sampleMetric, secondMetric]).Detail.Configuration.Metrics.length = 2 ∧
      GetMetricDataRequestForHrs (sampleEnv sampleTagList)
          (sampleClientEvent [sampleMetric, secondMetric]) [] [] =
        (Outcome.ret (Except.ok
            ⟨[63731746200000000000, 63731746500000000000], [⟨1⟩, ⟨2⟩]⟩),
          [Call.Now, Call.GetMetricData
            ⟨63731746560000000000, 63731742960000000000, sampleTwoQueries⟩]) :=
  ⟨rfl, rfl⟩

/-- C20, amended: for every event with a CloudWatch client and at least one
metric query, one or several, `GetMetricDataRequestForHrs` decides on the
answer to its one request alone: it returns the error of a failed fetch, the
single result of an answer that holds exactly one, and the error "number of
metric data results != 1" for an answer that holds none or several. -/
theorem GetMetricDataRequestForHrs_result (env : Env) (d : EventDetails) (hrs : List Int)
    (h : List Call) (c : CWClient) (m0 : AlarmMetric) (rest : List AlarmMetric)
    (req : GetMetricDataInput)
    (hc : d.cwClient = some c) (hm : d.Detail.Configuration.Metrics = m0 :: rest)
    (hreq : req = metricRequest (env.Now h) m0 rest hrs) :
    (∀ e, env.GetMetricData (h ++ [Call.Now]) req = Except.error e →
      (GetMetricDataRequestForHrs env d hrs h).1 = Outcome.ret (Except.error e)) ∧
    (∀ r, env.GetMetricData (h ++ [Call.Now]) req = Except.ok [r] →
      (GetMetricDataRequestForHrs env d hrs h).1 = Outcome.ret (Except.ok r)) ∧
    (∀ rs, env.GetMetricData (h ++ [Call.Now]) req = Except.ok rs → rs.length ≠ 1 →
      (GetMetricDataRequestForHrs env d hrs h).1 =
        Outcome.ret (Except.error (Errorf ("number of metric data results != 1 (got "
          ++ toString rs.length ++ ")")))) := by
  subst hreq
  rw [GetMetricDataRequestForHrs_unfold env d hrs h c m0 rest hc hm]
  refine ⟨fun e he => ?_, fun r hr => ?_, fun rs hrs1 hlen => ?_⟩
  · simp [Run.bind, perform, he]
  · simp [Run.bind, perform, hr]
  · simp only [Run.bind, perform, hrs1]
    split
    · simp at hlen
    · rfl

/-- C20, amended, at the test event with two metric queries: one result is
returned, two results are refused. -/
theorem GetMetricDataRequestForHrs_result_witness :
    (GetMetricDataRequestForHrs (sampleEnv sampleTagList)
        (sampleClientEvent [sampleMetric, secondMetric]) [] []).1 =
        Outcome.ret (Except.ok ⟨[63731746200000000000, 63731746500000000000], [⟨1⟩, ⟨2⟩]⟩) ∧
      (GetMetricDataRequestForHrs
        { sampleEnv sampleTagList with
          GetMetricData := fun _ _ => Except.ok [⟨[], []⟩, ⟨[], []⟩] }
        (sampleClientEvent [sampleMetric, secondMetric]) [] []).1 =
        Outcome.ret (Except.error (Errorf ("number of metric data results != 1 (got "
          ++ toString [(⟨[], []⟩ : MetricDataResult), ⟨[], []⟩].length ++ ")"))) :=
  ⟨(GetMetricDataRequestForHrs_result (sampleEnv sampleTagList)
      (sampleClientEvent [sampleMetric, secondMetric]) [] [] {} sampleMetric [secondMetric]
      ⟨63731746560000000000, 63731742960000000000, sampleTwoQueries⟩ rfl rfl
      (by decide)).2.1 ⟨[63731746200000000000, 63731746500000000000], [⟨1⟩, ⟨2⟩]⟩ rfl,
   (GetMetricDataRequestForHrs_result
      { sampleEnv sampleTagList with
        GetMetricData := fun _ _ => Except.ok [⟨[], []⟩, ⟨[], []⟩] }
      (sampleClientEvent [sampleMetric, secondMetric]) [] [] {} sampleMetric [secondMetric]
      ⟨63731746560000000000, 63731742960000000000, sampleTwoQueries⟩ rfl rfl
      (by decide)).2.2 [⟨[], []⟩, ⟨[], []⟩] rfl (by decide)⟩

/-! ## Lemmas on the mask -/

theorem maskLoop_eq (rs : List Char) : ∀ k, k ≤ rs.length →
    (List.range k).foldl (fun rs i => rs.set i 'X') rs = List.replicate k 'X' ++ rs.drop k := by
  intro k
  induction k with
  | zero => intro _; simp
  | succ k ih =>
    intro hk
    rw [List.range_succ, List.foldl_append, ih (by omega)]
    simp only [List.foldl_cons, List.foldl_nil]
    have hlen : (List.replicate k 'X').length = k := List.length_replicate _ _
    rw [List.set_append, if_neg (by omega), hlen, Nat.sub_self]
    have hdrop : rs.drop k = rs[k] :: rs.drop (k + 1) := List.drop_eq_getElem_cons (by omega)
    rw [hdrop, List.set_cons_zero, List.replicate_succ', List.append_assoc]
    rfl

theorem maskKey_data (s : String) :
    (maskKey s).data = List.replicate (s.length - 4) 'X' ++ s.data.drop (s.length - 4) := by
  unfold maskKey
  exact maskLoop_eq s.data (s.data.length - 4) (Nat.sub_le _ _)

/-! ## The mask of the routing key (C30) -/

/-- C30: for every string `s` of `n` runes, `maskKey s` has `n` runes; its
last `min n 4` runes are those of `s` and every rune before them is `'X'`; a
string of four runes or fewer is returned as it is; and masking a masked key
changes nothing. -/
theorem maskKey_spec (s : String) :
    (maskKey s).length = s.length ∧
      (maskKey s).data.drop (s.length - 4) = s.data.drop (s.length - 4) ∧
      (s.data.drop (s.length - 4)).length = min s.length 4 ∧
      (maskKey s).data.take (s.length - 4) = List.replicate (s.length - 4) 'X' ∧
      (s.length ≤ 4 → maskKey s = s) ∧
      maskKey (maskKey s) = maskKey s := by
  have hd := maskKey_data s
  have hlen : (maskKey s).length = s.length := by
    show (maskKey s).data.length = s.data.length
    rw [hd]
    simp only [List.length_append, List.length_replicate, List.length_drop, String.length]
    omega
  have hrep : (List.replicate (s.length - 4) 'X').length = s.length - 4 :=
    List.length_replicate _ _
  have hdrop : (maskKey s).data.drop (s.length - 4) = s.data.drop (s.length - 4) := by
    rw [hd, List.drop_append_eq_append_drop, hrep, Nat.sub_self]
    simp
  have htake : (maskKey s).data.take (s.length - 4) = List.replicate (s.length - 4) 'X' := by
    rw [hd, List.take_append_eq_append_take, hrep, Nat.sub_self]
    simp
  refine ⟨hlen, hdrop, ?_, htake, fun h4 => ?_, ?_⟩
  · simp only [List.length_drop, String.length]
    omega
  · have h0 : s.length - 4 = 0 := by omega
    have : (maskKey s).data = s.data := by rw [hd, h0]; simp
    exact String.ext this
  · apply String.ext
    rw [maskKey_data (maskKey s), hlen, hdrop]
    exact hd.symm

/-- C30 at a routing key of nine runes, at one of four, and at a masked key. -/
theorem maskKey_spec_witness :
    maskKey "abc123456" = "XXXXX3456" ∧ maskKey "abcd" = "abcd" ∧
      maskKey (maskKey "abc123456") = maskKey "abc123456" :=
  ⟨by decide, (maskKey_spec "abcd").2.2.2.2.1 (by decide), (maskKey_spec "abc123456").2.2.2.2.2⟩

/-! ## The tag keys of the configuration (C24) -/

/-- C24: after `fetchEnv` the owner tag key is the value of `OWNER_TAG_KEY`
when that is not empty and `owner` otherwise, and the service tag key is the
value of `SERVICE_NAME_TAG_KEY` when that is not empty and `service`
otherwise; `GetOwnerFromTags` and `GetServiceNameFromTags` return the value
the tags hold under that key, and the empty string when the tags hold none. -/
theorem fetchEnv_tag_keys (getenv : String → String) (c : Config) (tags : AlarmTags) :
    (fetchEnv getenv c).OwnerTagKey =
        (if getenv "OWNER_TAG_KEY" ≠ "" then getenv "OWNER_TAG_KEY" else "owner") ∧
      (fetchEnv getenv c).ServiceNameTagKey =
        (if getenv "SERVICE_NAME_TAG_KEY" ≠ "" then getenv "SERVICE_NAME_TAG_KEY"
          else "service") ∧
      (∀ v, GoMap.get tags (fetchEnv getenv c).OwnerTagKey = some v →
        GetOwnerFromTags (fetchEnv getenv c) tags = v) ∧
      (GoMap.get tags (fetchEnv getenv c).OwnerTagKey = none →
        GetOwnerFromTags (fetchEnv getenv c) tags = "") ∧
      (∀ v, GoMap.get tags (fetchEnv getenv c).ServiceNameTagKey = some v →
        GetServiceNameFromTags (fetchEnv getenv c) tags = v) ∧
      (GoMap.get tags (fetchEnv getenv c).ServiceNameTagKey = none →
        GetServiceNameFromTags (fetchEnv getenv c) tags = "") := by
  have hown : (fetchEnv getenv c).OwnerTagKey =
      (if getenv "OWNER_TAG_KEY" ≠ "" then getenv "OWNER_TAG_KEY" else "owner") := by
    simp only [fetchEnv, OwnerTagKeyEnv, DefaultOwnerTagKey]
    by_cases h : getenv "OWNER_TAG_KEY" = "" <;> simp [h]
  have hsvc : (fetchEnv getenv c).ServiceNameTagKey =
      (if getenv "SERVICE_NAME_TAG_KEY" ≠ "" then getenv "SERVICE_NAME_TAG_KEY"
        else "service") := by
    simp only [fetchEnv, ServiceNameTagKeyEnv, DefaultServiceNameTagKey]
    by_cases h : getenv "SERVICE_NAME_TAG_KEY" = "" <;> simp [h]
  refine ⟨hown, hsvc, ?_⟩
  generalize fetchEnv getenv c = c1
  refine ⟨fun v hv => ?_, fun hv => ?_, fun v hv => ?_, fun hv => ?_⟩
  · simp [GetOwnerFromTags, hv]
  · simp [GetOwnerFromTags, hv]
  · simp [GetServiceNameFromTags, hv]
  · simp [GetServiceNameFromTags, hv]

/-- C24 at the cases of `TestGetOwner` and `TestGetServiceName`: no variable
set, and both variables set. -/
theorem fetchEnv_tag_keys_witness :
    GetOwnerFromTags (fetchEnv (fun _ => "") sampleCfg) [("owner", "somebody")] = "somebody" ∧
      GetServiceNameFromTags (fetchEnv (fun _ => "") sampleCfg) [("service", "service1")]
        = "service1" ∧
      GetOwnerFromTags (fetchEnv sampleGetenv sampleCfg) [("some_owner", "other_person")]
        = "other_person" ∧
      GetServiceNameFromTags (fetchEnv sampleGetenv sampleCfg) [("some_service", "service6")]
        = "service6" ∧
      GetOwnerFromTags (fetchEnv sampleGetenv sampleCfg) [("owner", "somebody")] = "" :=
  ⟨(fetchEnv_tag_keys (fun _ => "") sampleCfg [("owner", "somebody")]).2.2.1 "somebody"
      (by decide),
   (fetchEnv_tag_keys (fun _ => "") sampleCfg [("service", "service1")]).2.2.2.2.1 "service1"
      (by decide),
   (fetchEnv_tag_keys sampleGetenv sampleCfg [("some_owner", "other_person")]).2.2.1
      "other_person" (by decide),
   (fetchEnv_tag_keys sampleGetenv sampleCfg [("some_service", "service6")]).2.2.2.2.1
      "service6" (by decide),
   (fetchEnv_tag_keys sampleGetenv sampleCfg [("owner", "somebody")]).2.2.2.1 (by decide)⟩

/-! ## Lemmas on the truncated division -/

theorem tdiv60_cases (p : Int) :
    (0 ≤ p ∧ Int.tdiv p 60 = p / 60) ∨ (p < 0 ∧ Int.tdiv p 60 = -((-p) / 60)) := by
  by_cases hp : 0 ≤ p
  · exact Or.inl ⟨hp, Int.tdiv_eq_ediv hp (by norm_num)⟩
  · refine Or.inr ⟨by omega, ?_⟩
    have h1 : Int.tdiv (-(-p)) 60 = -(Int.tdiv (-p) 60) := Int.neg_tdiv (-p) 60
    rw [Int.neg_neg] at h1
    rw [h1, Int.tdiv_eq_ediv (by omega) (by norm_num)]

/-! ## The paging submission (C27) -/

/-- C27, as the code runs it: the suppressed test alarm, tag
`alerts:suppress_pagerduty` set to `"true"`, with no resource.  `SubmitEvent`
does not return nil: it returns the error of `AlarmARN` (and calls nothing). -/
theorem SubmitEvent_suppressed_without_resource :
    GoMap.get suppressedNoResource.Detail.Tags "alerts:suppress_pagerduty" = some "true" ∧
      SubmitEvent (sampleEnv suppressedTagList) "pagerduty-key-1" suppressedNoResource [] =
        (Outcome.ret (some (Errorf
          "resources in the cloudwatch alarm details must be exactly 1 (we got 0)")), []) := by
  decide

/-- C27, amended: for every routing key and every event, `SubmitEvent` calls
`ManageEvent` exactly once, and returns its answer, when the event has exactly
one resource and `EventAction` is not empty; with another number of resources
it returns the error of `AlarmARN` and calls nothing; with one resource and an
empty action it returns nil and calls nothing.  The second test of the tag
`alerts:suppress_pagerduty` is never true where it stands, since the action is
not empty there; and an event with one resource that carries the tag with
value `"true"` makes `SubmitEvent` return nil without a call. -/
theorem SubmitEvent_calls (env : Env) (key : String) (d : EventDetails) (h : List Call) :
    (∀ arn, d.Resources = [arn] → EventAction d ≠ "" →
      SubmitEvent env key d h =
        (Outcome.ret (env.ManageEvent h (SubmitEvent.event key d arn (EventAction d))),
          h ++ [Call.ManageEvent (SubmitEvent.event key d arn (EventAction d))])) ∧
    (d.Resources.length ≠ 1 →
      SubmitEvent env key d h = (Outcome.ret (AlarmARN d).2, h) ∧ (AlarmARN d).2 ≠ none) ∧
    (∀ arn, d.Resources = [arn] → EventAction d = "" →
      SubmitEvent env key d h = (Outcome.ret none, h)) ∧
    (EventAction d ≠ "" → GoMap.index d.Detail.Tags "alerts:suppress_pagerduty" ≠ "true") ∧
    (∀ arn, d.Resources = [arn] →
      GoMap.get d.Detail.Tags "alerts:suppress_pagerduty" = some "true" →
      SubmitEvent env key d h = (Outcome.ret none, h)) := by
  have hnone : ∀ arn, d.Resources = [arn] → EventAction d = "" →
      SubmitEvent env key d h = (Outcome.ret none, h) := by
    intro arn hres hact
    unfold SubmitEvent
    rw [AlarmARN_single hres]
    simp only [hact, if_true]
    rfl
  refine ⟨fun arn hres hact => SubmitEvent_of_action env key arn d h hres hact, fun hlen => ?_,
    hnone, fun hact => EventAction_index_ne hact, fun arn hres hsup => ?_⟩
  · rw [AlarmARN_bad hlen]
    refine ⟨?_, by simp⟩
    unfold SubmitEvent
    rw [AlarmARN_bad hlen]
    rfl
  · apply hnone arn hres
    simp [EventAction, GoMap.index_eq_of_get hsup]

/-- C27, amended, in the sample world: the test alarm going to ALARM is paged
once, the suppressed one is not, and an event with two resources gets the
error of `AlarmARN`. -/
theorem SubmitEvent_calls_witness :
    SubmitEvent (sampleEnv sampleTagList) "pagerduty-key-1"
        (injected sampleCfg (sampleEvent "OK" "ALARM" [sampleMetric]) (tagMap sampleTagList)) [] =
      (Outcome.ret none,
        [] ++ [Call.ManageEvent (SubmitEvent.event "pagerduty-key-1"
          (injected sampleCfg (sampleEvent "OK" "ALARM" [sampleMetric]) (tagMap sampleTagList))
          sampleARN (EventAction (injected sampleCfg (sampleEvent "OK" "ALARM" [sampleMetric])
            (tagMap sampleTagList))))]) ∧
    SubmitEvent (sampleEnv suppressedTagList) "pagerduty-key-1"
        (injected sampleCfg (sampleEvent "OK" "ALARM" [sampleMetric])
          (tagMap suppressedTagList)) [] = (Outcome.ret none, []) ∧
    (AlarmARN { sampleEvent "OK" "ALARM" [sampleMetric] with Resources := ["a", "b"] }).2
      ≠ none :=
  ⟨(SubmitEvent_calls (sampleEnv sampleTagList) "pagerduty-key-1"
      (injected sampleCfg (sampleEvent "OK" "ALARM" [sampleMetric]) (tagMap sampleTagList))
      []).1 sampleARN rfl (by decide),
   (SubmitEvent_calls (sampleEnv suppressedTagList) "pagerduty-key-1"
      (injected sampleCfg (sampleEvent "OK" "ALARM" [sampleMetric]) (tagMap suppressedTagList))
      []).2.2.2.2 sampleARN rfl (by decide),
   ((SubmitEvent_calls (sampleEnv sampleTagList) "pagerduty-key-1"
      { sampleEvent "OK" "ALARM" [sampleMetric] with Resources := ["a", "b"] } []).2.1
      (by decide)).2⟩

/-! ## Indices and arithmetic of the metric fetch (C28, C29) -/

/-- C28, as the code runs it: the test alarm going to ALARM, for a metric
without recent datapoint (the fetch succeeds with one result that holds no
value and no timestamp).  `CWAlarmSummary` reads `vals.Values[0]` and panics;
`ProcessSQSEvent` panics with it, after the chart is stored and before the
chat message and the page. -/
theorem CWAlarmSummary_without_datapoints_panics :
    CWAlarmSummary emptyDataEnv (sampleClientEvent [sampleMetric]) [] =
        (Outcome.panic "runtime error: index out of range [0] with length 0",
          [Call.Now, Call.GetMetricData sampleRequest]) ∧
      ProcessSQSEvent emptyDataEnv sampleCfg (some (sampleEvent "OK" "ALARM" [sampleMetric])) [] =
        (Outcome.panic "runtime error: index out of range [0] with length 0",
          sampleLogSummary) ∧
      dispatchCalls sampleLogSummary = [] := by
  decide

/-- C29, as the code runs it: the test event with a period of minus
9223372080 seconds.  The whole minutes times `time.Minute` leave the range of
`int64` and wrap around to a positive duration, so the end time is truncated:
it is not the clock reading. -/
theorem GetMetricDataRequestForHrs_negative_period_truncated :
    wrappingMetric.MetricStat.Period = -9223372080 ∧
      wrap64 (Int.tdiv wrappingMetric.MetricStat.Period 60 * Minute) = 9223371993709551616 ∧
      (GetMetricDataRequestForHrs (sampleEnv sampleTagList)
          (sampleClientEvent [wrappingMetric]) [] []).2 =
        [Call.Now, Call.GetMetricData (metricRequest 63731746565000000000 wrappingMetric [] [])] ∧
      (metricRequest 63731746565000000000 wrappingMetric [] []).EndTime =
        55340231962257309696 := by
  decide

/-- C29, amended: for every event with a CloudWatch client, with at least one
metric query `GetMetricDataRequestForHrs` returns (no panic, no exit) for
every period, hours argument, clock reading and answer, after the clock read
and the one request; a period below 60 seconds, zero, or negative down to
minus 9223372079 seconds leaves the end time of the request at the clock
reading.  Without metric query it panics on `Metrics[0]`, right after the
clock read. -/
theorem GetMetricDataRequestForHrs_safe (env : Env) (d : EventDetails) (hrs : List Int)
    (h : List Call) (c : CWClient) (hc : d.cwClient = some c) :
    (∀ m0 rest, d.Detail.Configuration.Metrics = m0 :: rest →
      (GetMetricDataRequestForHrs env d hrs h).1.returned = true ∧
      (GetMetricDataRequestForHrs env d hrs h).2 =
        h ++ [Call.Now, Call.GetMetricData (metricRequest (env.Now h) m0 rest hrs)] ∧
      (-9223372080 < m0.MetricStat.Period → m0.MetricStat.Period < 60 →
        (metricRequest (env.Now h) m0 rest hrs).EndTime = env.Now h)) ∧
    (d.Detail.Configuration.Metrics = [] →
      GetMetricDataRequestForHrs env d hrs h =
        (Outcome.panic "runtime error: index out of range [0] with length 0",
          h ++ [Call.Now])) := by
  refine ⟨fun m0 rest hm => ⟨?_, GetMetricDataRequestForHrs_log env d hrs h c m0 rest hc hm,
    fun hlo hhi => ?_⟩, fun hm => ?_⟩
  · rw [GetMetricDataRequestForHrs_unfold env d hrs h c m0 rest hc hm]
    simp only [Run.bind, perform]
    cases env.GetMetricData (h ++ [Call.Now]) (metricRequest (env.Now h) m0 rest hrs) with
    | error e => rfl
    | ok rs =>
      dsimp only
      split <;> rfl
  · have hq : -153722868 < Int.tdiv m0.MetricStat.Period 60 ∧
        Int.tdiv m0.MetricStat.Period 60 ≤ 0 := by
      rcases tdiv60_cases m0.MetricStat.Period with ⟨_, hd⟩ | ⟨_, hd⟩ <;> rw [hd] <;> omega
    have hq1 := hq.1
    have hq2 := hq.2
    have hMin : Int.tdiv m0.MetricStat.Period 60 * Minute =
        Int.tdiv m0.MetricStat.Period 60 * 60000000000 := rfl
    have hw : wrap64 (Int.tdiv m0.MetricStat.Period 60 * Minute) =
        Int.tdiv m0.MetricStat.Period 60 * Minute :=
      wrap64_of_range _ (by rw [hMin]; omega) (by rw [hMin]; omega)
    have hle : Int.tdiv m0.MetricStat.Period 60 * Minute ≤ 0 := by rw [hMin]; omega
    simp only [metricRequest, hw, Truncate, hle, if_true]
  · unfold GetMetricDataRequestForHrs
    simp only [hc, hm, Run.bind_apply, Run.bind, perform, goPanic]

/-- C29, amended, at the test event with a period of 30 seconds, with a period
of minus 9223372079 seconds, and without metric query. -/
theorem GetMetricDataRequestForHrs_safe_witness :
    (GetMetricDataRequestForHrs (sampleEnv sampleTagList)
        (sampleClientEvent [subMinuteMetric]) [] []).1.returned = true ∧
      (metricRequest ((sampleEnv sampleTagList).Now []) subMinuteMetric [] []).EndTime =
        (sampleEnv sampleTagList).Now [] ∧
      GetMetricDataRequestForHrs (sampleEnv sampleTagList) (sampleClientEvent []) [] [] =
        (Outcome.panic "runtime error: index out of range [0] with length 0",
          [] ++ [Call.Now]) :=
  ⟨((GetMetricDataRequestForHrs_safe (sampleEnv sampleTagList)
      (sampleClientEvent [subMinuteMetric]) [] [] {} rfl).1 subMinuteMetric [] rfl).1,
   ((GetMetricDataRequestForHrs_safe (sampleEnv sampleTagList)
      (sampleClientEvent [subMinuteMetric]) [] [] {} rfl).1 subMinuteMetric [] rfl).2.2
      (by decide) (by decide),
   (GetMetricDataRequestForHrs_safe (sampleEnv sampleTagList)
      (sampleClientEvent []) [] [] {} rfl).2 rfl⟩

/-! ## The object key of the chart (C21) -/

/-- C21, as the code runs it: the evidence step of the sample run.  The key
under which the chart is written starts with a slash, before the prefix; it
is not the prefix followed by the date and the identifier. -/
theorem GenerateMetricsGraphAndLink_key_has_leading_slash :
    GenerateMetricsGraphAndLink (sampleEnv sampleTagList) (sampleClientEvent [sampleMetric])
        sampleCfg [] =
      (Outcome.ret ("https://test.image.host.com/graphs/2020/7/31/"
          ++ "0e4b7a52-6f0c-4d5e-9a53-2f5a3c1d7b90.png", none),
        [Call.Now, Call.GetMetricData sampleRequest, Call.Now, Call.NewUUID,
          Call.PutObject "test-bucket-123"
            "/graphs/2020/7/31/0e4b7a52-6f0c-4d5e-9a53-2f5a3c1d7b90.png" "private"
            [137, 80, 78, 71]]) ∧
      sampleCfg.ImageBucketPrefix = "graphs" ∧
      "/graphs/2020/7/31/0e4b7a52-6f0c-4d5e-9a53-2f5a3c1d7b90.png" ≠
        sampleCfg.ImageBucketPrefix ++ "/" ++ "2020" ++ "/" ++ "7" ++ "/" ++ "31" ++ "/"
          ++ "0e4b7a52-6f0c-4d5e-9a53-2f5a3c1d7b90" ++ ".png" := by
  decide

/-- C21, amended: whenever `GenerateMetricsGraphAndLink` returns a nil error,
the log ends with a clock read, a fresh identifier and one write, in this
order, after the calls of the metric fetch; the write goes to the bucket
`ImageBucket` under the key `objectKeyAt`, which is a slash, the prefix, and
then `/year/month/day/identifier.png` for the date of that clock read and that
identifier; and the link returned is `ImageHost` followed by that key. -/
theorem GenerateMetricsGraphAndLink_key (env : Env) (d : EventDetails) (cfg : Config)
    (h h' : List Call) (url : String)
    (hrun : GenerateMetricsGraphAndLink env d cfg h = (Outcome.ret (url, none), h')) :
    h'.dropLast = (GetMetricDataRequestForHrs env d [] h).2 ++ [Call.Now, Call.NewUUID] ∧
      lastWrite h' = some (cfg.ImageBucket,
        objectKeyAt env cfg (env.Now (GetMetricDataRequestForHrs env d [] h).2)
          (env.NewUUID ((GetMetricDataRequestForHrs env d [] h).2 ++ [Call.Now]))) ∧
      url = cfg.ImageHost ++
        objectKeyAt env cfg (env.Now (GetMetricDataRequestForHrs env d [] h).2)
          (env.NewUUID ((GetMetricDataRequestForHrs env d [] h).2 ++ [Call.Now])) ∧
      objectKeyAt env cfg (env.Now (GetMetricDataRequestForHrs env d [] h).2)
          (env.NewUUID ((GetMetricDataRequestForHrs env d [] h).2 ++ [Call.Now])) =
        "/" ++ (cfg.ImageBucketPrefix ++ "/"
          ++ toString (env.Date (env.Now (GetMetricDataRequestForHrs env d [] h).2)).1 ++ "/"
          ++ toString (env.Date (env.Now (GetMetricDataRequestForHrs env d [] h).2)).2.1 ++ "/"
          ++ toString (env.Date (env.Now (GetMetricDataRequestForHrs env d [] h).2)).2.2 ++ "/"
          ++ env.NewUUID ((GetMetricDataRequestForHrs env d [] h).2 ++ [Call.Now]) ++ ".png") := by
  unfold GenerateMetricsGraphAndLink at hrun
  simp only [bind, Run.bind] at hrun
  rcases hr : GetMetricDataRequestForHrs env d [] h with ⟨o, h1⟩
  rw [hr] at hrun
  have hkey : ∀ (t : Time) (id : String), objectKeyAt env cfg t id =
      "/" ++ (cfg.ImageBucketPrefix ++ "/" ++ toString (env.Date t).1 ++ "/"
        ++ toString (env.Date t).2.1 ++ "/" ++ toString (env.Date t).2.2 ++ "/" ++ id
        ++ ".png") := by
    intro t id
    simp only [objectKeyAt, String.append_assoc]
  cases o with
  | panic s => simp at hrun
  | exit s => simp at hrun
  | ret r =>
    dsimp only at hrun ⊢
    cases r with
    | error err => simp [Run.pure_apply] at hrun
    | ok res =>
      dsimp only at hrun
      unfold CreateFromCWMetricDataResult at hrun
      simp only [Run.bind] at hrun
      by_cases hlen : res.Values.length < res.Timestamps.length
      · simp [hlen, goPanic] at hrun
      · simp only [hlen, if_false] at hrun
        cases hrender : env.Render
            { Width := DefaultGraphWidth, Height := DefaultGraphHeight, YAxisName := "Value",
              XAxisName := "Time", XValues := res.Timestamps,
              YValues := res.Values.take res.Timestamps.length } with
        | error err => simp [hrender, Run.pure_apply] at hrun
        | ok imgBuf =>
          simp only [hrender, Run.pure_apply, perform, WriteBytes, bind, Run.bind] at hrun
          cases hput : env.PutObject (h1 ++ [Call.Now] ++ [Call.NewUUID]) cfg.ImageBucket
              (objectKeyAt env cfg (env.Now h1) (env.NewUUID (h1 ++ [Call.Now]))) imgBuf with
          | some e =>
            simp only [objectKeyAt] at hput
            rw [hput] at hrun
            simp [Run.pure_apply] at hrun
          | none =>
            simp only [objectKeyAt] at hput
            rw [hput] at hrun
            simp only [Run.pure_apply, Prod.mk.injEq, Outcome.ret.injEq] at hrun
            obtain ⟨⟨hurl, _⟩, hlog⟩ := hrun
            subst hlog
            refine ⟨by simp, by simp [lastWrite, objectKeyAt], ?_, hkey _ _⟩
            rw [← hurl]
            rfl

/-- C21, amended, at the evidence step of the sample run: the chart goes to
the test bucket under the sample key, and the link is the image host followed
by that key. -/
theorem GenerateMetricsGraphAndLink_key_witness :
    lastWrite [Call.Now, Call.GetMetricData sampleRequest, Call.Now, Call.NewUUID,
        Call.PutObject "test-bucket-123" sampleObjectKey "private" [137, 80, 78, 71]] =
      some ("test-bucket-123", sampleObjectKey) ∧
    "https://test.image.host.com/graphs/2020/7/31/0e4b7a52-6f0c-4d5e-9a53-2f5a3c1d7b90.png" =
      "https://test.image.host.com" ++ sampleObjectKey ∧
    sampleObjectKey = "/" ++ ("graphs" ++ "/" ++ "2020" ++ "/" ++ "7" ++ "/" ++ "31" ++ "/"
      ++ "0e4b7a52-6f0c-4d5e-9a53-2f5a3c1d7b90" ++ ".png") :=
  ⟨(GenerateMetricsGraphAndLink_key (sampleEnv sampleTagList) (sampleClientEvent [sampleMetric])
      sampleCfg []
      [Call.Now, Call.GetMetricData sampleRequest, Call.Now, Call.NewUUID,
        Call.PutObject "test-bucket-123" sampleObjectKey "private" [137, 80, 78, 71]]
      "https://test.image.host.com/graphs/2020/7/31/0e4b7a52-6f0c-4d5e-9a53-2f5a3c1d7b90.png"
      (by decide)).2.1,
   (GenerateMetricsGraphAndLink_key (sampleEnv sampleTagList) (sampleClientEvent [sampleMetric])
      sampleCfg []
      [Call.Now, Call.GetMetricData sampleRequest, Call.Now, Call.NewUUID,
        Call.PutObject "test-bucket-123" sampleObjectKey "private" [137, 80, 78, 71]]
      "https://test.image.host.com/graphs/2020/7/31/0e4b7a52-6f0c-4d5e-9a53-2f5a3c1d7b90.png"
      (by decide)).2.2.1,
   (GenerateMetricsGraphAndLink_key (sampleEnv sampleTagList) (sampleClientEvent [sampleMetric])
      sampleCfg []
      [Call.Now, Call.GetMetricData sampleRequest, Call.Now, Call.NewUUID,
        Call.PutObject "test-bucket-123" sampleObjectKey "private" [137, 80, 78, 71]]
      "https://test.image.host.com/graphs/2020/7/31/0e4b7a52-6f0c-4d5e-9a53-2f5a3c1d7b90.png"
      (by decide)).2.2.2⟩

/-! ## Lemmas on the handler -/

theorem HandleRequest.loop_cons (env : Env) (cfg : Config) (unmarshal : String → EventDetails)
    (msg : SQSMessage) (rest : List SQSMessage) (h : List Call) :
    HandleRequest.loop env cfg unmarshal (msg :: rest) h =
      match ProcessSQSEvent env cfg (some (unmarshal msg.Body)) h with
      | (Outcome.ret (some e), h1) => (Outcome.ret ("", some e), h1)
      | (Outcome.ret none, h1) => HandleRequest.loop env cfg unmarshal rest h1
      | (Outcome.panic s, h1) => (Outcome.panic s, h1)
      | (Outcome.exit s, h1) => (Outcome.exit s, h1) := by
  rw [HandleRequest.loop]
  simp only [bind, Run.bind]
  rcases ProcessSQSEvent env cfg (some (unmarshal msg.Body)) h with ⟨o, h1⟩
  cases o with
  | ret r => cases r <;> rfl
  | panic s => rfl
  | exit s => rfl

theorem HandleRequest.loop_append (env : Env) (cfg : Config) (unmarshal : String → EventDetails)
    (rest : List SQSMessage) : ∀ (pre : List SQSMessage) (h h1 : List Call),
    processedInOrder env cfg unmarshal pre h = some h1 →
    HandleRequest.loop env cfg unmarshal (pre ++ rest) h =
      HandleRequest.loop env cfg unmarshal rest h1 := by
  intro pre
  induction pre with
  | nil =>
    intro h h1 hp
    simp only [processedInOrder, Option.some.injEq] at hp
    subst hp
    rfl
  | cons msg pre ih =>
    intro h h1 hp
    rw [List.cons_append, HandleRequest.loop_cons]
    rw [processedInOrder] at hp
    rcases hr : ProcessSQSEvent env cfg (some (unmarshal msg.Body)) h with ⟨o, h2⟩
    rw [hr] at hp
    cases o with
    | ret r =>
      cases r with
      | some e => simp at hp
      | none => exact ih h2 h1 hp
    | panic s => simp at hp
    | exit s => simp at hp

theorem HandleRequest.loop_nil_iff (env : Env) (cfg : Config) (unmarshal : String → EventDetails) :
    ∀ (records : List SQSMessage) (h h' : List Call),
    HandleRequest.loop env cfg unmarshal records h = (Outcome.ret ("", none), h') ↔
      processedInOrder env cfg unmarshal records h = some h' := by
  intro records
  induction records with
  | nil =>
    intro h h'
    simp [HandleRequest.loop, processedInOrder, Run.pure_apply]
  | cons msg rest ih =>
    intro h h'
    rw [HandleRequest.loop_cons, processedInOrder]
    rcases ProcessSQSEvent env cfg (some (unmarshal msg.Body)) h with ⟨o, h2⟩
    cases o with
    | ret r =>
      cases r with
      | some e => simp
      | none => exact ih h2 h'
    | panic s => simp
    | exit s => simp

theorem HandleRequest_some (env : Env) (cfg : Config) (unmarshal : String → EventDetails)
    (records : List SQSMessage) (hne : records ≠ []) :
    HandleRequest env (some cfg) unmarshal records =
      HandleRequest.loop env cfg unmarshal records := by
  have hlen : ¬ records.length ≤ 0 := by
    cases records with
    | nil => exact absurd rfl hne
    | cons a l => simp
  simp only [HandleRequest, hlen, if_false]

/-! ## The handler (C23) -/

/-- C23: with a nil configuration, and with an empty batch, `HandleRequest`
returns an error and calls nothing.  With a configuration and records
`pre ++ msg :: post`: when the records of `pre` are processed in order with a
nil error each, and `ProcessSQSEvent` returns an error for `msg` on the log
reached then, `HandleRequest` returns that error and the log is the one at the
end of `msg`, so no record of `post` is processed; when `ProcessSQSEvent`
panics or ends the process there, so does `HandleRequest`, on that log.
`HandleRequest` returns a nil error, on the log `h'`, exactly when the batch is
not empty and all its records are processed in order with a nil error each,
which leads to `h'`. -/
theorem HandleRequest_batch (env : Env) (cfg : Config) (unmarshal : String → EventDetails)
    (h : List Call) :
    (∀ records, HandleRequest env none unmarshal records h =
      (Outcome.ret ("", some (Errorf "lambda Config not initialized")), h)) ∧
    HandleRequest env (some cfg) unmarshal [] h =
      (Outcome.ret ("", some (Errorf "no events to process")), h) ∧
    (∀ pre msg post h1 h2 e, processedInOrder env cfg unmarshal pre h = some h1 →
      ProcessSQSEvent env cfg (some (unmarshal msg.Body)) h1 = (Outcome.ret (some e), h2) →
      HandleRequest env (some cfg) unmarshal (pre ++ msg :: post) h =
        (Outcome.ret ("", some e), h2)) ∧
    (∀ pre msg post h1 h2 s, processedInOrder env cfg unmarshal pre h = some h1 →
      (ProcessSQSEvent env cfg (some (unmarshal msg.Body)) h1 = (Outcome.panic s, h2) →
        HandleRequest env (some cfg) unmarshal (pre ++ msg :: post) h = (Outcome.panic s, h2)) ∧
      (ProcessSQSEvent env cfg (some (unmarshal msg.Body)) h1 = (Outcome.exit s, h2) →
        HandleRequest env (some cfg) unmarshal (pre ++ msg :: post) h = (Outcome.exit s, h2))) ∧
    (∀ records h', HandleRequest env (some cfg) unmarshal records h =
        (Outcome.ret ("", none), h') ↔
      records ≠ [] ∧ processedInOrder env cfg unmarshal records h = some h') := by
  refine ⟨fun records => rfl, rfl, ?_, ?_, ?_⟩
  · intro pre msg post h1 h2 e hpre hmsg
    rw [HandleRequest_some env cfg unmarshal _ (by simp),
      HandleRequest.loop_append env cfg unmarshal _ pre h h1 hpre, HandleRequest.loop_cons, hmsg]
  · intro pre msg post h1 h2 s hpre
    constructor
    · intro hmsg
      rw [HandleRequest_some env cfg unmarshal _ (by simp),
        HandleRequest.loop_append env cfg unmarshal _ pre h h1 hpre, HandleRequest.loop_cons, hmsg]
    · intro hmsg
      rw [HandleRequest_some env cfg unmarshal _ (by simp),
        HandleRequest.loop_append env cfg unmarshal _ pre h h1 hpre, HandleRequest.loop_cons, hmsg]
  · intro records h'
    cases records with
    | nil =>
      constructor
      · intro hrun
        have : HandleRequest env (some cfg) unmarshal [] h =
            (Outcome.ret ("", some (Errorf "no events to process")), h) := rfl
        rw [this] at hrun
        simp at hrun
      · intro hne
        exact absurd rfl hne.1
    | cons msg rest =>
      rw [HandleRequest_some env cfg unmarshal _ (by simp),
        HandleRequest.loop_nil_iff env cfg unmarshal]
      simp

/-- C23 in the sample world.  A batch of three: the alarm is sent, the body
that does not decode is refused by `ProcessSQSEvent` (no resource), and the
recovery after it is not processed.  A batch of two, alarm and recovery: the
error is nil and the log is the one of the two records.  The log of the
first batch holds one chat message and one page, that of the second two of
each. -/
theorem HandleRequest_batch_witness :
    HandleRequest (sampleEnv sampleTagList) (some sampleCfg) sampleUnmarshal
        ([sampleRecord "alarm"] ++ sampleRecord "not an event" :: [sampleRecord "recovery"]) [] =
      (Outcome.ret ("", some (Errorf ("error injecting tags for cloudwatch event: "
          ++ "resources in the cloudwatch alarm details must be exactly 1 (we got 0)"))),
        (ProcessSQSEvent (sampleEnv sampleTagList) sampleCfg
          (some (sampleEvent "OK" "ALARM" [sampleMetric])) []).2) ∧
    HandleRequest (sampleEnv sampleTagList) (some sampleCfg) sampleUnmarshal
        [sampleRecord "alarm", sampleRecord "recovery"] [] =
      (Outcome.ret ("", none),
        (ProcessSQSEvent (sampleEnv sampleTagList) sampleCfg
          (some (sampleEvent "ALARM" "OK" [sampleMetric]))
          (ProcessSQSEvent (sampleEnv sampleTagList) sampleCfg
            (some (sampleEvent "OK" "ALARM" [sampleMetric])) []).2).2) ∧
    (dispatchCalls (ProcessSQSEvent (sampleEnv sampleTagList) sampleCfg
      (some (sampleEvent "OK" "ALARM" [sampleMetric])) []).2).length = 2 ∧
    (dispatchCalls (ProcessSQSEvent (sampleEnv sampleTagList) sampleCfg
      (some (sampleEvent "ALARM" "OK" [sampleMetric]))
      (ProcessSQSEvent (sampleEnv sampleTagList) sampleCfg
        (some (sampleEvent "OK" "ALARM" [sampleMetric])) []).2).2).length = 4 :=
  ⟨(HandleRequest_batch (sampleEnv sampleTagList) sampleCfg sampleUnmarshal []).2.2.1
      [sampleRecord "alarm"] (sampleRecord "not an event") [sampleRecord "recovery"]
      (ProcessSQSEvent (sampleEnv sampleTagList) sampleCfg
        (some (sampleEvent "OK" "ALARM" [sampleMetric])) []).2
      (ProcessSQSEvent (sampleEnv sampleTagList) sampleCfg
        (some (sampleEvent "OK" "ALARM" [sampleMetric])) []).2
      (Errorf ("error injecting tags for cloudwatch event: "
        ++ "resources in the cloudwatch alarm details must be exactly 1 (we got 0)"))
      rfl rfl,
   ((HandleRequest_batch (sampleEnv sampleTagList) sampleCfg sampleUnmarshal []).2.2.2.2
      [sampleRecord "alarm", sampleRecord "recovery"] _).mpr ⟨by decide, rfl⟩,
   by decide, by decide⟩

/-! ## Lemmas on the map of slices -/

theorem StrListMap.lookup_filter_ne (m : StrListMap) (k k' : String) (hne : k' ≠ k) :
    List.lookup k' (m.filter (fun p => p.1 != k)) = List.lookup k' m := by
  induction m with
  | nil => rfl
  | cons p m ih =>
    obtain ⟨a, b⟩ := p
    by_cases hak : a = k
    · subst hak
      have hk : (k' == a) = false := by simpa using hne
      simp [List.filter, List.lookup, hk, ih]
    · have hf : (a != k) = true := by simpa using hak
      simp only [List.filter, hf, List.lookup]
      rw [ih]

theorem StrListMap.index_set (m : StrListMap) (k k' : String) (v : List String) :
    StrListMap.index (StrListMap.set m k v) k' =
      if k' = k then v else StrListMap.index m k' := by
  unfold StrListMap.index StrListMap.set
  by_cases h : k' = k
  · subst h
    simp [List.lookup]
  · have hk : (k' == k) = false := by simpa using h
    simp only [List.lookup, hk, if_neg h]
    rw [StrListMap.lookup_filter_ne m k k' h]

theorem StrListMap.keys_set (m : StrListMap) (k : String) (v : List String) :
    (StrListMap.set m k v).map Prod.fst = k :: (m.map Prod.fst).filter (fun a => a != k) := by
  unfold StrListMap.set
  simp only [List.map_cons, List.filter_map]
  rfl

theorem StrListMap.keys_set_mem (m : StrListMap) (k : String) (v : List String)
    (hnd : (m.map Prod.fst).Nodup) (hk : k ∈ m.map Prod.fst) :
    ((StrListMap.set m k v).map Prod.fst).Nodup ∧
      ∀ a, a ∈ (StrListMap.set m k v).map Prod.fst ↔ a ∈ m.map Prod.fst := by
  rw [StrListMap.keys_set]
  constructor
  · rw [List.nodup_cons]
    refine ⟨by simp, hnd.filter _⟩
  · intro a
    simp only [List.mem_cons, List.mem_filter, bne_iff_ne, ne_eq, decide_eq_true_eq]
    constructor
    · rintro (rfl | ⟨ha, _⟩)
      · exact hk
      · exact ha
    · intro ha
      by_cases hak : a = k
      · exact Or.inl hak
      · exact Or.inr ⟨ha, hak⟩

theorem HoldsMetricLists.names_append {m : StrListMap} {a b c : List String}
    (hm : HoldsMetricLists m a b c) (xs : List String) :
    HoldsMetricLists
      (StrListMap.set m MetricNamesKey (StrListMap.index m MetricNamesKey ++ xs))
      (a ++ xs) b c := by
  obtain ⟨hnd, hkeys, ha, hb, hc⟩ := hm
  have hk : MetricNamesKey ∈ m.map Prod.fst := (hkeys _).2 (Or.inl rfl)
  obtain ⟨hnd', hmem'⟩ := StrListMap.keys_set_mem m MetricNamesKey
    (StrListMap.index m MetricNamesKey ++ xs) hnd hk
  refine ⟨hnd', fun k => (hmem' k).trans (hkeys k), ?_, ?_, ?_⟩
  · rw [StrListMap.index_set, if_pos rfl, ha]
  · rw [StrListMap.index_set, if_neg (by decide), hb]
  · rw [StrListMap.index_set, if_neg (by decide), hc]

theorem HoldsMetricLists.namespaces_append {m : StrListMap} {a b c : List String}
    (hm : HoldsMetricLists m a b c) (xs : List String) :
    HoldsMetricLists
      (StrListMap.set m MetricNamespacesKey (StrListMap.index m MetricNamespacesKey ++ xs))
      a (b ++ xs) c := by
  obtain ⟨hnd, hkeys, ha, hb, hc⟩ := hm
  have hk : MetricNamespacesKey ∈ m.map Prod.fst := (hkeys _).2 (Or.inr (Or.inl rfl))
  obtain ⟨hnd', hmem'⟩ := StrListMap.keys_set_mem m MetricNamespacesKey
    (StrListMap.index m MetricNamespacesKey ++ xs) hnd hk
  refine ⟨hnd', fun k => (hmem' k).trans (hkeys k), ?_, ?_, ?_⟩
  · rw [StrListMap.index_set, if_neg (by decide), ha]
  · rw [StrListMap.index_set, if_pos rfl, hb]
  · rw [StrListMap.index_set, if_neg (by decide), hc]

theorem HoldsMetricLists.dimensions_append {m : StrListMap} {a b c : List String}
    (hm : HoldsMetricLists m a b c) (xs : List String) :
    HoldsMetricLists
      (StrListMap.set m MetricDimensionsKey (StrListMap.index m MetricDimensionsKey ++ xs))
      a b (c ++ xs) := by
  obtain ⟨hnd, hkeys, ha, hb, hc⟩ := hm
  have hk : MetricDimensionsKey ∈ m.map Prod.fst := (hkeys _).2 (Or.inr (Or.inr rfl))
  obtain ⟨hnd', hmem'⟩ := StrListMap.keys_set_mem m MetricDimensionsKey
    (StrListMap.index m MetricDimensionsKey ++ xs) hnd hk
  refine ⟨hnd', fun k => (hmem' k).trans (hkeys k), ?_, ?_, ?_⟩
  · rw [StrListMap.index_set, if_neg (by decide), ha]
  · rw [StrListMap.index_set, if_neg (by decide), hb]
  · rw [StrListMap.index_set, if_pos rfl, hc]

theorem HoldsMetricLists.dimensions_fold (dims : GoMap) : ∀ {m : StrListMap} {a b c : List String},
    HoldsMetricLists m a b c →
    HoldsMetricLists
      (dims.foldl (fun list kv =>
        StrListMap.set list MetricDimensionsKey
          (StrListMap.index list MetricDimensionsKey ++ [kv.1 ++ ":" ++ kv.2])) m)
      a b (c ++ dims.map (fun kv => kv.1 ++ ":" ++ kv.2)) := by
  induction dims with
  | nil => intro m a b c hm; simpa using hm
  | cons kv dims ih =>
    intro m a b c hm
    have h1 := ih (hm.dimensions_append [kv.1 ++ ":" ++ kv.2])
    simpa [List.foldl, List.append_assoc] using h1

theorem HoldsMetricLists.step {m : StrListMap} {a b c : List String}
    (hm : HoldsMetricLists m a b c) (metric : AlarmMetric) :
    HoldsMetricLists (MetricList.step m metric)
      (a ++ [metric.MetricStat.Metric.Name].filter (fun s => s ≠ ""))
      (b ++ [metric.MetricStat.Metric.Namespace].filter (fun s => s ≠ ""))
      (c ++ metric.MetricStat.Metric.Dimensions.map (fun kv => kv.1 ++ ":" ++ kv.2)) := by
  unfold MetricList.step
  apply HoldsMetricLists.dimensions_fold
  have h1 : HoldsMetricLists
      (if metric.MetricStat.Metric.Namespace ≠ "" then
        StrListMap.set m MetricNamespacesKey
          (StrListMap.index m MetricNamespacesKey ++ [metric.MetricStat.Metric.Namespace])
       else m)
      a (b ++ [metric.MetricStat.Metric.Namespace].filter (fun s => s ≠ "")) c := by
    by_cases hns : metric.MetricStat.Metric.Namespace = ""
    · simpa [hns] using hm
    · simpa [hns] using hm.namespaces_append [metric.MetricStat.Metric.Namespace]
  by_cases hn : metric.MetricStat.Metric.Name = ""
  · simpa [hn] using h1
  · simpa [hn] using h1.names_append [metric.MetricStat.Metric.Name]

theorem HoldsMetricLists.fold (metrics : List AlarmMetric) :
    ∀ {m : StrListMap} {a b c : List String}, HoldsMetricLists m a b c →
    HoldsMetricLists (metrics.foldl MetricList.step m)
      (a ++ (metrics.map (fun x => x.MetricStat.Metric.Name)).filter (fun s => s ≠ ""))
      (b ++ (metrics.map (fun x => x.MetricStat.Metric.Namespace)).filter (fun s => s ≠ ""))
      (c ++ (metrics.map (fun x =>
        x.MetricStat.Metric.Dimensions.map (fun kv => kv.1 ++ ":" ++ kv.2))).flatten) := by
  induction metrics with
  | nil => intro m a b c hm; simpa using hm
  | cons x metrics ih =>
    intro m a b c hm
    have h1 := ih (hm.step x)
    simp only [List.foldl, List.map_cons, List.flatten_cons]
    rw [List.filter_cons, List.filter_cons]
    by_cases hn : x.MetricStat.Metric.Name = "" <;>
      by_cases hns : x.MetricStat.Metric.Namespace = "" <;>
      simpa [hn, hns, List.append_assoc] using h1

theorem HoldsMetricLists.init :
    HoldsMetricLists
      (StrListMap.set (StrListMap.set (StrListMap.set [] MetricDimensionsKey [])
        MetricNamesKey []) MetricNamespacesKey []) [] [] [] := by
  refine ⟨by decide, fun k => ?_, rfl, rfl, rfl⟩
  simp [StrListMap.set, MetricNamesKey, MetricNamespacesKey, MetricDimensionsKey]
  tauto

theorem MetricList_holds (d : EventDetails) :
    HoldsMetricLists (MetricList d)
      ((d.Detail.Configuration.Metrics.map (fun x => x.MetricStat.Metric.Name)).filter
        (fun s => s ≠ ""))
      ((d.Detail.Configuration.Metrics.map (fun x => x.MetricStat.Metric.Namespace)).filter
        (fun s => s ≠ ""))
      ((d.Detail.Configuration.Metrics.map (fun x =>
        x.MetricStat.Metric.Dimensions.map (fun kv => kv.1 ++ ":" ++ kv.2))).flatten) := by
  have h := HoldsMetricLists.fold d.Detail.Configuration.Metrics HoldsMetricLists.init
  simpa [MetricList] using h

/-! ## The metric lists (C25) -/

/-- C25: for every event, the map that `MetricList` returns has exactly the
three keys `"names"`, `"namespaces"` and `"dimensions"`, each once.  Under
`"names"` it holds the metric names that are not empty, in the order of the
metric queries; under `"namespaces"` the namespaces that are not empty, in
that order; under `"dimensions"` one entry `key:value` for each dimension of
each metric query (in the order of the metric queries; within one query Go
fixes no order, the model takes that of the association list), so as many
entries as the metric queries have dimensions together.  For the test alarm
the three slices have one entry each. -/
theorem MetricList_spec (d : EventDetails) :
    ((MetricList d).map Prod.fst).Nodup ∧
      ((MetricList d).map Prod.fst).length = 3 ∧
      (∀ k, k ∈ (MetricList d).map Prod.fst ↔
        k = "names" ∨ k = "namespaces" ∨ k = "dimensions") ∧
      StrListMap.index (MetricList d) "names" =
        (d.Detail.Configuration.Metrics.map (fun x => x.MetricStat.Metric.Name)).filter
          (fun s => s ≠ "") ∧
      StrListMap.index (MetricList d) "namespaces" =
        (d.Detail.Configuration.Metrics.map (fun x => x.MetricStat.Metric.Namespace)).filter
          (fun s => s ≠ "") ∧
      StrListMap.index (MetricList d) "dimensions" =
        (d.Detail.Configuration.Metrics.map (fun x =>
          x.MetricStat.Metric.Dimensions.map (fun kv => kv.1 ++ ":" ++ kv.2))).flatten ∧
      (StrListMap.index (MetricList d) "dimensions").length =
        (d.Detail.Configuration.Metrics.map
          (fun x => x.MetricStat.Metric.Dimensions.length)).sum ∧
      (StrListMap.index (MetricList (sampleEvent "OK" "ALARM" [sampleMetric])) "names" =
          ["CPUUtilization"] ∧
        StrListMap.index (MetricList (sampleEvent "OK" "ALARM" [sampleMetric])) "namespaces" =
          ["AWS/EC2"] ∧
        StrListMap.index (MetricList (sampleEvent "OK" "ALARM" [sampleMetric])) "dimensions" =
          ["AutoScalingGroupName:test-service"]) := by
  obtain ⟨hnd, hkeys, hn, hns, hd⟩ := MetricList_holds d
  have hperm : List.Perm ((MetricList d).map Prod.fst) ["names", "namespaces", "dimensions"] := by
    rw [List.perm_ext_iff_of_nodup hnd (by decide)]
    intro k
    rw [hkeys k]
    simp [MetricNamesKey, MetricNamespacesKey, MetricDimensionsKey]
  refine ⟨hnd, hperm.length_eq, hkeys, hn, hns, hd, ?_, by decide⟩
  have hd' : StrListMap.index (MetricList d) "dimensions" = _ := hd
  rw [hd', List.length_flatten, List.map_map]
  congr 1
  apply List.map_congr_left
  intro x _
  simp

/-! ## Lemmas on the formatter of the X axis -/

theorem pad2_below_sixty : ∀ k : Fin 60,
    (pad2 (k.val : Int)).length = 2 ∧ (pad2 (k.val : Int)).data.all Char.isDigit = true := by
  decide

theorem pad2_two_digits (n : Int) (h0 : 0 ≤ n) (h1 : n < 60) :
    (pad2 n).length = 2 ∧ (pad2 n).data.all Char.isDigit = true := by
  obtain ⟨k, rfl⟩ := Int.eq_ofNat_of_zero_le h0
  have hk : k < 60 := by omega
  exact pad2_below_sixty ⟨k, hk⟩

theorem secondsOfDay_range (t : ZonedTime) : 0 ≤ t.secondsOfDay ∧ t.secondsOfDay < 86400 := by
  unfold ZonedTime.secondsOfDay
  omega

theorem timeFormat_time (toInt64 : Float64 → Int) (loc : Int) (t : ZonedTime) :
    timeFormat toInt64 loc (GoValue.time t) =
      pad2 t.UTC.Hour ++ ":" ++ pad2 t.UTC.Minute ++ ":" ++ pad2 t.UTC.Second := rfl

/-! ## The formatter of the X axis (C26) -/

/-- C26: for every time `t`, whatever the offset of its location,
`timeFormat` returns the hour, the minute and the second of the instant of `t`
on the UTC clock, each as two decimal digits, with a colon between them: eight
characters; the hour is below 24, the minute and the second below 60, and
together they are the seconds since midnight UTC; the result does not depend
on the location.  An `int64` is formatted as the instant that many nanoseconds
after the Unix epoch, a `float64` as its conversion to `int64`, and a value of
another type gives the empty string. -/
theorem timeFormat_spec (toInt64 : Float64 → Int) (loc : Int) :
    (∀ t : ZonedTime,
      timeFormat toInt64 loc (GoValue.time t) =
        pad2 t.UTC.Hour ++ ":" ++ pad2 t.UTC.Minute ++ ":" ++ pad2 t.UTC.Second ∧
      (timeFormat toInt64 loc (GoValue.time t)).length = 8 ∧
      ((pad2 t.UTC.Hour).length = 2 ∧ (pad2 t.UTC.Hour).data.all Char.isDigit = true) ∧
      ((pad2 t.UTC.Minute).length = 2 ∧ (pad2 t.UTC.Minute).data.all Char.isDigit = true) ∧
      ((pad2 t.UTC.Second).length = 2 ∧ (pad2 t.UTC.Second).data.all Char.isDigit = true) ∧
      (0 ≤ t.UTC.Hour ∧ t.UTC.Hour < 24) ∧
      (0 ≤ t.UTC.Minute ∧ t.UTC.Minute < 60) ∧
      (0 ≤ t.UTC.Second ∧ t.UTC.Second < 60) ∧
      t.UTC.Hour * 3600 + t.UTC.Minute * 60 + t.UTC.Second =
        (t.instant / 1000000000) % 86400 ∧
      timeFormat toInt64 loc (GoValue.time t) =
        timeFormat toInt64 loc (GoValue.time ⟨t.instant, 0⟩)) ∧
    (∀ n : Int,
      timeFormat toInt64 loc (GoValue.int64 n) =
        timeFormat toInt64 loc (GoValue.time ⟨unixToInternal * 1000000000 + n, 0⟩)) ∧
    (∀ f : Float64,
      timeFormat toInt64 loc (GoValue.float64 f) =
        timeFormat toInt64 loc (GoValue.int64 (toInt64 f))) ∧
    (∀ s : String, timeFormat toInt64 loc (GoValue.other s) = "") ∧
    timeFormat toInt64 loc (GoValue.int64 1596178565000000000) = "06:56:05" := by
  refine ⟨fun t => ?_, fun n => ?_, fun f => rfl, fun s => rfl, rfl⟩
  · have hr := secondsOfDay_range t.UTC
    have hH : 0 ≤ t.UTC.Hour ∧ t.UTC.Hour < 24 := by
      unfold ZonedTime.Hour
      omega
    have hM : 0 ≤ t.UTC.Minute ∧ t.UTC.Minute < 60 := by
      unfold ZonedTime.Minute
      omega
    have hS : 0 ≤ t.UTC.Second ∧ t.UTC.Second < 60 := by
      unfold ZonedTime.Second
      omega
    have hsum : t.UTC.Hour * 3600 + t.UTC.Minute * 60 + t.UTC.Second =
        (t.instant / 1000000000) % 86400 := by
      have hs : t.UTC.secondsOfDay = (t.instant / 1000000000) % 86400 := by
        simp [ZonedTime.secondsOfDay, ZonedTime.UTC]
      rw [← hs]
      unfold ZonedTime.Hour ZonedTime.Minute ZonedTime.Second
      omega
    have pH := pad2_two_digits t.UTC.Hour hH.1 (by omega)
    have pM := pad2_two_digits t.UTC.Minute hM.1 hM.2
    have pS := pad2_two_digits t.UTC.Second hS.1 hS.2
    refine ⟨rfl, ?_, pH, pM, pS, hH, hM, hS, hsum, rfl⟩
    rw [timeFormat_time]
    simp only [String.length_append, pH.1, pM.1, pS.1]
    rfl
  · show pad2 (Unix loc 0 n).UTC.Hour ++ ":" ++ pad2 (Unix loc 0 n).UTC.Minute ++ ":"
        ++ pad2 (Unix loc 0 n).UTC.Second = _
    rw [timeFormat_time]
    have hu : (Unix loc 0 n).UTC = (⟨unixToInternal * 1000000000 + n, 0⟩ : ZonedTime).UTC := by
      simp [Unix, ZonedTime.UTC]
    rw [hu]

/-! ## Lemmas on the codec of the event -/

theorem coerceFrom_of_valid : ∀ (s : GoString) (k : Nat),
    validFrom k s = true → coerceFrom k s = s := by
  intro s
  induction s with
  | nil => intro k _; rfl
  | cons b rest ih =>
    intro k hv
    cases k with
    | succ k =>
      simp only [validFrom] at hv
      simp only [coerceFrom, ih k hv]
    | zero =>
      simp only [validFrom] at hv
      simp only [coerceFrom]
      cases hr : runeLen (b :: rest) with
      | zero => simp [hr] at hv
      | succ n =>
        simp only [hr] at hv
        simp only [ih n hv]

theorem coerceString_of_valid (s : GoString) (hv : ValidString s = true) :
    coerceString s = s :=
  coerceFrom_of_valid s 0 hv

theorem UnmarshalString_MarshalString (s old : GoString) (hv : ValidString s = true) :
    UnmarshalString (MarshalString s) old = s := by
  simp only [MarshalString, UnmarshalString, coerceString_of_valid s hv]

theorem coerceFrom_length_ge : ∀ (s : GoString) (k : Nat), s.length ≤ (coerceFrom k s).length := by
  intro s
  induction s with
  | nil => intro k; simp [coerceFrom]
  | cons b rest ih =>
    intro k
    cases k with
    | succ k =>
      simp only [coerceFrom, List.length_cons]
      have := ih k
      omega
    | zero =>
      simp only [coerceFrom]
      cases hr : runeLen (b :: rest) with
      | zero =>
        simp only [List.length_cons]
        have := ih 0
        omega
      | succ n =>
        simp only [List.length_cons]
        have := ih n
        omega

theorem coerceFrom_length_gt : ∀ (s : GoString) (k : Nat),
    validFrom k s = false → s.length < (coerceFrom k s).length := by
  intro s
  induction s with
  | nil => intro k hv; simp [validFrom] at hv
  | cons b rest ih =>
    intro k hv
    cases k with
    | succ k =>
      simp only [validFrom] at hv
      simp only [coerceFrom, List.length_cons]
      have := ih k hv
      omega
    | zero =>
      simp only [validFrom] at hv
      simp only [coerceFrom]
      cases hr : runeLen (b :: rest) with
      | zero =>
        simp only [List.length_cons]
        have := coerceFrom_length_ge rest 0
        omega
      | succ n =>
        simp only [hr] at hv
        simp only [List.length_cons]
        have := ih n hv
        omega

theorem UnmarshalString_MarshalString_ne (s old : GoString) (hv : ValidString s = false) :
    UnmarshalString (MarshalString s) old ≠ s := by
  intro h
  have h1 : s.length < (coerceString s).length := coerceFrom_length_gt s 0 hv
  have h2 : (coerceString s).length ≤ (coerceString (coerceString s)).length :=
    coerceFrom_length_ge (coerceString s) 0
  have h3 : (coerceString (coerceString s)).length = s.length := congrArg List.length h
  omega

theorem RawMap.get_set (m : RawMap) (k k' v : GoString) :
    RawMap.get (RawMap.set m k v) k' = if k' = k then some v else RawMap.get m k' := by
  unfold RawMap.get RawMap.set
  by_cases h : k' = k
  · subst h
    simp [List.lookup]
  · have hk : (k' == k) = false := by simpa using h
    simp only [List.lookup, hk, if_neg h]
    induction m with
    | nil => rfl
    | cons p m ih =>
      obtain ⟨a, b⟩ := p
      by_cases hak : a = k
      · subst hak
        have hk2 : (k' == a) = false := by simpa using h
        simp [List.filter, List.lookup, hk2, ih]
      · have hf : (a != k) = true := by simpa using hak
        simp only [List.filter, hf, List.lookup]
        rw [ih]

theorem lookup_eq_none_of_not_mem_keys (l : List (GoString × GoString)) (k : GoString)
    (hk : k ∉ l.map Prod.fst) : List.lookup k l = none := by
  induction l with
  | nil => rfl
  | cons p l ih =>
    obtain ⟨a, b⟩ := p
    simp only [List.map_cons, List.mem_cons, not_or] at hk
    have hka : (k == a) = false := by simpa using hk.1
    simp only [List.lookup, hka]
    exact ih hk.2

theorem lookup_eq_some_iff_mem (l : List (GoString × GoString))
    (hnd : (l.map Prod.fst).Nodup) (k v : GoString) :
    List.lookup k l = some v ↔ (k, v) ∈ l := by
  induction l with
  | nil => simp [List.lookup]
  | cons p l ih =>
    obtain ⟨a, b⟩ := p
    simp only [List.map_cons, List.nodup_cons] at hnd
    by_cases hka : k = a
    · subst hka
      simp only [List.lookup, beq_self_eq_true, Option.some.injEq, List.mem_cons, Prod.mk.injEq,
        true_and]
      constructor
      · intro h; exact Or.inl h.symm
      · rintro (h | h)
        · exact h.symm
        · exact absurd (List.mem_map_of_mem Prod.fst h) hnd.1
    · have hk : (k == a) = false := by simpa using hka
      simp only [List.lookup, hk, List.mem_cons, Prod.mk.injEq, hka, false_and, false_or]
      exact ih hnd.2

theorem lookup_perm {l1 l2 : List (GoString × GoString)} (hp : l1.Perm l2)
    (hnd : (l1.map Prod.fst).Nodup) (k : GoString) : List.lookup k l1 = List.lookup k l2 := by
  have hnd2 : (l2.map Prod.fst).Nodup := (hp.map Prod.fst).nodup_iff.1 hnd
  apply Option.ext
  intro v
  simp only [Option.mem_def]
  rw [lookup_eq_some_iff_mem l1 hnd, lookup_eq_some_iff_mem l2 hnd2]
  exact hp.mem_iff

theorem RawMap.entries_keys (m : RawMap) :
    ((RawMap.entries m).map Prod.fst).Nodup ∧
      (∀ k, List.lookup k (RawMap.entries m) = List.lookup k m) ∧
      ∀ kv ∈ RawMap.entries m, kv ∈ m := by
  induction m with
  | nil => exact ⟨List.nodup_nil, fun _ => rfl, fun _ h => h⟩
  | cons p m ih =>
    obtain ⟨a, b⟩ := p
    obtain ⟨hnd, hlook, hsub⟩ := ih
    have hkeys : ((RawMap.entries m).filter (fun p => p.1 != a)).map Prod.fst =
        ((RawMap.entries m).map Prod.fst).filter (fun x => x != a) := by
      rw [List.filter_map]
      rfl
    refine ⟨?_, ?_, ?_⟩
    · simp only [RawMap.entries, List.map_cons, List.nodup_cons]
      rw [hkeys]
      exact ⟨by simp, hnd.filter _⟩
    · intro k
      simp only [RawMap.entries, List.lookup]
      by_cases hka : k = a
      · subst hka
        simp
      · have hk : (k == a) = false := by simpa using hka
        simp only [hk]
        rw [← hlook k]
        have := RawMap.get_set (RawMap.entries m) a k b
        unfold RawMap.get RawMap.set at this
        simp only [List.lookup, hk, if_neg hka] at this
        exact this
    · intro kv hkv
      simp only [RawMap.entries, List.mem_cons] at hkv
      rcases hkv with rfl | hkv
      · exact List.mem_cons_self _ _
      · exact List.mem_cons_of_mem _ (hsub kv (List.mem_filter.1 hkv).1)

theorem RawMap.get_foldl_set (l : List (GoString × GoString)) :
    ∀ (acc : RawMap), (l.map Prod.fst).Nodup → ∀ k,
    RawMap.get (l.foldl (fun m kv => RawMap.set m kv.1 kv.2) acc) k =
      match List.lookup k l with
      | some v => some v
      | none => RawMap.get acc k := by
  induction l with
  | nil => intro acc _ k; rfl
  | cons p l ih =>
    intro acc hnd k
    obtain ⟨a, b⟩ := p
    simp only [List.map_cons, List.nodup_cons] at hnd
    simp only [List.foldl]
    rw [ih (RawMap.set acc a b) hnd.2 k, RawMap.get_set]
    by_cases hka : k = a
    · subst hka
      rw [lookup_eq_none_of_not_mem_keys l k hnd.1]
      simp [List.lookup]
    · have hk : (k == a) = false := by simpa using hka
      simp only [List.lookup, hk, if_neg hka]

theorem foldl_congr_mem {α β : Type} (f g : β → α → β) (l : List α) :
    ∀ (acc : β), (∀ b, ∀ x ∈ l, f b x = g b x) → l.foldl f acc = l.foldl g acc := by
  induction l with
  | nil => intro acc _; rfl
  | cons x l ih =>
    intro acc h
    simp only [List.foldl]
    rw [h acc x (List.mem_cons_self _ _)]
    exact ih _ (fun b y hy => h b y (List.mem_cons_of_mem _ hy))

theorem UnmarshalMap_MarshalMap (m : RawMap) (hv : RawMap.validUTF8 m = true) :
    RawMap.same (UnmarshalMap (MarshalMap m) []) m := by
  intro k
  cases m with
  | nil => rfl
  | cons p m =>
    obtain ⟨hnd, hlook, hsub⟩ := RawMap.entries_keys (p :: m)
    have hperm := List.perm_insertionSort (fun a b : GoString × GoString => a.1 ≤ b.1)
      (RawMap.entries (p :: m))
    have hnd2 : ((List.insertionSort (fun a b : GoString × GoString => a.1 ≤ b.1)
        (RawMap.entries (p :: m))).map Prod.fst).Nodup :=
      (hperm.map Prod.fst).nodup_iff.2 hnd
    have hvalid : ∀ kv ∈ List.insertionSort (fun a b : GoString × GoString => a.1 ≤ b.1)
        (RawMap.entries (p :: m)), ValidString kv.1 = true ∧ ValidString kv.2 = true := by
      intro kv hkv
      have hmem : kv ∈ p :: m := hsub kv (hperm.mem_iff.1 hkv)
      have := List.all_eq_true.1 hv kv hmem
      simpa using this
    simp only [MarshalMap, UnmarshalMap, List.foldl_map]
    rw [foldl_congr_mem _ (fun m kv => RawMap.set m kv.1 kv.2) _ []
      (fun b kv hkv => by
        obtain ⟨h1, h2⟩ := hvalid kv hkv
        simp only [UnmarshalString_MarshalString kv.2 [] h2, coerceString_of_valid kv.1 h1])]
    rw [RawMap.get_foldl_set _ [] hnd2 k, lookup_perm hperm hnd2 k, hlook k]
    unfold RawMap.get
    cases List.lookup k (p :: m) <;> rfl

theorem UnmarshalElements_strings (xs : List GoString) :
    ∀ old : List GoString, (∀ x ∈ xs, ValidString x = true) →
    UnmarshalElements UnmarshalString [] (xs.map MarshalString) old = xs := by
  induction xs with
  | nil => intro old _; rfl
  | cons x xs ih =>
    intro old hv
    simp only [List.map_cons, UnmarshalElements,
      UnmarshalString_MarshalString x _ (hv x (List.mem_cons_self _ _)),
      ih _ (fun y hy => hv y (List.mem_cons_of_mem _ hy))]

theorem UnmarshalStrings_MarshalStrings (xs old : List GoString)
    (hv : xs.all ValidString = true) : UnmarshalStrings (MarshalStrings xs) old = xs := by
  cases xs with
  | nil => rfl
  | cons x xs =>
    simp only [MarshalStrings, UnmarshalStrings]
    exact UnmarshalElements_strings (x :: xs) old (fun y hy => List.all_eq_true.1 hv y hy)

theorem UnmarshalAlarmState_Marshal (s old : RawAlarmState) (hv : s.validUTF8 = true) :
    UnmarshalAlarmState (MarshalAlarmState s) old = s := by
  have hrun : UnmarshalAlarmState (MarshalAlarmState s) old =
      { Value := UnmarshalString (MarshalString s.Value) old.Value
        Timestamp := UnmarshalString (MarshalString s.Timestamp) old.Timestamp
        ReasonData := UnmarshalString (MarshalString s.ReasonData) old.ReasonData
        Reason := UnmarshalString (MarshalString s.Reason) old.Reason } := rfl
  simp only [RawAlarmState.validUTF8, Bool.and_eq_true] at hv
  obtain ⟨⟨⟨h1, h2⟩, h3⟩, h4⟩ := hv
  rw [hrun, UnmarshalString_MarshalString _ _ h1, UnmarshalString_MarshalString _ _ h2,
    UnmarshalString_MarshalString _ _ h3, UnmarshalString_MarshalString _ _ h4]

theorem UnmarshalAlarmMetric_MarshalAlarmMetric (m : RawAlarmMetric)
    (hv : m.validUTF8 = true)
    (hperiod : -9223372036854775808 ≤ m.MetricStat.Period ∧
      m.MetricStat.Period ≤ 9223372036854775807) :
    RawAlarmMetric.same (UnmarshalAlarmMetric (MarshalAlarmMetric m) RawAlarmMetric.zero) m := by
  have hp : UnmarshalInt64 (Json.int m.MetricStat.Period) 0 = m.MetricStat.Period := by
    simp only [UnmarshalInt64, hperiod, and_self, if_true]
  have hrun : UnmarshalAlarmMetric (MarshalAlarmMetric m) RawAlarmMetric.zero =
      { ReturnData := m.ReturnData, ID := UnmarshalString (MarshalString m.ID) [],
        MetricStat :=
          { Stat := UnmarshalString (MarshalString m.MetricStat.Stat) []
            Period := UnmarshalInt64 (Json.int m.MetricStat.Period) 0
            Metric :=
              { Namespace := UnmarshalString (MarshalString m.MetricStat.Metric.Namespace) []
                Name := UnmarshalString (MarshalString m.MetricStat.Metric.Name) []
                Dimensions :=
                  UnmarshalMap (MarshalMap m.MetricStat.Metric.Dimensions) [] } } } := rfl
  simp only [RawAlarmMetric.validUTF8, Bool.and_eq_true] at hv
  obtain ⟨⟨⟨⟨h1, h2⟩, h3⟩, h4⟩, h5⟩ := hv
  rw [hrun, hp, UnmarshalString_MarshalString _ _ h1, UnmarshalString_MarshalString _ _ h2,
    UnmarshalString_MarshalString _ _ h3, UnmarshalString_MarshalString _ _ h4]
  exact ⟨rfl, rfl, rfl, rfl, rfl, rfl, UnmarshalMap_MarshalMap _ h5⟩

theorem UnmarshalElements_metrics (ms : List RawAlarmMetric)
    (hv : ∀ m ∈ ms, m.validUTF8 = true)
    (hperiod : ∀ m ∈ ms, -9223372036854775808 ≤ m.MetricStat.Period ∧
      m.MetricStat.Period ≤ 9223372036854775807) :
    List.Forall₂ RawAlarmMetric.same
      (UnmarshalElements UnmarshalAlarmMetric RawAlarmMetric.zero (ms.map MarshalAlarmMetric) [])
      ms := by
  induction ms with
  | nil => exact List.Forall₂.nil
  | cons m ms ih =>
    simp only [List.map_cons, UnmarshalElements, List.headD_nil, List.tail_nil]
    exact List.Forall₂.cons
      (UnmarshalAlarmMetric_MarshalAlarmMetric m (hv m (List.mem_cons_self _ _))
        (hperiod m (List.mem_cons_self _ _)))
      (ih (fun x hx => hv x (List.mem_cons_of_mem _ hx))
        (fun x hx => hperiod x (List.mem_cons_of_mem _ hx)))

theorem UnmarshalMetrics_Marshal (ms : List RawAlarmMetric)
    (hv : ∀ m ∈ ms, m.validUTF8 = true)
    (hperiod : ∀ m ∈ ms, -9223372036854775808 ≤ m.MetricStat.Period ∧
      m.MetricStat.Period ≤ 9223372036854775807) :
    List.Forall₂ RawAlarmMetric.same
      (UnmarshalAlarmConfiguration (MarshalAlarmConfiguration ⟨ms⟩) ⟨[]⟩).Metrics ms := by
  cases ms with
  | nil => exact List.Forall₂.nil
  | cons m ms => exact UnmarshalElements_metrics (m :: ms) hv hperiod

theorem UnmarshalAlarmEventDetail_Marshal (d : RawAlarmEventDetail) :
    UnmarshalAlarmEventDetail (MarshalAlarmEventDetail d) RawAlarmEventDetail.zero =
      { State := UnmarshalAlarmState (MarshalAlarmState d.State) RawAlarmState.zero
        PreviousState :=
          UnmarshalAlarmState (MarshalAlarmState d.PreviousState) RawAlarmState.zero
        Configuration :=
          UnmarshalAlarmConfiguration (MarshalAlarmConfiguration d.Configuration) ⟨[]⟩
        AlarmName := UnmarshalString (MarshalString d.AlarmName) []
        Tags := UnmarshalMap (MarshalMap d.Tags) [] } := by
  have h1 : ∀ (x : RawAlarmEventDetail) (j : Json),
      UnmarshalAlarmEventDetail.member x (utf8 "state", j) =
      { x with State := UnmarshalAlarmState j x.State } := fun _ _ => rfl
  have h2 : ∀ (x : RawAlarmEventDetail) (j : Json),
      UnmarshalAlarmEventDetail.member x (utf8 "previousState", j) =
      { x with PreviousState := UnmarshalAlarmState j x.PreviousState } := fun _ _ => rfl
  have h3 : ∀ (x : RawAlarmEventDetail) (j : Json),
      UnmarshalAlarmEventDetail.member x (utf8 "configuration", j) =
      { x with Configuration := UnmarshalAlarmConfiguration j x.Configuration } :=
    fun _ _ => rfl
  have h4 : ∀ (x : RawAlarmEventDetail) (j : Json),
      UnmarshalAlarmEventDetail.member x (utf8 "alarmName", j) =
      { x with AlarmName := UnmarshalString j x.AlarmName } := fun _ _ => rfl
  have h5 : ∀ (x : RawAlarmEventDetail) (j : Json),
      UnmarshalAlarmEventDetail.member x (utf8 "tags", j) =
      { x with Tags := UnmarshalMap j x.Tags } := fun _ _ => rfl
  simp only [UnmarshalAlarmEventDetail, MarshalAlarmEventDetail, List.foldl, h1, h2, h3, h4, h5]
  rfl

theorem UnmarshalEventDetails_Marshal (e : RawEventDetails) :
    UnmarshalEventDetails (MarshalEventDetails e) RawEventDetails.zero =
      { Account := UnmarshalString (MarshalString e.Account) []
        Version := UnmarshalString (MarshalString e.Version) []
        Time := UnmarshalString (MarshalString e.Time) []
        Source := UnmarshalString (MarshalString e.Source) []
        Resources := UnmarshalStrings (MarshalStrings e.Resources) []
        Region := UnmarshalString (MarshalString e.Region) []
        ID := UnmarshalString (MarshalString e.ID) []
        DetailType := UnmarshalString (MarshalString e.DetailType) []
        Detail :=
          UnmarshalAlarmEventDetail (MarshalAlarmEventDetail e.Detail) RawAlarmEventDetail.zero
        cwClient := none } := by
  have h1 : ∀ (x : RawEventDetails) (j : Json),
      UnmarshalEventDetails.member x (utf8 "account", j) =
      { x with Account := UnmarshalString j x.Account } := fun _ _ => rfl
  have h2 : ∀ (x : RawEventDetails) (j : Json),
      UnmarshalEventDetails.member x (utf8 "version", j) =
      { x with Version := UnmarshalString j x.Version } := fun _ _ => rfl
  have h3 : ∀ (x : RawEventDetails) (j : Json),
      UnmarshalEventDetails.member x (utf8 "time", j) =
      { x with Time := UnmarshalString j x.Time } := fun _ _ => rfl
  have h4 : ∀ (x : RawEventDetails) (j : Json),
      UnmarshalEventDetails.member x (utf8 "source", j) =
      { x with Source := UnmarshalString j x.Source } := fun _ _ => rfl
  have h5 : ∀ (x : RawEventDetails) (j : Json),
      UnmarshalEventDetails.member x (utf8 "resources", j) =
      { x with Resources := UnmarshalStrings j x.Resources } := fun _ _ => rfl
  have h6 : ∀ (x : RawEventDetails) (j : Json),
      UnmarshalEventDetails.member x (utf8 "region", j) =
      { x with Region := UnmarshalString j x.Region } := fun _ _ => rfl
  have h7 : ∀ (x : RawEventDetails) (j : Json),
      UnmarshalEventDetails.member x (utf8 "id", j) =
      { x with ID := UnmarshalString j x.ID } := fun _ _ => rfl
  have h8 : ∀ (x : RawEventDetails) (j : Json),
      UnmarshalEventDetails.member x (utf8 "detail-type", j) =
      { x with DetailType := UnmarshalString j x.DetailType } := fun _ _ => rfl
  have h9 : ∀ (x : RawEventDetails) (j : Json),
      UnmarshalEventDetails.member x (utf8 "detail", j) =
      { x with Detail := UnmarshalAlarmEventDetail j x.Detail } := fun _ _ => rfl
  simp only [UnmarshalEventDetails, MarshalEventDetails, List.foldl, h1, h2, h3, h4, h5, h6, h7,
    h8, h9]
  rfl

theorem validFrom_encodeRune (c : Char) (rest : GoString) :
    validFrom 0 (encodeRune c ++ rest) = validFrom 0 rest := by
  have hv : c.toNat < 0xD800 ∨ (0xDFFF < c.toNat ∧ c.toNat < 0x110000) := c.valid
  unfold encodeRune
  generalize c.toNat = v at hv
  by_cases h1 : v < 0x80
  · simp only [h1, if_true, List.cons_append, List.nil_append, validFrom, runeLen]
  · by_cases h2 : v < 0x800
    · have a1 : ¬ (0xC0 + v / 64 < 0x80) := by omega
      have a2 : 0xC2 ≤ 0xC0 + v / 64 ∧ 0xC0 + v / 64 ≤ 0xDF := by omega
      have a3 : 0x80 ≤ 0x80 + v % 64 ∧ 0x80 + v % 64 ≤ 0xBF := by omega
      simp only [h1, h2, if_true, if_false, List.cons_append, List.nil_append, validFrom, runeLen,
        a1, a2, a3, and_self]
    · by_cases h3 : v < 0x10000
      · have a1 : ¬ (0xE0 + v / 4096 < 0x80) := by omega
        have a2 : ¬ (0xC2 ≤ 0xE0 + v / 4096 ∧ 0xE0 + v / 4096 ≤ 0xDF) := by omega
        have a3 : 0xE0 ≤ 0xE0 + v / 4096 ∧ 0xE0 + v / 4096 ≤ 0xEF := by omega
        have a4 : (if 0xE0 + v / 4096 = 0xE0 then 0xA0 else 0x80) ≤ 0x80 + v / 64 % 64 ∧
            0x80 + v / 64 % 64 ≤ (if 0xE0 + v / 4096 = 0xED then 0x9F else 0xBF) ∧
            0x80 ≤ 0x80 + v % 64 ∧ 0x80 + v % 64 ≤ 0xBF := by
          split_ifs <;> omega
        simp only [h1, h2, h3, if_true, if_false, List.cons_append, List.nil_append, validFrom,
          runeLen, a1, a2, a3, a4, and_self]
      · have a1 : ¬ (0xF0 + v / 262144 < 0x80) := by omega
        have a2 : ¬ (0xC2 ≤ 0xF0 + v / 262144 ∧ 0xF0 + v / 262144 ≤ 0xDF) := by omega
        have a3 : ¬ (0xE0 ≤ 0xF0 + v / 262144 ∧ 0xF0 + v / 262144 ≤ 0xEF) := by omega
        have a4 : 0xF0 ≤ 0xF0 + v / 262144 ∧ 0xF0 + v / 262144 ≤ 0xF4 := by omega
        have a5 : (if 0xF0 + v / 262144 = 0xF0 then 0x90 else 0x80) ≤ 0x80 + v / 4096 % 64 ∧
            0x80 + v / 4096 % 64 ≤ (if 0xF0 + v / 262144 = 0xF4 then 0x8F else 0xBF) ∧
            0x80 ≤ 0x80 + v / 64 % 64 ∧ 0x80 + v / 64 % 64 ≤ 0xBF ∧
            0x80 ≤ 0x80 + v % 64 ∧ 0x80 + v % 64 ≤ 0xBF := by
          split_ifs <;> omega
        simp only [h1, h2, h3, if_true, if_false, List.cons_append, List.nil_append, validFrom,
          runeLen, a1, a2, a3, a4, a5, and_self]

theorem utf8_valid (s : String) : ValidString (utf8 s) = true := by
  unfold ValidString utf8
  induction s.data with
  | nil => rfl
  | cons c cs ih =>
    simp only [List.map_cons, List.flatten_cons]
    rw [validFrom_encodeRune]
    exact ih

theorem GoMap_raw_valid (m : GoMap) : RawMap.validUTF8 (GoMap.raw m) = true := by
  unfold RawMap.validUTF8 GoMap.raw
  rw [List.all_eq_true]
  intro kv hkv
  obtain ⟨p, _, rfl⟩ := List.mem_map.1 hkv
  simp only [utf8_valid, Bool.and_self]

theorem EventDetails_raw_valid (e : EventDetails) : e.raw.validUTF8 = true := by
  simp [RawEventDetails.validUTF8, EventDetails.raw, AlarmState.raw, RawAlarmState.validUTF8,
    AlarmMetric.raw, RawAlarmMetric.validUTF8, utf8_valid, GoMap_raw_valid]

/-! ## The round trip of the event (C22) -/

set_option maxRecDepth 100000

/-- C22, as the code runs it: the test event with an account that is the one
byte FF, which is a Go string and not UTF-8.  The encoder writes the rune
U+FFFD for that byte, so the account that comes back is the three bytes
EF BF BD: not the account of the event. -/
theorem Unmarshal_Marshal_invalid_utf8 :
    sampleInvalidEvent.Account = [0xFF] ∧
      ValidString sampleInvalidEvent.Account = false ∧
      (UnmarshalEventDetails (MarshalEventDetails sampleInvalidEvent)
        RawEventDetails.zero).Account = [0xEF, 0xBF, 0xBD] ∧
      (UnmarshalEventDetails (MarshalEventDetails sampleInvalidEvent)
        RawEventDetails.zero).Account ≠ sampleInvalidEvent.Account := by
  decide

/-- C22, amended: for every event `e` whose strings are valid UTF-8 (the
string fields, the resources, the strings of the two states and of the metric
queries, the keys and values of the dimensions among them) and whose periods
are `int64` values, decoding the encoding of `e` into a fresh `EventDetails`
gives an event with the account, version, time, source, resources, region, id,
detail type, alarm name and the two states of `e`, and with as many metric
queries, each equal to the one of `e` at its place in return flag, id,
statistic, period, namespace and name, and with the same dimensions under
every key.  When the keys and values of the tags are valid UTF-8 the tags come
back as well, the same under every key: the struct gives them the member
`tags`.  The CloudWatch client does not come back: the field is not
exported.  The condition on the strings is needed: a string comes back from
its encoding exactly when it is valid UTF-8, and so does the account of any
event. -/
theorem Unmarshal_Marshal_roundtrip (e : RawEventDetails) (hvalid : e.validUTF8 = true)
    (hperiod : ∀ m ∈ e.Detail.Configuration.Metrics,
      -9223372036854775808 ≤ m.MetricStat.Period ∧ m.MetricStat.Period ≤ 9223372036854775807) :
    (UnmarshalEventDetails (MarshalEventDetails e) RawEventDetails.zero).Account = e.Account ∧
    (UnmarshalEventDetails (MarshalEventDetails e) RawEventDetails.zero).Version = e.Version ∧
    (UnmarshalEventDetails (MarshalEventDetails e) RawEventDetails.zero).Time = e.Time ∧
    (UnmarshalEventDetails (MarshalEventDetails e) RawEventDetails.zero).Source = e.Source ∧
    (UnmarshalEventDetails (MarshalEventDetails e) RawEventDetails.zero).Resources =
      e.Resources ∧
    (UnmarshalEventDetails (MarshalEventDetails e) RawEventDetails.zero).Region = e.Region ∧
    (UnmarshalEventDetails (MarshalEventDetails e) RawEventDetails.zero).ID = e.ID ∧
    (UnmarshalEventDetails (MarshalEventDetails e) RawEventDetails.zero).DetailType =
      e.DetailType ∧
    (UnmarshalEventDetails (MarshalEventDetails e) RawEventDetails.zero).Detail.AlarmName =
      e.Detail.AlarmName ∧
    (UnmarshalEventDetails (MarshalEventDetails e) RawEventDetails.zero).Detail.State =
      e.Detail.State ∧
    (UnmarshalEventDetails (MarshalEventDetails e) RawEventDetails.zero).Detail.PreviousState =
      e.Detail.PreviousState ∧
    List.Forall₂ RawAlarmMetric.same
      (UnmarshalEventDetails (MarshalEventDetails e)
        RawEventDetails.zero).Detail.Configuration.Metrics
      e.Detail.Configuration.Metrics ∧
    (RawMap.validUTF8 e.Detail.Tags = true →
      RawMap.same
        (UnmarshalEventDetails (MarshalEventDetails e) RawEventDetails.zero).Detail.Tags
        e.Detail.Tags) ∧
    (UnmarshalEventDetails (MarshalEventDetails e) RawEventDetails.zero).cwClient = none ∧
    (∀ s old : GoString, UnmarshalString (MarshalString s) old = s ↔ ValidString s = true) ∧
    (∀ x : RawEventDetails,
      (UnmarshalEventDetails (MarshalEventDetails x) RawEventDetails.zero).Account = x.Account ↔
        ValidString x.Account = true) := by
  have hiff : ∀ s old : GoString,
      UnmarshalString (MarshalString s) old = s ↔ ValidString s = true := by
    intro s old
    constructor
    · intro h
      cases hs : ValidString s with
      | true => rfl
      | false => exact absurd h (UnmarshalString_MarshalString_ne s old hs)
    · exact UnmarshalString_MarshalString s old
  have hacc : ∀ x : RawEventDetails,
      (UnmarshalEventDetails (MarshalEventDetails x) RawEventDetails.zero).Account = x.Account ↔
        ValidString x.Account = true := by
    intro x
    rw [UnmarshalEventDetails_Marshal x]
    exact hiff x.Account []
  simp only [RawEventDetails.validUTF8, Bool.and_eq_true] at hvalid
  obtain ⟨⟨⟨⟨⟨⟨⟨⟨⟨⟨⟨h1, h2⟩, h3⟩, h4⟩, h5⟩, h6⟩, h7⟩, h8⟩, h9⟩, h10⟩, h11⟩, h12⟩ := hvalid
  rw [UnmarshalEventDetails_Marshal e, UnmarshalAlarmEventDetail_Marshal e.Detail]
  dsimp only
  exact ⟨UnmarshalString_MarshalString e.Account [] h1,
    UnmarshalString_MarshalString e.Version [] h2, UnmarshalString_MarshalString e.Time [] h3,
    UnmarshalString_MarshalString e.Source [] h4,
    UnmarshalStrings_MarshalStrings e.Resources [] h5,
    UnmarshalString_MarshalString e.Region [] h6, UnmarshalString_MarshalString e.ID [] h7,
    UnmarshalString_MarshalString e.DetailType [] h8,
    UnmarshalString_MarshalString e.Detail.AlarmName [] h9,
    UnmarshalAlarmState_Marshal e.Detail.State RawAlarmState.zero h10,
    UnmarshalAlarmState_Marshal e.Detail.PreviousState RawAlarmState.zero h11,
    UnmarshalMetrics_Marshal e.Detail.Configuration.Metrics
      (fun m hm => List.all_eq_true.1 h12 m hm) hperiod,
    fun ht => UnmarshalMap_MarshalMap e.Detail.Tags ht, rfl, hiff, hacc⟩

/-- C22, amended, at the test event as Go holds it, with its client set: the
round trip gives the test event without client; and the document of the test,
with its members in another order, without tags and with a member that has no
field, decodes to the test event. -/
theorem Unmarshal_Marshal_roundtrip_witness :
    (UnmarshalEventDetails (MarshalEventDetails (sampleClientEvent [sampleMetric]).raw)
        RawEventDetails.zero).Resources = [utf8 sampleARN] ∧
      List.Forall₂ RawAlarmMetric.same
        (UnmarshalEventDetails (MarshalEventDetails (sampleClientEvent [sampleMetric]).raw)
          RawEventDetails.zero).Detail.Configuration.Metrics [sampleMetric.raw] ∧
      (UnmarshalEventDetails (MarshalEventDetails (sampleClientEvent [sampleMetric]).raw)
        RawEventDetails.zero).cwClient = none ∧
      UnmarshalEventDetails (MarshalEventDetails (sampleClientEvent [sampleMetric]).raw)
        RawEventDetails.zero = (sampleEvent "OK" "ALARM" [sampleMetric]).raw ∧
      UnmarshalEventDetails sampleEventJSON RawEventDetails.zero =
        (sampleEvent "INSUFFICIENT_DATA" "OK" [sampleMetric]).raw :=
  ⟨(Unmarshal_Marshal_roundtrip (sampleClientEvent [sampleMetric]).raw
      (EventDetails_raw_valid _) (by decide)).2.2.2.2.1,
   (Unmarshal_Marshal_roundtrip (sampleClientEvent [sampleMetric]).raw
      (EventDetails_raw_valid _) (by decide)).2.2.2.2.2.2.2.2.2.2.2.1,
   (Unmarshal_Marshal_roundtrip (sampleClientEvent [sampleMetric]).raw
      (EventDetails_raw_valid _) (by decide)).2.2.2.2.2.2.2.2.2.2.2.2.2.1,
   by decide, by decide⟩

end CwAlertRouter
